import Mathlib

/-!
# Event-triggered bare-metal scheduler: tick counters, cooperative dispatch, statecharts

Shallow embedding of `app.c`, `task_system.c` and `task_actuator.c`.

* C globals become fields of one record `State`; every C function becomes a function on `State`.
* `uint32_t` variables are natural numbers; `++`, `--` and `+=` are taken modulo `2 ^ 32`.
* Calls that leave the translated files (GPIO writes, mailbox puts, timer readings) and entries
  into the translated functions are appended to `State.trace`, so that "is called exactly once,
  in this order" is a statement about a list.
* The `while` loops are bounded by a fuel argument and return `none` when it runs out; the
  theorems show how much fuel is enough.
* No interrupt fires inside one call: `HAL_SYSTICK_Callback` is a step of its own, taken
  between calls.
* `task_sensor.c`, the event queue, the actuator mailbox and the enumerations are not among the
  translated files; what stands for them is marked as modelled from the spec.
-/

namespace TdseModel

/-! ## Enumerations and records -/

/-- Modelled from the spec: the enumeration `task_system_st_t` is declared in
`task_system_attribute.h`, which is not among the sources. The constructors are the seven
enumerators named by the `switch` of `task_system_statechart`; `invalid` stands for every other
value the underlying integer can hold. -/
inductive task_system_st_t where
  | ST_SYS_IDLE
  | ST_SYS_ACTIVE_01
  | ST_SYS_ACTIVE_02
  | ST_SYS_ACTIVE_03
  | ST_SYS_ACTIVE_04
  | ST_SYS_ACTIVE_05
  | ST_SYS_ACTIVE_06
  | invalid (raw : Nat)
  deriving DecidableEq, Repr

/-- Modelled from the spec: the enumeration `task_system_ev_t` is declared in
`task_system_attribute.h`, which is not among the sources. The constructors are the enumerators
the sources name; `other` stands for every further event code. -/
inductive task_system_ev_t where
  | EV_SYS_IDLE
  | EV_SYS_LOOP_DET
  | other (raw : Nat)
  deriving DecidableEq, Repr

/-- Modelled from the spec: the enumeration `task_actuator_st_t` is declared in
`task_actuator_attribute.h`, which is not among the sources. The constructors are the five
enumerators named by the `switch` of `task_actuator_statechart`; `invalid` stands for every other
value the underlying integer can hold. -/
inductive task_actuator_st_t where
  | ST_LED_XX_OFF
  | ST_LED_XX_ON
  | ST_LED_XX_BLINK_ON
  | ST_LED_XX_BLINK_OFF
  | ST_LED_XX_PULSE
  | invalid (raw : Nat)
  deriving DecidableEq, Repr

/-- Modelled from the spec: the enumeration `task_actuator_ev_t` is declared in
`task_actuator_attribute.h`, which is not among the sources. The constructors are the enumerators
the sources name; `other` stands for every further event code. -/
inductive task_actuator_ev_t where
  | EV_LED_XX_OFF
  | EV_LED_XX_ON
  | EV_LED_XX_NOT_BLINK
  | other (raw : Nat)
  deriving DecidableEq, Repr

/-- Record `task_system_dta_t`, fields in the order of the initialiser of `task_system_dta`. -/
structure task_system_dta_t where
  tick : Nat
  state : task_system_st_t
  event : task_system_ev_t
  flag : Bool
  deriving DecidableEq, Repr

/-- Record `task_actuator_dta_t`, fields in the order of the initialiser of
`task_actuator_dta_list`. -/
structure task_actuator_dta_t where
  tick : Nat
  state : task_actuator_st_t
  event : task_actuator_ev_t
  flag : Bool
  deriving DecidableEq, Repr

/-- Record `task_actuator_cfg_t`, fields in the order of the initialiser of
`task_actuator_cfg_list`. The header declaring it is not among the sources: the four fields the
code reads keep their names, the other three are named after what the initialiser puts there. -/
structure task_actuator_cfg_t where
  identifier : Nat
  gpio_port : Nat
  pin : Nat
  led_on : Nat
  led_off : Nat
  tick_blink : Nat
  tick_pulse : Nat
  deriving DecidableEq, Repr

/-- Record `task_dta_t` of `app.c`. -/
structure task_dta_t where
  WCET : Nat
  deriving DecidableEq, Repr

/-- One observable call: an entry into a function of the tasks, or a call that leaves the
translated files. `parameters` is the `void *` handle (`none` is `NULL`). An entry of
`cycle_counter_get_time_us` carries the value returned and the `index` of the task `app_update`
read it for. -/
inductive Call where
  | task_sensor_init (parameters : Option Nat)
  | task_system_init (parameters : Option Nat)
  | task_actuator_init (parameters : Option Nat)
  | task_sensor_update (parameters : Option Nat)
  | task_system_update (parameters : Option Nat)
  | task_actuator_update (parameters : Option Nat)
  | task_sensor_statechart
  | task_system_statechart
  | task_actuator_statechart
  | init_queue_event_task_system
  | put_event_task_actuator (event : task_actuator_ev_t) (identifier : Nat)
  | HAL_GPIO_WritePin (gpio_port pin level : Nat)
  | cycle_counter_init
  | cycle_counter_reset
  | cycle_counter_get_time_us (index time_us : Nat)
  deriving DecidableEq, Repr

/-- All global variables of the three translation units, the event queue of the system task,
and the history of observable calls. -/
structure State where
  g_app_cnt : Nat
  g_app_runtime_us : Nat
  g_app_tick_cnt : Nat
  task_dta_list : List task_dta_t
  g_task_sensor_tick_cnt : Nat
  g_task_system_cnt : Nat
  g_task_system_tick_cnt : Nat
  task_system_dta : task_system_dta_t
  queue : List task_system_ev_t
  g_task_actuator_cnt : Nat
  g_task_actuator_tick_cnt : Nat
  task_actuator_dta_list : List task_actuator_dta_t
  trace : List Call
  deriving DecidableEq, Repr

/-- What the translated files take from outside: the board configuration of the actuators, the
readings of the cycle counter, and what one step of the sensor task does to the event queue.
The last two may depend on everything that happened so far. -/
structure Env where
  task_actuator_cfg_list : List task_actuator_cfg_t
  cycle_counter_get_time_us : List Call → Nat
  task_sensor_statechart : List Call → List task_system_ev_t → List task_system_ev_t

/-! ## Constants -/

def G_APP_CNT_INI : Nat := 0
def G_APP_TICK_CNT_INI : Nat := 0
def TASK_X_WCET_INI : Nat := 0
def G_TASK_SYS_CNT_INI : Nat := 0
def G_TASK_SYS_TICK_CNT_INI : Nat := 0
def DEL_SYS_MIN : Nat := 0
def G_TASK_ACT_CNT_INIT : Nat := 0
def G_TASK_ACT_TICK_CNT_INI : Nat := 0
def DEL_LED_XX_MIN : Nat := 0

/-- Modelled from the spec: `ID_LED_A` is declared in `task_actuator_attribute.h`, which is not
among the sources; the spec calls the instance it names "actuator instance 0". -/
def ID_LED_A : Nat := 0

/-- Increment of a `uint32_t`. -/
def u32_inc (x : Nat) : Nat := (x + 1) % 2 ^ 32

/-- Decrement of a `uint32_t`. -/
def u32_dec (x : Nat) : Nat := (x + 2 ^ 32 - 1) % 2 ^ 32

/-- Sum of two `uint32_t`. -/
def u32_add (x y : Nat) : Nat := (x + y) % 2 ^ 32

/-- Append one call to the history. -/
def State.log (s : State) (c : Call) : State := { s with trace := s.trace ++ [c] }

/-! ## Collaborators of the statecharts -/

/-- Modelled from the spec: `any_event_task_system` belongs to `task_system_interface.c`, which is
not among the sources. The queue contract of the spec: `any()` tells whether an event is
pending. -/
def any_event_task_system (s : State) : Bool := !s.queue.isEmpty

/-- Modelled from the spec: `get_event_task_system` belongs to `task_system_interface.c`, which is
not among the sources. The queue contract of the spec: `get()` removes and returns the oldest
pending event. The spec leaves the result on an empty queue undefined; the statechart never asks
for it there. -/
def get_event_task_system (s : State) : task_system_ev_t × State :=
  match s.queue with
  | [] => (task_system_ev_t.EV_SYS_IDLE, s)
  | e :: rest => (e, { s with queue := rest })

/-- Modelled from the spec: `put_event_task_actuator` belongs to `task_actuator_interface.c`,
which is not among the sources. The mailbox contract of the spec: `put(event, target_index)`
unconditionally overwrites `(flag, event)` of the targeted instance. -/
def put_event_task_actuator (event : task_actuator_ev_t) (identifier : Nat) (s : State) : State :=
  { s with
    task_actuator_dta_list :=
      s.task_actuator_dta_list.modify (fun d => { d with flag := true, event := event }) identifier
    trace := s.trace ++ [Call.put_event_task_actuator event identifier] }

/-! ## task_actuator.c -/

/-- Body of the `for` loop of `task_actuator_statechart`: the `switch` for one instance. Returns
the instance and the output writes issued. -/
def task_actuator_statechart_index (cfg : task_actuator_cfg_t) (dta : task_actuator_dta_t) :
    task_actuator_dta_t × List Call :=
  match dta.state with
  | task_actuator_st_t.ST_LED_XX_OFF =>
    if dta.flag = true ∧ dta.event = task_actuator_ev_t.EV_LED_XX_ON then
      ({ dta with flag := false, state := task_actuator_st_t.ST_LED_XX_ON },
        [Call.HAL_GPIO_WritePin cfg.gpio_port cfg.pin cfg.led_on])
    else (dta, [])
  | task_actuator_st_t.ST_LED_XX_ON =>
    if dta.flag = true ∧ dta.event = task_actuator_ev_t.EV_LED_XX_OFF then
      ({ dta with flag := false, state := task_actuator_st_t.ST_LED_XX_OFF },
        [Call.HAL_GPIO_WritePin cfg.gpio_port cfg.pin cfg.led_off])
    else (dta, [])
  | task_actuator_st_t.ST_LED_XX_BLINK_ON => (dta, [])
  | task_actuator_st_t.ST_LED_XX_BLINK_OFF => (dta, [])
  | task_actuator_st_t.ST_LED_XX_PULSE => (dta, [])
  | task_actuator_st_t.invalid _ =>
    ({ tick := DEL_LED_XX_MIN, state := task_actuator_st_t.ST_LED_XX_OFF,
       event := task_actuator_ev_t.EV_LED_XX_OFF, flag := false }, [])

/-- The `for` loop of `task_actuator_statechart` over the instances, each with the configuration
entry of the same index. -/
def task_actuator_statechart_for :
    List task_actuator_cfg_t → List task_actuator_dta_t → List task_actuator_dta_t × List Call
  | cfg :: cfgs, dta :: dtas =>
    let r := task_actuator_statechart_index cfg dta
    let rs := task_actuator_statechart_for cfgs dtas
    (r.1 :: rs.1, r.2 ++ rs.2)
  | _, dtas => (dtas, [])

/-- Function `task_actuator_statechart`. -/
def task_actuator_statechart (env : Env) (s : State) : State :=
  let r := task_actuator_statechart_for env.task_actuator_cfg_list s.task_actuator_dta_list
  { s with
    task_actuator_dta_list := r.1
    trace := s.trace ++ Call.task_actuator_statechart :: r.2 }

/-- Body of the `for` loop of `task_actuator_init` for one instance. -/
def task_actuator_init_index (cfg : task_actuator_cfg_t) (dta : task_actuator_dta_t) :
    task_actuator_dta_t × List Call :=
  ({ dta with state := task_actuator_st_t.ST_LED_XX_OFF,
              event := task_actuator_ev_t.EV_LED_XX_OFF, flag := false },
    [Call.HAL_GPIO_WritePin cfg.gpio_port cfg.pin cfg.led_off])

/-- The `for` loop of `task_actuator_init`. -/
def task_actuator_init_for :
    List task_actuator_cfg_t → List task_actuator_dta_t → List task_actuator_dta_t × List Call
  | cfg :: cfgs, dta :: dtas =>
    let r := task_actuator_init_index cfg dta
    let rs := task_actuator_init_for cfgs dtas
    (r.1 :: rs.1, r.2 ++ rs.2)
  | _, dtas => (dtas, [])

/-- Function `task_actuator_init`. -/
def task_actuator_init (env : Env) (parameters : Option Nat) (s : State) : State :=
  let r := task_actuator_init_for env.task_actuator_cfg_list s.task_actuator_dta_list
  { s with
    g_task_actuator_cnt := G_TASK_ACT_CNT_INIT
    task_actuator_dta_list := r.1
    trace := s.trace ++ Call.task_actuator_init parameters :: r.2 }

/-- The `while` loop of `task_actuator_update`. -/
def task_actuator_update_while (env : Env) : Nat → State → Option State
  | 0, _ => none
  | fuel + 1, s =>
    let s1 := { s with g_task_actuator_cnt := u32_inc s.g_task_actuator_cnt }
    let s2 := task_actuator_statechart env s1
    if G_TASK_ACT_TICK_CNT_INI < s2.g_task_actuator_tick_cnt then
      task_actuator_update_while env fuel
        { s2 with g_task_actuator_tick_cnt := u32_dec s2.g_task_actuator_tick_cnt }
    else some s2

/-- Function `task_actuator_update`. -/
def task_actuator_update (env : Env) (fuel : Nat) (parameters : Option Nat) (s : State) :
    Option State :=
  let s0 := s.log (Call.task_actuator_update parameters)
  if G_TASK_ACT_TICK_CNT_INI < s0.g_task_actuator_tick_cnt then
    task_actuator_update_while env fuel
      { s0 with g_task_actuator_tick_cnt := u32_dec s0.g_task_actuator_tick_cnt }
  else some s0

/-! ## task_system.c -/

/-- Function `task_system_statechart`. -/
def task_system_statechart (s : State) : State :=
  let s0 := s.log Call.task_system_statechart
  let s1 :=
    if any_event_task_system s0 = true then
      let r := get_event_task_system s0
      { r.2 with task_system_dta := { r.2.task_system_dta with flag := true, event := r.1 } }
    else s0
  match s1.task_system_dta.state with
  | task_system_st_t.ST_SYS_IDLE =>
    if s1.task_system_dta.flag = true ∧
        s1.task_system_dta.event = task_system_ev_t.EV_SYS_LOOP_DET then
      let s2 := { s1 with task_system_dta := { s1.task_system_dta with flag := false } }
      let s3 := put_event_task_actuator task_actuator_ev_t.EV_LED_XX_ON ID_LED_A s2
      { s3 with task_system_dta :=
          { s3.task_system_dta with state := task_system_st_t.ST_SYS_ACTIVE_01 } }
    else s1
  | task_system_st_t.ST_SYS_ACTIVE_01 =>
    if s1.task_system_dta.flag = true ∧
        s1.task_system_dta.event = task_system_ev_t.EV_SYS_IDLE then
      let s2 := { s1 with task_system_dta := { s1.task_system_dta with flag := false } }
      let s3 := put_event_task_actuator task_actuator_ev_t.EV_LED_XX_OFF ID_LED_A s2
      { s3 with task_system_dta :=
          { s3.task_system_dta with state := task_system_st_t.ST_SYS_IDLE } }
    else s1
  | task_system_st_t.ST_SYS_ACTIVE_02 => s1
  | task_system_st_t.ST_SYS_ACTIVE_03 => s1
  | task_system_st_t.ST_SYS_ACTIVE_04 => s1
  | task_system_st_t.ST_SYS_ACTIVE_05 => s1
  | task_system_st_t.ST_SYS_ACTIVE_06 => s1
  | task_system_st_t.invalid _ =>
    { s1 with task_system_dta :=
        { tick := DEL_SYS_MIN, state := task_system_st_t.ST_SYS_IDLE,
          event := task_system_ev_t.EV_SYS_IDLE, flag := false } }

/-- Modelled from the spec: `init_queue_event_task_system` belongs to `task_system_interface.c`,
which is not among the sources. The queue contract of the spec: `init_queue()` leaves the queue
with no pending event. -/
def init_queue_event_task_system (s : State) : State :=
  { s with queue := [], trace := s.trace ++ [Call.init_queue_event_task_system] }

/-- Function `task_system_init`. -/
def task_system_init (parameters : Option Nat) (s : State) : State :=
  let s0 := s.log (Call.task_system_init parameters)
  let s1 := { s0 with g_task_system_cnt := G_TASK_SYS_CNT_INI }
  let s2 := init_queue_event_task_system s1
  { s2 with task_system_dta :=
      { s2.task_system_dta with state := task_system_st_t.ST_SYS_IDLE,
                                event := task_system_ev_t.EV_SYS_IDLE, flag := false } }

/-- The `while` loop of `task_system_update`. -/
def task_system_update_while : Nat → State → Option State
  | 0, _ => none
  | fuel + 1, s =>
    let s1 := { s with g_task_system_cnt := u32_inc s.g_task_system_cnt }
    let s2 := task_system_statechart s1
    if G_TASK_SYS_TICK_CNT_INI < s2.g_task_system_tick_cnt then
      task_system_update_while fuel
        { s2 with g_task_system_tick_cnt := u32_dec s2.g_task_system_tick_cnt }
    else some s2

/-- Function `task_system_update`. -/
def task_system_update (fuel : Nat) (parameters : Option Nat) (s : State) : Option State :=
  let s0 := s.log (Call.task_system_update parameters)
  if G_TASK_SYS_TICK_CNT_INI < s0.g_task_system_tick_cnt then
    task_system_update_while fuel
      { s0 with g_task_system_tick_cnt := u32_dec s0.g_task_system_tick_cnt }
  else some s0

/-! ## The sensor task -/

/-- Modelled from the spec: `task_sensor_init` belongs to `task_sensor.c`, which is not among the
sources. The spec gives it no effect on the data of the scheduler or of the other tasks; its own
statechart instance is not part of this model. -/
def task_sensor_init (parameters : Option Nat) (s : State) : State :=
  s.log (Call.task_sensor_init parameters)

/-- Modelled from the spec: the statechart step of the sensor task belongs to `task_sensor.c`,
which is not among the sources. The spec makes it the producer of the event queue of the system
task; what it enqueues is left to the environment. -/
def task_sensor_statechart (env : Env) (s : State) : State :=
  let s0 := s.log Call.task_sensor_statechart
  { s0 with queue := env.task_sensor_statechart s0.trace s0.queue }

/-- Modelled from the spec: the `while` loop of `task_sensor_update` (`task_sensor.c` is not among
the sources). The spec: each task drains its own tick counter with the test-and-decrement loop of
the scheduler and executes one statechart step per owed tick. -/
def task_sensor_update_while (env : Env) : Nat → State → Option State
  | 0, _ => none
  | fuel + 1, s =>
    let s2 := task_sensor_statechart env s
    if 0 < s2.g_task_sensor_tick_cnt then
      task_sensor_update_while env fuel
        { s2 with g_task_sensor_tick_cnt := u32_dec s2.g_task_sensor_tick_cnt }
    else some s2

/-- Modelled from the spec: `task_sensor_update` belongs to `task_sensor.c`, which is not among
the sources. The spec: each task drains its own tick counter with the test-and-decrement loop of
the scheduler and executes one statechart step per owed tick. -/
def task_sensor_update (env : Env) (fuel : Nat) (parameters : Option Nat) (s : State) :
    Option State :=
  let s0 := s.log (Call.task_sensor_update parameters)
  if 0 < s0.g_task_sensor_tick_cnt then
    task_sensor_update_while env fuel
      { s0 with g_task_sensor_tick_cnt := u32_dec s0.g_task_sensor_tick_cnt }
  else some s0

/-! ## app.c -/

/-- Record `task_cfg_t`: the two entry points and the parameters handle. -/
structure task_cfg_t where
  task_init : Env → Option Nat → State → State
  task_update : Env → Nat → Option Nat → State → Option State
  parameters : Option Nat

/-- Table `task_cfg_list`. -/
def task_cfg_list : List task_cfg_t :=
  [ { task_init := fun _ => task_sensor_init, task_update := task_sensor_update,
      parameters := none },
    { task_init := fun _ => task_system_init, task_update := fun _ => task_system_update,
      parameters := none },
    { task_init := task_actuator_init, task_update := task_actuator_update,
      parameters := none } ]

/-- Macro `TASK_QTY`. -/
def TASK_QTY : Nat := task_cfg_list.length

/-- The `for` loop of `app_init`, from `index` on; the first argument holds the entries of the
table from `index` on. -/
def app_init_for (env : Env) : List task_cfg_t → Nat → State → State
  | [], _, s => s
  | cfg :: rest, index, s =>
    let s1 := cfg.task_init env cfg.parameters s
    let s2 := { s1 with
      task_dta_list := s1.task_dta_list.modify (fun d => { d with WCET := TASK_X_WCET_INI }) index }
    app_init_for env rest (index + 1) s2

/-- Function `app_init`. -/
def app_init (env : Env) (s : State) : State :=
  let s0 := { s with g_app_cnt := G_APP_CNT_INI }
  let s1 := s0.log Call.cycle_counter_init
  let s2 := app_init_for env task_cfg_list 0 s1
  { s2 with
    g_app_tick_cnt := G_APP_TICK_CNT_INI
    g_task_sensor_tick_cnt := G_APP_TICK_CNT_INI
    g_task_system_tick_cnt := G_APP_TICK_CNT_INI
    g_task_actuator_tick_cnt := G_APP_TICK_CNT_INI }

/-- The conditional assignment `if (WCET < time_us) WCET = time_us` of `app_update`, on one entry
of `task_dta_list`. -/
def task_dta_t.update (time_us : Nat) (d : task_dta_t) : task_dta_t :=
  if d.WCET < time_us then { d with WCET := time_us } else d

/-- The statements under "Update variables" in `app_update`, for the task `index` and the
duration just read. -/
def app_update_variables (index time_us : Nat) (s : State) : State :=
  let s1 := { s with g_app_runtime_us := u32_add s.g_app_runtime_us time_us }
  { s1 with task_dta_list := s1.task_dta_list.modify (task_dta_t.update time_us) index }

/-- The `for` loop of `app_update`, from `index` on; the first list holds the entries of the
table from `index` on. `fuel` bounds the loops of the tasks. -/
def app_update_for (env : Env) (fuel : Nat) : List task_cfg_t → Nat → State → Option State
  | [], _, s => some s
  | cfg :: rest, index, s =>
    let s1 := s.log Call.cycle_counter_reset
    match cfg.task_update env fuel cfg.parameters s1 with
    | none => none
    | some s2 =>
      let cycle_counter_time_us := env.cycle_counter_get_time_us s2.trace % 2 ^ 32
      let s3 := s2.log (Call.cycle_counter_get_time_us index cycle_counter_time_us)
      app_update_for env fuel rest (index + 1) (app_update_variables index cycle_counter_time_us s3)

/-- The `while` loop of `app_update`; the second argument is its own fuel. -/
def app_update_while (env : Env) (fuel : Nat) : Nat → State → Option State
  | 0, _ => none
  | n + 1, s =>
    let s1 := { s with g_app_cnt := u32_inc s.g_app_cnt, g_app_runtime_us := 0 }
    match app_update_for env fuel task_cfg_list 0 s1 with
    | none => none
    | some s2 =>
      if G_APP_TICK_CNT_INI < s2.g_app_tick_cnt then
        app_update_while env fuel n { s2 with g_app_tick_cnt := u32_dec s2.g_app_tick_cnt }
      else some s2

/-- Function `app_update`. Every loop, the one of `app_update` and those of the tasks, may run
`fuel` times. -/
def app_update (env : Env) (fuel : Nat) (s : State) : Option State :=
  if G_APP_TICK_CNT_INI < s.g_app_tick_cnt then
    app_update_while env fuel fuel { s with g_app_tick_cnt := u32_dec s.g_app_tick_cnt }
  else some s

/-- Function `HAL_SYSTICK_Callback`. -/
def HAL_SYSTICK_Callback (s : State) : State :=
  { s with
    g_app_tick_cnt := u32_inc s.g_app_tick_cnt
    g_task_sensor_tick_cnt := u32_inc s.g_task_sensor_tick_cnt
    g_task_system_tick_cnt := u32_inc s.g_task_system_tick_cnt
    g_task_actuator_tick_cnt := u32_inc s.g_task_actuator_tick_cnt }

/-! ## The enclosing program -/

/-- What happens between `app_init` and the point of observation: the timer interrupt fires, or
the main loop calls `app_update`. -/
inductive Action where
  | tick
  | update
  deriving DecidableEq, Repr

/-- The enclosing program: the main loop calls `app_update` again and again, and between two
calls the timer interrupt may fire any number of times. -/
def run (env : Env) (fuel : Nat) : List Action → State → Option State
  | [], s => some s
  | Action.tick :: rest, s => run env fuel rest (HAL_SYSTICK_Callback s)
  | Action.update :: rest, s =>
    match app_update env fuel s with
    | none => none
    | some s1 => run env fuel rest s1

/-! ## Views used to state and prove the properties -/

/-- The counters and the WCET table, the part of the state the scheduling properties speak
about. -/
structure Counters where
  g_app_cnt : Nat
  g_app_tick_cnt : Nat
  g_task_sensor_tick_cnt : Nat
  g_task_system_tick_cnt : Nat
  g_task_actuator_tick_cnt : Nat
  g_task_system_cnt : Nat
  g_task_actuator_cnt : Nat
  task_dta_list : List task_dta_t
  deriving DecidableEq, Repr

/-- The counters of a state. -/
def State.counters (s : State) : Counters :=
  { g_app_cnt := s.g_app_cnt
    g_app_tick_cnt := s.g_app_tick_cnt
    g_task_sensor_tick_cnt := s.g_task_sensor_tick_cnt
    g_task_system_tick_cnt := s.g_task_system_tick_cnt
    g_task_actuator_tick_cnt := s.g_task_actuator_tick_cnt
    g_task_system_cnt := s.g_task_system_cnt
    g_task_actuator_cnt := s.g_task_actuator_cnt
    task_dta_list := s.task_dta_list }

/-- A selection of calls that ignores the output writes and the mailbox puts. -/
def Quiet {β : Type} (g : Call → Option β) : Prop :=
  (∀ e i, g (Call.put_event_task_actuator e i) = none) ∧
    (∀ a b c, g (Call.HAL_GPIO_WritePin a b c) = none)

/-- Selects the entries into the `task_init` entry points. -/
def init_call : Call → Option Call
  | Call.task_sensor_init p => some (Call.task_sensor_init p)
  | Call.task_system_init p => some (Call.task_system_init p)
  | Call.task_actuator_init p => some (Call.task_actuator_init p)
  | _ => none

/-- Selects the entries into the `task_update` entry points. -/
def update_call : Call → Option Call
  | Call.task_sensor_update p => some (Call.task_sensor_update p)
  | Call.task_system_update p => some (Call.task_system_update p)
  | Call.task_actuator_update p => some (Call.task_actuator_update p)
  | _ => none

/-- Selects the entries into the `task_update` entry points and the statechart steps of the
system and actuator tasks. -/
def step_call : Call → Option Call
  | Call.task_sensor_update p => some (Call.task_sensor_update p)
  | Call.task_system_update p => some (Call.task_system_update p)
  | Call.task_actuator_update p => some (Call.task_actuator_update p)
  | Call.task_system_statechart => some Call.task_system_statechart
  | Call.task_actuator_statechart => some Call.task_actuator_statechart
  | _ => none

/-- Selects the durations read for the task `index`. -/
def sample (index : Nat) : Call → Option Nat
  | Call.cycle_counter_get_time_us i t => if i = index then some t else none
  | _ => none

/-- The calls of one pass of `app_update` that are neither output writes nor mailbox puts, for
the backlogs `a`, `b`, `c` of the three tasks and the three durations read. -/
def pass_calls (a b c t0 t1 t2 : Nat) : List Call :=
  [Call.cycle_counter_reset, Call.task_sensor_update none] ++
    List.replicate a Call.task_sensor_statechart ++
    [Call.cycle_counter_get_time_us 0 t0, Call.cycle_counter_reset,
      Call.task_system_update none] ++
    List.replicate b Call.task_system_statechart ++
    [Call.cycle_counter_get_time_us 1 t1, Call.cycle_counter_reset,
      Call.task_actuator_update none] ++
    List.replicate c Call.task_actuator_statechart ++
    [Call.cycle_counter_get_time_us 2 t2]

/-- A selection of calls that also ignores the readings of the cycle counter. -/
def Silent {β : Type} (g : Call → Option β) : Prop :=
  Quiet g ∧ ∀ i t, g (Call.cycle_counter_get_time_us i t) = none

/-- The calls of one `app_update` that are neither output writes, mailbox puts nor readings of
the cycle counter (readings shown as 0), for `n` owed ticks of the scheduler and the backlogs
`a`, `b`, `c` of the three tasks: the first pass drains the tasks, the others find them
drained. -/
def app_update_calls (n a b c : Nat) : List Call :=
  match n with
  | 0 => []
  | k + 1 => pass_calls a b c 0 0 0 ++ (List.replicate k (pass_calls 0 0 0 0 0 0)).flatten

/-- Between two points of an execution the durations `m0`, `m1`, `m2` were read for the three
tasks, and each WCET entry went from its value `w` to the largest of `w` and the durations read
for its task. -/
def Measured (l : List task_dta_t) (tr : List Call) (l' : List task_dta_t) (tr' : List Call) :
    Prop :=
  ∃ w0 w1 w2 : Nat, ∃ m0 m1 m2 : List Nat,
    l = [{ WCET := w0 }, { WCET := w1 }, { WCET := w2 }] ∧
    l' = [{ WCET := m0.foldl max w0 }, { WCET := m1.foldl max w1 },
      { WCET := m2.foldl max w2 }] ∧
    List.filterMap (sample 0) tr' = List.filterMap (sample 0) tr ++ m0 ∧
    List.filterMap (sample 1) tr' = List.filterMap (sample 1) tr ++ m1 ∧
    List.filterMap (sample 2) tr' = List.filterMap (sample 2) tr ++ m2

/-- The counters hold `uint32_t` values. -/
def Counters.u32 (c : Counters) : Prop :=
  c.g_app_cnt < 2 ^ 32 ∧ c.g_app_tick_cnt < 2 ^ 32 ∧ c.g_task_sensor_tick_cnt < 2 ^ 32 ∧
    c.g_task_system_tick_cnt < 2 ^ 32 ∧ c.g_task_actuator_tick_cnt < 2 ^ 32 ∧
    c.g_task_system_cnt < 2 ^ 32 ∧ c.g_task_actuator_cnt < 2 ^ 32

/-- The fuel covers the backlog of every task. -/
def Counters.tasks_le (c : Counters) (fuel : Nat) : Prop :=
  c.g_task_sensor_tick_cnt ≤ fuel ∧ c.g_task_system_tick_cnt ≤ fuel ∧
    c.g_task_actuator_tick_cnt ≤ fuel

/-! ## The two halves of the system statechart step -/

/-- The first statement of `task_system_statechart`: the `if` that polls the queue and latches
the event taken from it. -/
def task_system_statechart_poll (s : State) : State :=
  if any_event_task_system s = true then
    let r := get_event_task_system s
    { r.2 with task_system_dta := { r.2.task_system_dta with flag := true, event := r.1 } }
  else s

/-- The second statement of `task_system_statechart`: the `switch` on the state. -/
def task_system_statechart_switch (s1 : State) : State :=
  match s1.task_system_dta.state with
  | task_system_st_t.ST_SYS_IDLE =>
    if s1.task_system_dta.flag = true ∧
        s1.task_system_dta.event = task_system_ev_t.EV_SYS_LOOP_DET then
      let s2 := { s1 with task_system_dta := { s1.task_system_dta with flag := false } }
      let s3 := put_event_task_actuator task_actuator_ev_t.EV_LED_XX_ON ID_LED_A s2
      { s3 with task_system_dta :=
          { s3.task_system_dta with state := task_system_st_t.ST_SYS_ACTIVE_01 } }
    else s1
  | task_system_st_t.ST_SYS_ACTIVE_01 =>
    if s1.task_system_dta.flag = true ∧
        s1.task_system_dta.event = task_system_ev_t.EV_SYS_IDLE then
      let s2 := { s1 with task_system_dta := { s1.task_system_dta with flag := false } }
      let s3 := put_event_task_actuator task_actuator_ev_t.EV_LED_XX_OFF ID_LED_A s2
      { s3 with task_system_dta :=
          { s3.task_system_dta with state := task_system_st_t.ST_SYS_IDLE } }
    else s1
  | task_system_st_t.ST_SYS_ACTIVE_02 => s1
  | task_system_st_t.ST_SYS_ACTIVE_03 => s1
  | task_system_st_t.ST_SYS_ACTIVE_04 => s1
  | task_system_st_t.ST_SYS_ACTIVE_05 => s1
  | task_system_st_t.ST_SYS_ACTIVE_06 => s1
  | task_system_st_t.invalid _ =>
    { s1 with task_system_dta :=
        { tick := DEL_SYS_MIN, state := task_system_st_t.ST_SYS_IDLE,
          event := task_system_ev_t.EV_SYS_IDLE, flag := false } }

/-! ## Steps and producers acting on the statechart instances -/

/-- What may happen to the statechart instances between two observations: a step of one of the
two statecharts, a producer writing the (flag, event) mailbox of an actuator instance or of the
system task, or the producers of the queue leaving it with arbitrary contents. No producer
writes a `state` field. -/
inductive Stimulus where
  | actuator_step
  | system_step
  | write_actuator (index : Nat) (flag : Bool) (event : task_actuator_ev_t)
  | write_system (flag : Bool) (event : task_system_ev_t)
  | write_queue (queue : List task_system_ev_t)
  deriving DecidableEq, Repr

/-- The effect of one stimulus. -/
def stimulate (env : Env) : Stimulus → State → State
  | Stimulus.actuator_step, s => task_actuator_statechart env s
  | Stimulus.system_step, s => task_system_statechart s
  | Stimulus.write_actuator index flag event, s =>
    { s with
      task_actuator_dta_list :=
        s.task_actuator_dta_list.modify (fun d => { d with flag := flag, event := event }) index }
  | Stimulus.write_system flag event, s =>
    { s with task_system_dta := { s.task_system_dta with flag := flag, event := event } }
  | Stimulus.write_queue queue, s => { s with queue := queue }

/-- The effect of a finite sequence of stimuli, oldest first. -/
def stimulate_all (env : Env) : List Stimulus → State → State
  | [], s => s
  | x :: rest, s => stimulate_all env rest (stimulate env x s)

/-- Selects the levels written on the output line (port and pin) of one configuration entry. -/
def level_written (cfg : task_actuator_cfg_t) : Call → Option Nat
  | Call.HAL_GPIO_WritePin gpio_port pin level =>
    if gpio_port = cfg.gpio_port ∧ pin = cfg.pin then some level else none
  | _ => none

/-- The levels `led_off`, `led_on`, `led_off`, ... of one configuration entry, `n` of them. -/
def alternating (cfg : task_actuator_cfg_t) (n : Nat) : List Nat :=
  (List.range n).map fun j => if j % 2 = 0 then cfg.led_off else cfg.led_on

/-- Since the point where the history was `tr0`, the levels written on the line of every
instance are `led_off`, `led_on`, `led_off`, ... and the instance is Off after an odd number of
them and On after an even number. -/
def OutputFollows (env : Env) (tr0 : List Call) (s : State) : Prop :=
  env.task_actuator_cfg_list.length = s.task_actuator_dta_list.length ∧
    ∀ (i : Nat) (cfg : task_actuator_cfg_t) (dta : task_actuator_dta_t),
      env.task_actuator_cfg_list[i]? = some cfg → s.task_actuator_dta_list[i]? = some dta →
      ∃ n : Nat,
        List.filterMap (level_written cfg) s.trace =
          List.filterMap (level_written cfg) tr0 ++ alternating cfg (n + 1) ∧
        dta.state =
          if n % 2 = 0 then task_actuator_st_t.ST_LED_XX_OFF
          else task_actuator_st_t.ST_LED_XX_ON

/-! ## systick.c -/

/-- Difference of two `uint32_t`. -/
def u32_sub (x y : Nat) : Nat := (x + 2 ^ 32 - y % 2 ^ 32) % 2 ^ 32

/-- Product of two `uint32_t`. -/
def u32_mul (x y : Nat) : Nat := (x * y) % 2 ^ 32

/-- The `if` of the loop of `systick_delay_us` that computes `elapsed` from the reload value,
the start value and the current value of the counter. -/
def systick_elapsed (LOAD start current : Nat) : Nat :=
  if current ≤ start then u32_sub start current
  else u32_sub (u32_add LOAD start) current

/-- The `while (1)` loop of `systick_delay_us`. `VAL k` is what the `k`-th read of
`SysTick->VAL` returns and `k` counts the reads made so far; the result is the number of reads
made when the loop is left. -/
def systick_delay_us_while (LOAD start target : Nat) (VAL : Nat → Nat) : Nat → Nat → Option Nat
  | 0, _ => none
  | fuel + 1, k =>
    let current := VAL k
    let elapsed := systick_elapsed LOAD start current
    if elapsed ≥ target then some (k + 1)
    else systick_delay_us_while LOAD start target VAL fuel (k + 1)

/-- Function `systick_delay_us`, for a core clock `SystemCoreClock`, a reload value `LOAD` and
the readings `VAL` of the counter. The result is the number of reads of `SysTick->VAL` made
before returning, `none` when the fuel runs out first. -/
def systick_delay_us (SystemCoreClock LOAD : Nat) (VAL : Nat → Nat) (fuel delay_us : Nat) :
    Option Nat :=
  if 0 = delay_us then some 0
  else
    let start := VAL 0
    let target := u32_mul delay_us (SystemCoreClock / 1000000)
    systick_delay_us_while LOAD start target VAL fuel 1

/-! ## The foreground as a machine interrupted by the tick source

`app_init` followed by the main loop calling `app_update`, one statement group per step, with
the interrupt mask made explicit. Every critical section is three steps (`CPSID i`, the guarded
access, `CPSIE i`); `HAL_SYSTICK_Callback` may run between any two steps taken with the
interrupts unmasked. The statements taken unmasked never name a tick counter and the handler
names nothing else, so a finer interleaving reaches no further state. -/

/-- The three entries of `task_cfg_list`. -/
inductive Task where
  | sensor
  | system
  | actuator
  deriving DecidableEq, Repr

/-- The entry of `task_cfg_list` at an index. -/
def Task.at_index : Nat → Option Task
  | 0 => some Task.sensor
  | 1 => some Task.system
  | 2 => some Task.actuator
  | _ => none

/-- The index of a task in `task_cfg_list`. -/
def Task.index : Task → Nat
  | Task.sensor => 0
  | Task.system => 1
  | Task.actuator => 2

/-- The tick counter a task owns. -/
def Task.tick_cnt : Task → State → Nat
  | Task.sensor, s => s.g_task_sensor_tick_cnt
  | Task.system, s => s.g_task_system_tick_cnt
  | Task.actuator, s => s.g_task_actuator_tick_cnt

/-- Assignment to the tick counter a task owns. -/
def Task.set_tick_cnt : Task → Nat → State → State
  | Task.sensor, v, s => { s with g_task_sensor_tick_cnt := v }
  | Task.system, v, s => { s with g_task_system_tick_cnt := v }
  | Task.actuator, v, s => { s with g_task_actuator_tick_cnt := v }

/-- The `task_init` entry point of a task, called with the parameters of its table entry. -/
def Task.init (env : Env) : Task → State → State
  | Task.sensor, s => task_sensor_init none s
  | Task.system, s => task_system_init none s
  | Task.actuator, s => task_actuator_init env none s

/-- Entry into the `task_update` entry point of a task, called with the parameters of its
table entry. -/
def Task.enter : Task → State → State
  | Task.sensor, s => s.log (Call.task_sensor_update none)
  | Task.system, s => s.log (Call.task_system_update none)
  | Task.actuator, s => s.log (Call.task_actuator_update none)

/-- The unmasked statements in the body of the `while` loop of a `task_update`: the execution
counter and one statechart step (for the sensor task, as the spec gives it, the step alone). -/
def Task.body (env : Env) : Task → State → State
  | Task.sensor, s => task_sensor_statechart env s
  | Task.system, s =>
    task_system_statechart { s with g_task_system_cnt := u32_inc s.g_task_system_cnt }
  | Task.actuator, s =>
    task_actuator_statechart env { s with g_task_actuator_cnt := u32_inc s.g_task_actuator_cnt }

/-- The points of the foreground program, each named after the function it lies in and the
statement about to run. `b` is the local `b_time_update_required`. -/
inductive PC where
  | init_begin
  | init_for (index : Nat)
  | init_cpsid
  | init_reset
  | init_cpsie
  | upd_cpsid_a
  | upd_test_a
  | upd_cpsie_a (b : Bool)
  | upd_while (b : Bool)
  | upd_pass
  | upd_for (index : Nat)
  | upd_call (index : Nat)
  | task_cpsid_a (t : Task)
  | task_test_a (t : Task)
  | task_cpsie_a (t : Task) (b : Bool)
  | task_while (t : Task) (b : Bool)
  | task_body (t : Task)
  | task_cpsid_b (t : Task)
  | task_test_b (t : Task)
  | task_cpsie_b (t : Task) (b : Bool)
  | upd_measure (index : Nat)
  | upd_cpsid_b
  | upd_test_b
  | upd_cpsie_b (b : Bool)
  deriving DecidableEq, Repr

/-- The machine: the globals, the program point, the interrupt mask, and a ledger kept for the
proofs only: the ticks fired and the decrements performed on each counter since the reset in
`app_init`. -/
structure Machine where
  s : State
  pc : PC
  masked : Bool
  fired : Nat
  dec_app : Nat
  dec_sensor : Nat
  dec_system : Nat
  dec_actuator : Nat
  deriving DecidableEq, Repr

/-- The machine at the call of `app_init`, interrupts unmasked. -/
def Machine.start (s : State) : Machine :=
  { s := s, pc := PC.init_begin, masked := false, fired := 0,
    dec_app := 0, dec_sensor := 0, dec_system := 0, dec_actuator := 0 }

/-- Ledger entry for one decrement of the counter of a task. -/
def Machine.count_dec (m : Machine) : Task → Machine
  | Task.sensor => { m with dec_sensor := m.dec_sensor + 1 }
  | Task.system => { m with dec_system := m.dec_system + 1 }
  | Task.actuator => { m with dec_actuator := m.dec_actuator + 1 }

/-- The decrements the ledger holds for the counter of a task. -/
def Machine.dec_of (m : Machine) : Task → Nat
  | Task.sensor => m.dec_sensor
  | Task.system => m.dec_system
  | Task.actuator => m.dec_actuator

/-- The guarded decrement `if (0 < cnt) { cnt--; b = true; }` of a `task_update`; `next` is the
`CPSIE i` that follows it. -/
def Machine.task_test (m : Machine) (t : Task) (next : Bool → PC) : Machine :=
  if 0 < t.tick_cnt m.s then
    { m.count_dec t with s := t.set_tick_cnt (u32_dec (t.tick_cnt m.s)) m.s, pc := next true }
  else { m with pc := next false }

/-- The guarded decrement `if (0 < g_app_tick_cnt) { g_app_tick_cnt--; b = true; }` of
`app_update`; `next` is the `CPSIE i` that follows it. -/
def Machine.app_test (m : Machine) (next : Bool → PC) : Machine :=
  if G_APP_TICK_CNT_INI < m.s.g_app_tick_cnt then
    { m with
      s := { m.s with g_app_tick_cnt := u32_dec m.s.g_app_tick_cnt }
      dec_app := m.dec_app + 1
      pc := next true }
  else { m with pc := next false }

/-- One step of the foreground. -/
def Machine.fg (env : Env) (m : Machine) : Machine :=
  match m.pc with
  | PC.init_begin =>
    { m with
      s := ({ m.s with g_app_cnt := G_APP_CNT_INI } : State).log Call.cycle_counter_init
      pc := PC.init_for 0 }
  | PC.init_for index =>
    match Task.at_index index with
    | some t =>
      let s1 := t.init env m.s
      { m with
        s := { s1 with
          task_dta_list :=
            s1.task_dta_list.modify (fun d => { d with WCET := TASK_X_WCET_INI }) index }
        pc := PC.init_for (index + 1) }
    | none => { m with pc := PC.init_cpsid }
  | PC.init_cpsid => { m with masked := true, pc := PC.init_reset }
  | PC.init_reset =>
    { m with
      s := { m.s with
        g_app_tick_cnt := G_APP_TICK_CNT_INI
        g_task_sensor_tick_cnt := G_APP_TICK_CNT_INI
        g_task_system_tick_cnt := G_APP_TICK_CNT_INI
        g_task_actuator_tick_cnt := G_APP_TICK_CNT_INI }
      fired := 0, dec_app := 0, dec_sensor := 0, dec_system := 0, dec_actuator := 0
      pc := PC.init_cpsie }
  | PC.init_cpsie => { m with masked := false, pc := PC.upd_cpsid_a }
  | PC.upd_cpsid_a => { m with masked := true, pc := PC.upd_test_a }
  | PC.upd_test_a => m.app_test PC.upd_cpsie_a
  | PC.upd_cpsie_a b => { m with masked := false, pc := PC.upd_while b }
  | PC.upd_while b => if b = true then { m with pc := PC.upd_pass }
    else { m with pc := PC.upd_cpsid_a }
  | PC.upd_pass =>
    { m with
      s := { m.s with g_app_cnt := u32_inc m.s.g_app_cnt, g_app_runtime_us := 0 }
      pc := PC.upd_for 0 }
  | PC.upd_for index => if TASK_QTY > index then { m with pc := PC.upd_call index }
    else { m with pc := PC.upd_cpsid_b }
  | PC.upd_call index =>
    match Task.at_index index with
    | some t =>
      { m with s := t.enter (m.s.log Call.cycle_counter_reset), pc := PC.task_cpsid_a t }
    | none => { m with pc := PC.upd_cpsid_b }
  | PC.task_cpsid_a t => { m with masked := true, pc := PC.task_test_a t }
  | PC.task_test_a t => m.task_test t (PC.task_cpsie_a t)
  | PC.task_cpsie_a t b => { m with masked := false, pc := PC.task_while t b }
  | PC.task_while t b => if b = true then { m with pc := PC.task_body t }
    else { m with pc := PC.upd_measure t.index }
  | PC.task_body t => { m with s := t.body env m.s, pc := PC.task_cpsid_b t }
  | PC.task_cpsid_b t => { m with masked := true, pc := PC.task_test_b t }
  | PC.task_test_b t => m.task_test t (PC.task_cpsie_b t)
  | PC.task_cpsie_b t b => { m with masked := false, pc := PC.task_while t b }
  | PC.upd_measure index =>
    let cycle_counter_time_us := env.cycle_counter_get_time_us m.s.trace % 2 ^ 32
    let s3 := m.s.log (Call.cycle_counter_get_time_us index cycle_counter_time_us)
    { m with
      s := app_update_variables index cycle_counter_time_us s3
      pc := PC.upd_for (index + 1) }
  | PC.upd_cpsid_b => { m with masked := true, pc := PC.upd_test_b }
  | PC.upd_test_b => m.app_test PC.upd_cpsie_b
  | PC.upd_cpsie_b b => { m with masked := false, pc := PC.upd_while b }

/-- The tick interrupt: `HAL_SYSTICK_Callback` runs to completion and the ledger counts it. -/
def Machine.irq (m : Machine) : Machine :=
  { m with s := HAL_SYSTICK_Callback m.s, fired := m.fired + 1 }

/-- What happens next: a step of the foreground or the tick interrupt. -/
inductive Event where
  | fg
  | irq
  deriving DecidableEq, Repr

/-- The machine after a schedule of events, oldest first; `none` when the schedule asks for the
interrupt at a point where it is masked. -/
def exec (env : Env) : List Event → Machine → Option Machine
  | [], m => some m
  | Event.fg :: rest, m => exec env rest (m.fg env)
  | Event.irq :: rest, m => if m.masked = false then exec env rest m.irq else none

/-- The points whose step reads, tests, decrements or resets a tick counter. -/
def PC.touches_tick : PC → Bool
  | PC.init_reset => true
  | PC.upd_test_a => true
  | PC.upd_test_b => true
  | PC.task_test_a _ => true
  | PC.task_test_b _ => true
  | _ => false

/-- The points whose step calls a task entry point or runs a statechart step. -/
def PC.runs_task : PC → Bool
  | PC.init_for _ => true
  | PC.upd_call _ => true
  | PC.task_body _ => true
  | _ => false

/-- The points between a `CPSID i` and the matching `CPSIE i`, the latter about to run at the
last of them. -/
def PC.in_critical : PC → Bool
  | PC.init_reset => true
  | PC.init_cpsie => true
  | PC.upd_test_a => true
  | PC.upd_cpsie_a _ => true
  | PC.upd_test_b => true
  | PC.upd_cpsie_b _ => true
  | PC.task_test_a _ => true
  | PC.task_cpsie_a _ _ => true
  | PC.task_test_b _ => true
  | PC.task_cpsie_b _ _ => true
  | _ => false

/-- The points after the reset of the tick counters in `app_init`. -/
def PC.after_reset : PC → Bool
  | PC.init_begin => false
  | PC.init_for _ => false
  | PC.init_cpsid => false
  | PC.init_reset => false
  | _ => true

/-- Selects the entries into the task entry points and the statechart steps. -/
def task_call : Call → Option Call
  | Call.task_sensor_init p => some (Call.task_sensor_init p)
  | Call.task_system_init p => some (Call.task_system_init p)
  | Call.task_actuator_init p => some (Call.task_actuator_init p)
  | Call.task_sensor_update p => some (Call.task_sensor_update p)
  | Call.task_system_update p => some (Call.task_system_update p)
  | Call.task_actuator_update p => some (Call.task_actuator_update p)
  | Call.task_sensor_statechart => some Call.task_sensor_statechart
  | Call.task_system_statechart => some Call.task_system_statechart
  | Call.task_actuator_statechart => some Call.task_actuator_statechart
  | _ => none

/-- The ledger balances for one counter: its value is a `uint32_t`, no more was taken from it
than was put in, and below `2 ^ 32` ticks the ticks fired are exactly the decrements performed
plus the current value. -/
def Balanced (fired dec cur : Nat) : Prop :=
  cur < 2 ^ 32 ∧ dec + cur ≤ fired ∧ (fired < 2 ^ 32 → fired = dec + cur)

/-- The ledger balances for the four tick counters. -/
def Machine.balanced (m : Machine) : Prop :=
  Balanced m.fired m.dec_app m.s.g_app_tick_cnt ∧
    Balanced m.fired m.dec_sensor m.s.g_task_sensor_tick_cnt ∧
    Balanced m.fired m.dec_system m.s.g_task_system_tick_cnt ∧
    Balanced m.fired m.dec_actuator m.s.g_task_actuator_tick_cnt

/-- The four tick counters of a state. -/
def State.ticks (s : State) : Nat × Nat × Nat × Nat :=
  (s.g_app_tick_cnt, s.g_task_sensor_tick_cnt, s.g_task_system_tick_cnt,
    s.g_task_actuator_tick_cnt)

/-! ## Sample configuration and states used by the concrete checks -/

/-- A board configuration with the single LED of the sources: identifier `ID_LED_A`, on level 1,
off level 0, blink period 500, pulse period 250. -/
def sample_cfg : task_actuator_cfg_t :=
  { identifier := 0, gpio_port := 16, pin := 5, led_on := 1, led_off := 0,
    tick_blink := 500, tick_pulse := 250 }

/-- An environment whose cycle counter reads the number of calls made so far and whose sensor
alternates between raising `EV_SYS_LOOP_DET` and `EV_SYS_IDLE`. -/
def sample_env : Env :=
  { task_actuator_cfg_list := [sample_cfg]
    cycle_counter_get_time_us := fun tr => tr.length
    task_sensor_statechart := fun tr q =>
      if tr.length % 2 = 0 then q ++ [task_system_ev_t.EV_SYS_LOOP_DET]
      else q ++ [task_system_ev_t.EV_SYS_IDLE] }

/-- The static initialisers of the sources, every counter zero, nothing called yet. -/
def sample_state : State :=
  { g_app_cnt := 0, g_app_runtime_us := 0, g_app_tick_cnt := 0
    task_dta_list := [{ WCET := 0 }, { WCET := 0 }, { WCET := 0 }]
    g_task_sensor_tick_cnt := 0
    g_task_system_cnt := 0, g_task_system_tick_cnt := 0
    task_system_dta :=
      { tick := DEL_SYS_MIN, state := task_system_st_t.ST_SYS_IDLE,
        event := task_system_ev_t.EV_SYS_IDLE, flag := false }
    queue := []
    g_task_actuator_cnt := 0, g_task_actuator_tick_cnt := 0
    task_actuator_dta_list :=
      [{ tick := DEL_LED_XX_MIN, state := task_actuator_st_t.ST_LED_XX_OFF,
         event := task_actuator_ev_t.EV_LED_XX_NOT_BLINK, flag := false }]
    trace := [] }

/-- A state as a running system may hold it before a reset: counters, WCET entries and
statechart instances all hold leftovers. -/
def sample_dirty_state : State :=
  { g_app_cnt := 7, g_app_runtime_us := 3, g_app_tick_cnt := 9
    task_dta_list := [{ WCET := 5 }, { WCET := 6 }, { WCET := 7 }]
    g_task_sensor_tick_cnt := 1
    g_task_system_cnt := 4, g_task_system_tick_cnt := 2
    task_system_dta :=
      { tick := 0, state := task_system_st_t.ST_SYS_ACTIVE_01,
        event := task_system_ev_t.EV_SYS_LOOP_DET, flag := true }
    queue := [task_system_ev_t.EV_SYS_IDLE]
    g_task_actuator_cnt := 5, g_task_actuator_tick_cnt := 3
    task_actuator_dta_list :=
      [{ tick := 0, state := task_actuator_st_t.ST_LED_XX_ON,
         event := task_actuator_ev_t.EV_LED_XX_ON, flag := true }]
    trace := [] }

/-- An admissible interleaving on the sample board: `app_init` runs to its end (8 steps), two
ticks fire before `app_update` begins, the foreground runs 12 steps, up to the end of the first
statechart step of the sensor task, a third tick fires, and the foreground runs the `CPSID i`
that follows. -/
def sample_schedule : List Event :=
  List.replicate 8 Event.fg ++ [Event.irq, Event.irq] ++ List.replicate 12 Event.fg ++
    [Event.irq] ++ [Event.fg]

/-! ## The statecharts, one step -/

/-- The `for` loop of `task_actuator_statechart` treats an instance in the middle of the table on
its own: the instances before it, the instance, the instances after it. -/
theorem task_actuator_statechart_for_append (cfg : task_actuator_cfg_t)
    (dta : task_actuator_dta_t) (cfgs₂ : List task_actuator_cfg_t)
    (dtas₂ : List task_actuator_dta_t) :
    ∀ (cfgs₁ : List task_actuator_cfg_t) (dtas₁ : List task_actuator_dta_t),
      cfgs₁.length = dtas₁.length →
      task_actuator_statechart_for (cfgs₁ ++ cfg :: cfgs₂) (dtas₁ ++ dta :: dtas₂) =
        ((task_actuator_statechart_for cfgs₁ dtas₁).1 ++
            (task_actuator_statechart_index cfg dta).1 ::
              (task_actuator_statechart_for cfgs₂ dtas₂).1,
          (task_actuator_statechart_for cfgs₁ dtas₁).2 ++
            ((task_actuator_statechart_index cfg dta).2 ++
              (task_actuator_statechart_for cfgs₂ dtas₂).2))
  | [], [], _ => by simp [task_actuator_statechart_for]
  | [], _ :: _, h => by simp at h
  | _ :: _, [], h => by simp at h
  | c :: cs, d :: ds, h => by
    have ih := task_actuator_statechart_for_append cfg dta cfgs₂ dtas₂ cs ds (by simpa using h)
    simp [task_actuator_statechart_for, ih]

/-- One call of `task_actuator_statechart`, seen from the instance in the middle of the table. -/
theorem task_actuator_statechart_split (env : Env) (s : State)
    (cfgs₁ cfgs₂ : List task_actuator_cfg_t) (cfg : task_actuator_cfg_t)
    (dtas₁ dtas₂ : List task_actuator_dta_t) (dta : task_actuator_dta_t)
    (hc : env.task_actuator_cfg_list = cfgs₁ ++ cfg :: cfgs₂)
    (hd : s.task_actuator_dta_list = dtas₁ ++ dta :: dtas₂)
    (hl : cfgs₁.length = dtas₁.length) :
    (task_actuator_statechart env s).task_actuator_dta_list =
        (task_actuator_statechart_for cfgs₁ dtas₁).1 ++
          (task_actuator_statechart_index cfg dta).1 ::
            (task_actuator_statechart_for cfgs₂ dtas₂).1 ∧
      (task_actuator_statechart env s).trace =
        s.trace ++ Call.task_actuator_statechart ::
          ((task_actuator_statechart_for cfgs₁ dtas₁).2 ++
            ((task_actuator_statechart_index cfg dta).2 ++
              (task_actuator_statechart_for cfgs₂ dtas₂).2)) := by
  simp [task_actuator_statechart, hc, hd,
    task_actuator_statechart_for_append cfg dta cfgs₂ dtas₂ cfgs₁ dtas₁ hl]

/-- C7. Actuator transitions: for the instance in the middle of the table, in state Off with
flag set and event `EV_LED_XX_ON`, one call of `task_actuator_statechart` makes it On with flag
cleared (tick and event kept) and issues for it exactly one `HAL_GPIO_WritePin` on its configured
port and pin with its `led_on` level, between the writes of the instances before and after it;
in state On with flag set and event `EV_LED_XX_OFF` it becomes Off with flag cleared and the one
write carries `led_off`. -/
theorem actuator_transitions (env : Env) (s : State)
    (cfgs₁ cfgs₂ : List task_actuator_cfg_t) (cfg : task_actuator_cfg_t)
    (dtas₁ dtas₂ : List task_actuator_dta_t) (dta : task_actuator_dta_t)
    (hc : env.task_actuator_cfg_list = cfgs₁ ++ cfg :: cfgs₂)
    (hd : s.task_actuator_dta_list = dtas₁ ++ dta :: dtas₂)
    (hl : cfgs₁.length = dtas₁.length)
    (hflag : dta.flag = true) :
    (dta.state = task_actuator_st_t.ST_LED_XX_OFF → dta.event = task_actuator_ev_t.EV_LED_XX_ON →
      (task_actuator_statechart env s).task_actuator_dta_list =
          (task_actuator_statechart_for cfgs₁ dtas₁).1 ++
            { tick := dta.tick, state := task_actuator_st_t.ST_LED_XX_ON,
              event := task_actuator_ev_t.EV_LED_XX_ON, flag := false } ::
              (task_actuator_statechart_for cfgs₂ dtas₂).1 ∧
        (task_actuator_statechart env s).trace =
          s.trace ++ Call.task_actuator_statechart ::
            ((task_actuator_statechart_for cfgs₁ dtas₁).2 ++
              (Call.HAL_GPIO_WritePin cfg.gpio_port cfg.pin cfg.led_on ::
                (task_actuator_statechart_for cfgs₂ dtas₂).2))) ∧
    (dta.state = task_actuator_st_t.ST_LED_XX_ON → dta.event = task_actuator_ev_t.EV_LED_XX_OFF →
      (task_actuator_statechart env s).task_actuator_dta_list =
          (task_actuator_statechart_for cfgs₁ dtas₁).1 ++
            { tick := dta.tick, state := task_actuator_st_t.ST_LED_XX_OFF,
              event := task_actuator_ev_t.EV_LED_XX_OFF, flag := false } ::
              (task_actuator_statechart_for cfgs₂ dtas₂).1 ∧
        (task_actuator_statechart env s).trace =
          s.trace ++ Call.task_actuator_statechart ::
            ((task_actuator_statechart_for cfgs₁ dtas₁).2 ++
              (Call.HAL_GPIO_WritePin cfg.gpio_port cfg.pin cfg.led_off ::
                (task_actuator_statechart_for cfgs₂ dtas₂).2))) := by
  have h := task_actuator_statechart_split env s cfgs₁ cfgs₂ cfg dtas₁ dtas₂ dta hc hd hl
  obtain ⟨tick, state, event, flag⟩ := dta
  simp only at hflag
  subst hflag
  constructor
  · intro hs he
    simp only at hs he
    subst hs he
    simpa [task_actuator_statechart_index] using h
  · intro hs he
    simp only at hs he
    subst hs he
    simpa [task_actuator_statechart_index] using h

/-- C7, checked on the single LED of the sources: Off with a pending `EV_LED_XX_ON` becomes On
and the trace gains the statechart entry and one write of level 1 on port 16, pin 5; On with a
pending `EV_LED_XX_OFF` becomes Off and the one write carries level 0. -/
theorem actuator_transitions_witness :
    ((task_actuator_statechart sample_env
          { sample_state with task_actuator_dta_list :=
              [{ tick := 0, state := task_actuator_st_t.ST_LED_XX_OFF,
                 event := task_actuator_ev_t.EV_LED_XX_ON, flag := true }] }).task_actuator_dta_list =
          [{ tick := 0, state := task_actuator_st_t.ST_LED_XX_ON,
             event := task_actuator_ev_t.EV_LED_XX_ON, flag := false }] ∧
        (task_actuator_statechart sample_env
          { sample_state with task_actuator_dta_list :=
              [{ tick := 0, state := task_actuator_st_t.ST_LED_XX_OFF,
                 event := task_actuator_ev_t.EV_LED_XX_ON, flag := true }] }).trace =
          [Call.task_actuator_statechart, Call.HAL_GPIO_WritePin 16 5 1]) ∧
      ((task_actuator_statechart sample_env
          { sample_state with task_actuator_dta_list :=
              [{ tick := 0, state := task_actuator_st_t.ST_LED_XX_ON,
                 event := task_actuator_ev_t.EV_LED_XX_OFF, flag := true }] }).task_actuator_dta_list =
          [{ tick := 0, state := task_actuator_st_t.ST_LED_XX_OFF,
             event := task_actuator_ev_t.EV_LED_XX_OFF, flag := false }] ∧
        (task_actuator_statechart sample_env
          { sample_state with task_actuator_dta_list :=
              [{ tick := 0, state := task_actuator_st_t.ST_LED_XX_ON,
                 event := task_actuator_ev_t.EV_LED_XX_OFF, flag := true }] }).trace =
          [Call.task_actuator_statechart, Call.HAL_GPIO_WritePin 16 5 0]) :=
  ⟨(actuator_transitions sample_env
      { sample_state with task_actuator_dta_list :=
          [{ tick := 0, state := task_actuator_st_t.ST_LED_XX_OFF,
             event := task_actuator_ev_t.EV_LED_XX_ON, flag := true }] }
      [] [] sample_cfg [] []
      { tick := 0, state := task_actuator_st_t.ST_LED_XX_OFF,
        event := task_actuator_ev_t.EV_LED_XX_ON, flag := true }
      rfl rfl rfl rfl).1 rfl rfl,
    (actuator_transitions sample_env
      { sample_state with task_actuator_dta_list :=
          [{ tick := 0, state := task_actuator_st_t.ST_LED_XX_ON,
             event := task_actuator_ev_t.EV_LED_XX_OFF, flag := true }] }
      [] [] sample_cfg [] []
      { tick := 0, state := task_actuator_st_t.ST_LED_XX_ON,
        event := task_actuator_ev_t.EV_LED_XX_OFF, flag := true }
      rfl rfl rfl rfl).2 rfl rfl⟩

/-- C8. System transitions: in state Idle with a non-empty queue whose oldest event is
`EV_SYS_LOOP_DET`, one call of `task_system_statechart` removes that event, ends in state
`ST_SYS_ACTIVE_01` with flag false, and calls `put_event_task_actuator (EV_LED_XX_ON, ID_LED_A)`
exactly once (the trace gains the statechart entry and that one call); in state
`ST_SYS_ACTIVE_01` with oldest event `EV_SYS_IDLE` it ends in Idle with flag false and the one
call is `put_event_task_actuator (EV_LED_XX_OFF, ID_LED_A)`. -/
theorem system_transitions (s : State) (rest : List task_system_ev_t) :
    (s.task_system_dta.state = task_system_st_t.ST_SYS_IDLE →
      s.queue = task_system_ev_t.EV_SYS_LOOP_DET :: rest →
      (task_system_statechart s).task_system_dta.state = task_system_st_t.ST_SYS_ACTIVE_01 ∧
        (task_system_statechart s).task_system_dta.flag = false ∧
        (task_system_statechart s).queue = rest ∧
        (task_system_statechart s).trace =
          s.trace ++ [Call.task_system_statechart,
            Call.put_event_task_actuator task_actuator_ev_t.EV_LED_XX_ON ID_LED_A]) ∧
    (s.task_system_dta.state = task_system_st_t.ST_SYS_ACTIVE_01 →
      s.queue = task_system_ev_t.EV_SYS_IDLE :: rest →
      (task_system_statechart s).task_system_dta.state = task_system_st_t.ST_SYS_IDLE ∧
        (task_system_statechart s).task_system_dta.flag = false ∧
        (task_system_statechart s).queue = rest ∧
        (task_system_statechart s).trace =
          s.trace ++ [Call.task_system_statechart,
            Call.put_event_task_actuator task_actuator_ev_t.EV_LED_XX_OFF ID_LED_A]) := by
  constructor
  · intro hs hq
    simp [task_system_statechart, State.log, any_event_task_system, get_event_task_system,
      put_event_task_actuator, hs, hq]
  · intro hs hq
    simp [task_system_statechart, State.log, any_event_task_system, get_event_task_system,
      put_event_task_actuator, hs, hq]

/-- C8, checked on the initial instance with `EV_SYS_LOOP_DET` queued, and on the instance in
`ST_SYS_ACTIVE_01` with `EV_SYS_IDLE` queued. -/
theorem system_transitions_witness :
    ((task_system_statechart
          { sample_state with queue := [task_system_ev_t.EV_SYS_LOOP_DET] }).task_system_dta.state =
          task_system_st_t.ST_SYS_ACTIVE_01 ∧
        (task_system_statechart
          { sample_state with queue := [task_system_ev_t.EV_SYS_LOOP_DET] }).task_system_dta.flag =
          false ∧
        (task_system_statechart
          { sample_state with queue := [task_system_ev_t.EV_SYS_LOOP_DET] }).queue = [] ∧
        (task_system_statechart
          { sample_state with queue := [task_system_ev_t.EV_SYS_LOOP_DET] }).trace =
          [] ++ [Call.task_system_statechart,
            Call.put_event_task_actuator task_actuator_ev_t.EV_LED_XX_ON ID_LED_A]) ∧
      ((task_system_statechart
          { sample_state with
            task_system_dta :=
              { tick := 0, state := task_system_st_t.ST_SYS_ACTIVE_01,
                event := task_system_ev_t.EV_SYS_LOOP_DET, flag := false }
            queue := [task_system_ev_t.EV_SYS_IDLE] }).task_system_dta.state =
          task_system_st_t.ST_SYS_IDLE ∧
        (task_system_statechart
          { sample_state with
            task_system_dta :=
              { tick := 0, state := task_system_st_t.ST_SYS_ACTIVE_01,
                event := task_system_ev_t.EV_SYS_LOOP_DET, flag := false }
            queue := [task_system_ev_t.EV_SYS_IDLE] }).task_system_dta.flag = false ∧
        (task_system_statechart
          { sample_state with
            task_system_dta :=
              { tick := 0, state := task_system_st_t.ST_SYS_ACTIVE_01,
                event := task_system_ev_t.EV_SYS_LOOP_DET, flag := false }
            queue := [task_system_ev_t.EV_SYS_IDLE] }).queue = [] ∧
        (task_system_statechart
          { sample_state with
            task_system_dta :=
              { tick := 0, state := task_system_st_t.ST_SYS_ACTIVE_01,
                event := task_system_ev_t.EV_SYS_LOOP_DET, flag := false }
            queue := [task_system_ev_t.EV_SYS_IDLE] }).trace =
          [] ++ [Call.task_system_statechart,
            Call.put_event_task_actuator task_actuator_ev_t.EV_LED_XX_OFF ID_LED_A]) :=
  ⟨(system_transitions { sample_state with queue := [task_system_ev_t.EV_SYS_LOOP_DET] } []).1
      rfl rfl,
    (system_transitions
      { sample_state with
        task_system_dta :=
          { tick := 0, state := task_system_st_t.ST_SYS_ACTIVE_01,
            event := task_system_ev_t.EV_SYS_LOOP_DET, flag := false }
        queue := [task_system_ev_t.EV_SYS_IDLE] } []).2 rfl rfl⟩

/-- C9. Invalid-state recovery: an actuator instance whose state is none of the five declared
ones leaves one call of `task_actuator_statechart` with state Off, event `EV_LED_XX_OFF`, flag
false and tick 0, whatever its flag, event and tick were, and no output write is issued for it;
the system task with a state that is none of the seven declared ones leaves one call of
`task_system_statechart` with state Idle, event `EV_SYS_IDLE`, flag false and tick 0, whatever
the queue holds, and `put_event_task_actuator` is not called (the trace gains the statechart
entry only). -/
theorem invalid_state_recovery (env : Env) (s : State) (raw : Nat) :
    (∀ (cfgs₁ cfgs₂ : List task_actuator_cfg_t) (cfg : task_actuator_cfg_t)
        (dtas₁ dtas₂ : List task_actuator_dta_t) (dta : task_actuator_dta_t),
      env.task_actuator_cfg_list = cfgs₁ ++ cfg :: cfgs₂ →
      s.task_actuator_dta_list = dtas₁ ++ dta :: dtas₂ →
      cfgs₁.length = dtas₁.length →
      dta.state = task_actuator_st_t.invalid raw →
      (task_actuator_statechart env s).task_actuator_dta_list =
          (task_actuator_statechart_for cfgs₁ dtas₁).1 ++
            { tick := 0, state := task_actuator_st_t.ST_LED_XX_OFF,
              event := task_actuator_ev_t.EV_LED_XX_OFF, flag := false } ::
              (task_actuator_statechart_for cfgs₂ dtas₂).1 ∧
        (task_actuator_statechart env s).trace =
          s.trace ++ Call.task_actuator_statechart ::
            ((task_actuator_statechart_for cfgs₁ dtas₁).2 ++
              (task_actuator_statechart_for cfgs₂ dtas₂).2)) ∧
    (s.task_system_dta.state = task_system_st_t.invalid raw →
      (task_system_statechart s).task_system_dta =
          { tick := 0, state := task_system_st_t.ST_SYS_IDLE,
            event := task_system_ev_t.EV_SYS_IDLE, flag := false } ∧
        (task_system_statechart s).trace = s.trace ++ [Call.task_system_statechart]) := by
  constructor
  · intro cfgs₁ cfgs₂ cfg dtas₁ dtas₂ dta hc hd hl hs
    have h := task_actuator_statechart_split env s cfgs₁ cfgs₂ cfg dtas₁ dtas₂ dta hc hd hl
    simpa [task_actuator_statechart_index, hs, DEL_LED_XX_MIN] using h
  · intro hs
    cases hq : s.queue <;>
      simp [task_system_statechart, State.log, any_event_task_system, get_event_task_system,
        hs, hq, DEL_SYS_MIN]

/-- C9, checked on both tasks: a corrupted state value with a set flag, a non-zero tick and a
pending event ends in the initial instance, with no write and no mailbox put. -/
theorem invalid_state_recovery_witness :
    ((task_actuator_statechart sample_env
          { sample_state with task_actuator_dta_list :=
              [{ tick := 9, state := task_actuator_st_t.invalid 77,
                 event := task_actuator_ev_t.EV_LED_XX_ON, flag := true }] }).task_actuator_dta_list =
          [] ++ [{ tick := 0, state := task_actuator_st_t.ST_LED_XX_OFF,
                   event := task_actuator_ev_t.EV_LED_XX_OFF, flag := false }] ∧
        (task_actuator_statechart sample_env
          { sample_state with task_actuator_dta_list :=
              [{ tick := 9, state := task_actuator_st_t.invalid 77,
                 event := task_actuator_ev_t.EV_LED_XX_ON, flag := true }] }).trace =
          [] ++ [Call.task_actuator_statechart]) ∧
      ((task_system_statechart
          { sample_state with
            task_system_dta :=
              { tick := 9, state := task_system_st_t.invalid 77,
                event := task_system_ev_t.EV_SYS_LOOP_DET, flag := true }
            queue := [task_system_ev_t.EV_SYS_LOOP_DET] }).task_system_dta =
          { tick := 0, state := task_system_st_t.ST_SYS_IDLE,
            event := task_system_ev_t.EV_SYS_IDLE, flag := false } ∧
        (task_system_statechart
          { sample_state with
            task_system_dta :=
              { tick := 9, state := task_system_st_t.invalid 77,
                event := task_system_ev_t.EV_SYS_LOOP_DET, flag := true }
            queue := [task_system_ev_t.EV_SYS_LOOP_DET] }).trace =
          [] ++ [Call.task_system_statechart]) :=
  ⟨(invalid_state_recovery sample_env
      { sample_state with task_actuator_dta_list :=
          [{ tick := 9, state := task_actuator_st_t.invalid 77,
             event := task_actuator_ev_t.EV_LED_XX_ON, flag := true }] } 77).1
      [] [] sample_cfg [] []
      { tick := 9, state := task_actuator_st_t.invalid 77,
        event := task_actuator_ev_t.EV_LED_XX_ON, flag := true } rfl rfl rfl rfl,
    (invalid_state_recovery sample_env
      { sample_state with
        task_system_dta :=
          { tick := 9, state := task_system_st_t.invalid 77,
            event := task_system_ev_t.EV_SYS_LOOP_DET, flag := true }
        queue := [task_system_ev_t.EV_SYS_LOOP_DET] } 77).2 rfl⟩

/-- C6. No-match is a no-op: an actuator instance in one of the five declared states whose
(flag, event) does not satisfy the transition guard of its state (flag false, or Off without
`EV_LED_XX_ON`, or On without `EV_LED_XX_OFF`, or any Blink/Pulse state) leaves one call of
`task_actuator_statechart` with state, flag, event and tick unchanged, and no
`HAL_GPIO_WritePin` is issued for it; with an empty queue and a declared state whose guard is
not satisfied, `task_system_statechart` changes nothing at all but the history, which gains
the statechart entry and no `put_event_task_actuator`. -/
theorem no_match_is_noop (env : Env) (s : State) :
    (∀ (cfgs₁ cfgs₂ : List task_actuator_cfg_t) (cfg : task_actuator_cfg_t)
        (dtas₁ dtas₂ : List task_actuator_dta_t) (dta : task_actuator_dta_t),
      env.task_actuator_cfg_list = cfgs₁ ++ cfg :: cfgs₂ →
      s.task_actuator_dta_list = dtas₁ ++ dta :: dtas₂ →
      cfgs₁.length = dtas₁.length →
      (∀ raw, dta.state ≠ task_actuator_st_t.invalid raw) →
      ¬ (dta.flag = true ∧
          ((dta.state = task_actuator_st_t.ST_LED_XX_OFF ∧
              dta.event = task_actuator_ev_t.EV_LED_XX_ON) ∨
            (dta.state = task_actuator_st_t.ST_LED_XX_ON ∧
              dta.event = task_actuator_ev_t.EV_LED_XX_OFF))) →
      (task_actuator_statechart env s).task_actuator_dta_list =
          (task_actuator_statechart_for cfgs₁ dtas₁).1 ++
            dta :: (task_actuator_statechart_for cfgs₂ dtas₂).1 ∧
        (task_actuator_statechart env s).trace =
          s.trace ++ Call.task_actuator_statechart ::
            ((task_actuator_statechart_for cfgs₁ dtas₁).2 ++
              (task_actuator_statechart_for cfgs₂ dtas₂).2)) ∧
    (s.queue = [] →
      (∀ raw, s.task_system_dta.state ≠ task_system_st_t.invalid raw) →
      ¬ (s.task_system_dta.flag = true ∧
          ((s.task_system_dta.state = task_system_st_t.ST_SYS_IDLE ∧
              s.task_system_dta.event = task_system_ev_t.EV_SYS_LOOP_DET) ∨
            (s.task_system_dta.state = task_system_st_t.ST_SYS_ACTIVE_01 ∧
              s.task_system_dta.event = task_system_ev_t.EV_SYS_IDLE))) →
      task_system_statechart s = { s with trace := s.trace ++ [Call.task_system_statechart] }) := by
  constructor
  · intro cfgs₁ cfgs₂ cfg dtas₁ dtas₂ dta hc hd hl hdecl hguard
    have h := task_actuator_statechart_split env s cfgs₁ cfgs₂ cfg dtas₁ dtas₂ dta hc hd hl
    have hstep : task_actuator_statechart_index cfg dta = (dta, []) := by
      obtain ⟨tick, state, event, flag⟩ := dta
      cases state <;> simp_all [task_actuator_statechart_index]
    simpa [hstep] using h
  · intro hq hdecl hguard
    obtain ⟨a, b, c, d, e, f, g, ⟨tick, state, event, flag⟩, q, i, j, k, tr⟩ := s
    simp only at hq hdecl hguard
    subst hq
    cases state <;>
      simp_all [task_system_statechart, State.log, any_event_task_system]

/-- C6, checked on Scenario 2 of the spec: the LED instance in state On with a pending
`EV_LED_XX_ON` stays as it is and the trace gains the statechart entry only; the system task in
Idle with a latched `EV_SYS_IDLE` and an empty queue stays as it is. -/
theorem no_match_is_noop_witness :
    ((task_actuator_statechart sample_env
          { sample_state with task_actuator_dta_list :=
              [{ tick := 0, state := task_actuator_st_t.ST_LED_XX_ON,
                 event := task_actuator_ev_t.EV_LED_XX_ON, flag := true }] }).task_actuator_dta_list =
          [] ++ [{ tick := 0, state := task_actuator_st_t.ST_LED_XX_ON,
                   event := task_actuator_ev_t.EV_LED_XX_ON, flag := true }] ∧
        (task_actuator_statechart sample_env
          { sample_state with task_actuator_dta_list :=
              [{ tick := 0, state := task_actuator_st_t.ST_LED_XX_ON,
                 event := task_actuator_ev_t.EV_LED_XX_ON, flag := true }] }).trace =
          [] ++ [Call.task_actuator_statechart]) ∧
      task_system_statechart
          { sample_state with
            task_system_dta :=
              { tick := 0, state := task_system_st_t.ST_SYS_IDLE,
                event := task_system_ev_t.EV_SYS_IDLE, flag := true } } =
        { sample_state with
          task_system_dta :=
            { tick := 0, state := task_system_st_t.ST_SYS_IDLE,
              event := task_system_ev_t.EV_SYS_IDLE, flag := true }
          trace := [] ++ [Call.task_system_statechart] } :=
  ⟨(no_match_is_noop sample_env
      { sample_state with task_actuator_dta_list :=
          [{ tick := 0, state := task_actuator_st_t.ST_LED_XX_ON,
             event := task_actuator_ev_t.EV_LED_XX_ON, flag := true }] }).1
      [] [] sample_cfg [] []
      { tick := 0, state := task_actuator_st_t.ST_LED_XX_ON,
        event := task_actuator_ev_t.EV_LED_XX_ON, flag := true } rfl rfl rfl
      (by intro raw h; cases h) (by decide),
    (no_match_is_noop sample_env
      { sample_state with
        task_system_dta :=
          { tick := 0, state := task_system_st_t.ST_SYS_IDLE,
            event := task_system_ev_t.EV_SYS_IDLE, flag := true } }).2 rfl
      (by intro raw h; cases h) (by decide)⟩

/-- C5, refuted as stated: the LED instance in the declared state On with flag set and event
`EV_LED_XX_ON` still has its flag set after one call of `task_actuator_statechart`, and the
system task in Idle with flag set, event `EV_SYS_IDLE` and an empty queue still has its flag set
after one call of `task_system_statechart`. -/
theorem event_consumption_counterexample :
    (task_actuator_statechart sample_env
        { sample_state with task_actuator_dta_list :=
            [{ tick := 0, state := task_actuator_st_t.ST_LED_XX_ON,
               event := task_actuator_ev_t.EV_LED_XX_ON, flag := true }] }).task_actuator_dta_list =
        [{ tick := 0, state := task_actuator_st_t.ST_LED_XX_ON,
           event := task_actuator_ev_t.EV_LED_XX_ON, flag := true }] ∧
      (task_system_statechart
        { sample_state with
          task_system_dta :=
            { tick := 0, state := task_system_st_t.ST_SYS_IDLE,
              event := task_system_ev_t.EV_SYS_IDLE, flag := true } }).task_system_dta =
        { tick := 0, state := task_system_st_t.ST_SYS_IDLE,
          event := task_system_ev_t.EV_SYS_IDLE, flag := true } := by
  constructor <;> rfl

/-- C5, amended: for an actuator instance in a declared state with flag set, the flag is false
after one call of `task_actuator_statechart` exactly when the transition of its state matched
(Off with `EV_LED_XX_ON`, On with `EV_LED_XX_OFF`), and stays set otherwise; for the system task
in a declared state with flag set and an empty queue, the flag is false after one call of
`task_system_statechart` exactly when the transition of its state matched (Idle with
`EV_SYS_LOOP_DET`, `ST_SYS_ACTIVE_01` with `EV_SYS_IDLE`), and stays set otherwise. -/
theorem event_consumption_on_match (env : Env) (s : State) :
    (∀ (cfgs₁ cfgs₂ : List task_actuator_cfg_t) (cfg : task_actuator_cfg_t)
        (dtas₁ dtas₂ : List task_actuator_dta_t) (dta : task_actuator_dta_t),
      env.task_actuator_cfg_list = cfgs₁ ++ cfg :: cfgs₂ →
      s.task_actuator_dta_list = dtas₁ ++ dta :: dtas₂ →
      cfgs₁.length = dtas₁.length →
      (∀ raw, dta.state ≠ task_actuator_st_t.invalid raw) →
      dta.flag = true →
      ∃ dta_after : task_actuator_dta_t,
        (task_actuator_statechart env s).task_actuator_dta_list =
          (task_actuator_statechart_for cfgs₁ dtas₁).1 ++
            dta_after :: (task_actuator_statechart_for cfgs₂ dtas₂).1 ∧
        (dta_after.flag = false ↔
          (dta.state = task_actuator_st_t.ST_LED_XX_OFF ∧
              dta.event = task_actuator_ev_t.EV_LED_XX_ON) ∨
            (dta.state = task_actuator_st_t.ST_LED_XX_ON ∧
              dta.event = task_actuator_ev_t.EV_LED_XX_OFF))) ∧
    (s.queue = [] →
      (∀ raw, s.task_system_dta.state ≠ task_system_st_t.invalid raw) →
      s.task_system_dta.flag = true →
      ((task_system_statechart s).task_system_dta.flag = false ↔
        (s.task_system_dta.state = task_system_st_t.ST_SYS_IDLE ∧
            s.task_system_dta.event = task_system_ev_t.EV_SYS_LOOP_DET) ∨
          (s.task_system_dta.state = task_system_st_t.ST_SYS_ACTIVE_01 ∧
            s.task_system_dta.event = task_system_ev_t.EV_SYS_IDLE))) := by
  constructor
  · intro cfgs₁ cfgs₂ cfg dtas₁ dtas₂ dta hc hd hl hdecl hflag
    have h := task_actuator_statechart_split env s cfgs₁ cfgs₂ cfg dtas₁ dtas₂ dta hc hd hl
    refine ⟨(task_actuator_statechart_index cfg dta).1, h.1, ?_⟩
    obtain ⟨tick, state, event, flag⟩ := dta
    simp only at hflag hdecl
    subst hflag
    cases state <;> simp_all [task_actuator_statechart_index] <;> split <;> simp_all
  · intro hq hdecl hflag
    obtain ⟨a, b, c, d, e, f, g, ⟨tick, state, event, flag⟩, q, i, j, k, tr⟩ := s
    simp only at hq hdecl hflag
    subst hq hflag
    cases state <;>
      simp_all [task_system_statechart, State.log, any_event_task_system,
        put_event_task_actuator] <;> split <;> simp_all

/-- C5 as amended, checked on both tasks: the LED instance in Off with a pending
`EV_LED_XX_ON`, and the system task in Idle with a latched `EV_SYS_LOOP_DET` and an empty
queue. -/
theorem event_consumption_on_match_witness :
    (∃ dta_after : task_actuator_dta_t,
        (task_actuator_statechart sample_env
          { sample_state with task_actuator_dta_list :=
              [{ tick := 0, state := task_actuator_st_t.ST_LED_XX_OFF,
                 event := task_actuator_ev_t.EV_LED_XX_ON, flag := true }] }).task_actuator_dta_list =
          [] ++ [dta_after] ∧
        (dta_after.flag = false ↔
          (task_actuator_st_t.ST_LED_XX_OFF = task_actuator_st_t.ST_LED_XX_OFF ∧
              task_actuator_ev_t.EV_LED_XX_ON = task_actuator_ev_t.EV_LED_XX_ON) ∨
            (task_actuator_st_t.ST_LED_XX_OFF = task_actuator_st_t.ST_LED_XX_ON ∧
              task_actuator_ev_t.EV_LED_XX_ON = task_actuator_ev_t.EV_LED_XX_OFF))) ∧
      ((task_system_statechart
          { sample_state with
            task_system_dta :=
              { tick := 0, state := task_system_st_t.ST_SYS_IDLE,
                event := task_system_ev_t.EV_SYS_LOOP_DET, flag := true } }).task_system_dta.flag =
          false ↔
        (task_system_st_t.ST_SYS_IDLE = task_system_st_t.ST_SYS_IDLE ∧
            task_system_ev_t.EV_SYS_LOOP_DET = task_system_ev_t.EV_SYS_LOOP_DET) ∨
          (task_system_st_t.ST_SYS_IDLE = task_system_st_t.ST_SYS_ACTIVE_01 ∧
            task_system_ev_t.EV_SYS_LOOP_DET = task_system_ev_t.EV_SYS_IDLE)) :=
  ⟨(event_consumption_on_match sample_env
      { sample_state with task_actuator_dta_list :=
          [{ tick := 0, state := task_actuator_st_t.ST_LED_XX_OFF,
             event := task_actuator_ev_t.EV_LED_XX_ON, flag := true }] }).1
      [] [] sample_cfg [] []
      { tick := 0, state := task_actuator_st_t.ST_LED_XX_OFF,
        event := task_actuator_ev_t.EV_LED_XX_ON, flag := true } rfl rfl rfl
      (by intro raw h; cases h) rfl,
    (event_consumption_on_match sample_env
      { sample_state with
        task_system_dta :=
          { tick := 0, state := task_system_st_t.ST_SYS_IDLE,
            event := task_system_ev_t.EV_SYS_LOOP_DET, flag := true } }).2 rfl
      (by intro raw h; cases h) rfl⟩

/-! ## The drain loops of the tasks -/

theorem u32_inc_add (c k : Nat) : (u32_inc c + k) % 2 ^ 32 = (c + (k + 1)) % 2 ^ 32 := by
  unfold u32_inc
  omega

theorem task_actuator_statechart_for_quiet {β : Type} (g : Call → Option β) (hg : Quiet g) :
    ∀ (cfgs : List task_actuator_cfg_t) (dtas : List task_actuator_dta_t),
      List.filterMap g (task_actuator_statechart_for cfgs dtas).2 = []
  | [], _ => by simp [task_actuator_statechart_for]
  | _ :: _, [] => by simp [task_actuator_statechart_for]
  | c :: cs, d :: ds => by
    have ih := task_actuator_statechart_for_quiet g hg cs ds
    obtain ⟨tick, state, event, flag⟩ := d
    cases state <;>
      simp [task_actuator_statechart_for, task_actuator_statechart_index, ih] <;>
      split <;> simp [List.filterMap_cons, hg.2]

theorem task_actuator_statechart_counters (env : Env) (s : State) :
    (task_actuator_statechart env s).counters = s.counters := rfl

theorem task_actuator_statechart_trace {β : Type} (g : Call → Option β) (hg : Quiet g)
    (env : Env) (s : State) :
    List.filterMap g (task_actuator_statechart env s).trace =
      List.filterMap g s.trace ++ List.filterMap g [Call.task_actuator_statechart] := by
  simp only [task_actuator_statechart, List.filterMap_append]
  rw [show ∀ (a : Call) (l : List Call), a :: l = [a] ++ l from fun _ _ => rfl,
    List.filterMap_append, task_actuator_statechart_for_quiet g hg]
  simp

theorem task_system_statechart_counters (s : State) :
    (task_system_statechart s).counters = s.counters := by
  obtain ⟨a, b, c, d, e, f, g, ⟨tick, state, event, flag⟩, q, i, j, k, tr⟩ := s
  cases q <;> cases state <;>
    simp [task_system_statechart, State.log, any_event_task_system, get_event_task_system,
      put_event_task_actuator, State.counters] <;>
    split <;> simp

theorem task_system_statechart_trace {β : Type} (g : Call → Option β) (hg : Quiet g)
    (s : State) :
    List.filterMap g (task_system_statechart s).trace =
      List.filterMap g s.trace ++ List.filterMap g [Call.task_system_statechart] := by
  obtain ⟨a, b, c, d, e, f, g0, ⟨tick, state, event, flag⟩, q, i, j, k, tr⟩ := s
  cases q <;> cases state <;>
    simp [task_system_statechart, State.log, any_event_task_system, get_event_task_system,
      put_event_task_actuator] <;>
    split <;> simp [List.filterMap_cons, hg.1]

theorem task_sensor_statechart_counters (env : Env) (s : State) :
    (task_sensor_statechart env s).counters = s.counters := rfl

theorem task_sensor_statechart_trace (env : Env) (s : State) :
    (task_sensor_statechart env s).trace = s.trace ++ [Call.task_sensor_statechart] := rfl

/-- The loop of `task_sensor_update` entered with `k` ticks left returns after `k + 1` steps. -/
theorem task_sensor_update_while_spec (env : Env) :
    ∀ (fuel : Nat) (s : State),
      s.g_task_sensor_tick_cnt < 2 ^ 32 → s.g_task_sensor_tick_cnt < fuel →
      ∃ s', task_sensor_update_while env fuel s = some s' ∧
        s'.counters = { s.counters with g_task_sensor_tick_cnt := 0 } ∧
        s'.trace = s.trace ++
          List.replicate (s.g_task_sensor_tick_cnt + 1) Call.task_sensor_statechart
  | 0, _, _, hf => by omega
  | fuel + 1, s, h32, hf => by
    have hc := task_sensor_statechart_counters env s
    have ht := task_sensor_statechart_trace env s
    simp only [task_sensor_update_while]
    generalize task_sensor_statechart env s = s2 at hc ht ⊢
    have hk : s2.g_task_sensor_tick_cnt = s.g_task_sensor_tick_cnt :=
      congrArg Counters.g_task_sensor_tick_cnt hc
    by_cases hpos : 0 < s2.g_task_sensor_tick_cnt
    · rw [if_pos hpos]
      have hdec : u32_dec s2.g_task_sensor_tick_cnt + 1 = s.g_task_sensor_tick_cnt := by
        unfold u32_dec; omega
      obtain ⟨s', h1, h2, h3⟩ := task_sensor_update_while_spec env fuel
        { s2 with g_task_sensor_tick_cnt := u32_dec s2.g_task_sensor_tick_cnt }
        (by show u32_dec s2.g_task_sensor_tick_cnt < _; omega)
        (show u32_dec s2.g_task_sensor_tick_cnt < fuel by omega)
      refine ⟨s', h1, ?_, ?_⟩
      · rw [h2, ← hc]; simp only [State.counters]
      · rw [h3]
        show s2.trace ++ List.replicate (u32_dec s2.g_task_sensor_tick_cnt + 1) _ = _
        rw [hdec, ht, List.append_assoc, ← hdec]
        rfl
    · rw [if_neg hpos]
      have h0 : s.g_task_sensor_tick_cnt = 0 := by omega
      refine ⟨s2, rfl, ?_, ?_⟩
      · rw [hc]; simp [State.counters, h0]
      · rw [ht, h0]; rfl

/-- One call of `task_sensor_update` with `k` owed ticks returns after `k` steps. -/
theorem task_sensor_update_spec (env : Env) (fuel : Nat) (p : Option Nat) (s : State)
    (h32 : s.g_task_sensor_tick_cnt < 2 ^ 32) (hf : s.g_task_sensor_tick_cnt ≤ fuel) :
    ∃ s', task_sensor_update env fuel p s = some s' ∧
      s'.counters = { s.counters with g_task_sensor_tick_cnt := 0 } ∧
      s'.trace = s.trace ++ Call.task_sensor_update p ::
        List.replicate s.g_task_sensor_tick_cnt Call.task_sensor_statechart := by
  simp only [task_sensor_update]
  by_cases hpos : 0 < (s.log (Call.task_sensor_update p)).g_task_sensor_tick_cnt
  · rw [if_pos hpos]
    have hpos' : 0 < s.g_task_sensor_tick_cnt := hpos
    have hdec : u32_dec s.g_task_sensor_tick_cnt + 1 = s.g_task_sensor_tick_cnt := by
      unfold u32_dec; omega
    obtain ⟨s', h1, h2, h3⟩ := task_sensor_update_while_spec env fuel
      { s.log (Call.task_sensor_update p) with
        g_task_sensor_tick_cnt :=
          u32_dec (s.log (Call.task_sensor_update p)).g_task_sensor_tick_cnt }
      (by show u32_dec s.g_task_sensor_tick_cnt < _; omega)
      (show u32_dec s.g_task_sensor_tick_cnt < fuel by omega)
    refine ⟨s', h1, ?_, ?_⟩
    · rw [h2]; simp only [State.counters, State.log]
    · rw [h3]
      show (s.trace ++ [_]) ++ List.replicate (u32_dec s.g_task_sensor_tick_cnt + 1) _ = _
      rw [hdec, List.append_assoc]
      rfl
  · rw [if_neg hpos]
    have h0 : s.g_task_sensor_tick_cnt = 0 := by
      have : ¬ 0 < s.g_task_sensor_tick_cnt := hpos
      omega
    refine ⟨_, rfl, ?_, ?_⟩
    · simp [State.counters, State.log, h0]
    · rw [h0]; rfl

/-- The loop of `task_system_update` entered with `k` ticks left returns after `k + 1` steps. -/
theorem task_system_update_while_spec :
    ∀ (fuel : Nat) (s : State),
      s.g_task_system_tick_cnt < 2 ^ 32 → s.g_task_system_tick_cnt < fuel →
      ∃ s', task_system_update_while fuel s = some s' ∧
        s'.counters =
          { s.counters with
            g_task_system_tick_cnt := 0
            g_task_system_cnt :=
              (s.g_task_system_cnt + (s.g_task_system_tick_cnt + 1)) % 2 ^ 32 } ∧
        ∀ {β : Type} (g : Call → Option β), Quiet g →
          List.filterMap g s'.trace = List.filterMap g s.trace ++
            List.filterMap g
              (List.replicate (s.g_task_system_tick_cnt + 1) Call.task_system_statechart)
  | 0, _, _, hf => by omega
  | fuel + 1, s, h32, hf => by
    have hc := task_system_statechart_counters
      { s with g_task_system_cnt := u32_inc s.g_task_system_cnt }
    have ht := fun {β : Type} (g : Call → Option β) (hg : Quiet g) =>
      task_system_statechart_trace g hg
        { s with g_task_system_cnt := u32_inc s.g_task_system_cnt }
    simp only [task_system_update_while, G_TASK_SYS_TICK_CNT_INI]
    generalize task_system_statechart
      { s with g_task_system_cnt := u32_inc s.g_task_system_cnt } = s2 at hc ht ⊢
    simp only [State.counters, Counters.mk.injEq] at hc
    obtain ⟨e1, e2, e3, e4, e5, e6, e7, e8⟩ := hc
    by_cases hpos : 0 < s2.g_task_system_tick_cnt
    · rw [if_pos hpos]
      have hdec : u32_dec s2.g_task_system_tick_cnt + 1 = s.g_task_system_tick_cnt := by
        unfold u32_dec; omega
      obtain ⟨s', h1, h2, h3⟩ := task_system_update_while_spec fuel
        { s2 with g_task_system_tick_cnt := u32_dec s2.g_task_system_tick_cnt }
        (by show u32_dec s2.g_task_system_tick_cnt < _; omega)
        (by show u32_dec s2.g_task_system_tick_cnt < _; omega)
      refine ⟨s', h1, ?_, ?_⟩
      · rw [h2]
        simp only [State.counters, Counters.mk.injEq, e1, e2, e3, e5, e6, e7, e8, hdec, true_and,
          and_true]
        rw [← hdec]
        exact u32_inc_add _ _
      · intro β g hg
        rw [h3 g hg]
        show List.filterMap g s2.trace ++
          List.filterMap g (List.replicate (u32_dec s2.g_task_system_tick_cnt + 1) _) = _
        rw [hdec, ht g hg, List.append_assoc, ← List.filterMap_append, ← hdec]
        rfl
    · rw [if_neg hpos]
      have h0 : s.g_task_system_tick_cnt = 0 := by omega
      refine ⟨s2, rfl, ?_, ?_⟩
      · simp only [State.counters, Counters.mk.injEq, e1, e2, e3, e4, e5, e6, e7, e8, h0, true_and,
          and_true]
        rfl
      · intro β g hg
        rw [ht g hg, h0]
        rfl

/-- One call of `task_system_update` with `k` owed ticks returns after `k` steps. -/
theorem task_system_update_spec (fuel : Nat) (p : Option Nat) (s : State)
    (h32 : s.g_task_system_tick_cnt < 2 ^ 32) (hcnt : s.g_task_system_cnt < 2 ^ 32)
    (hf : s.g_task_system_tick_cnt ≤ fuel) :
    ∃ s', task_system_update fuel p s = some s' ∧
      s'.counters =
        { s.counters with
          g_task_system_tick_cnt := 0
          g_task_system_cnt := (s.g_task_system_cnt + s.g_task_system_tick_cnt) % 2 ^ 32 } ∧
      ∀ {β : Type} (g : Call → Option β), Quiet g →
        List.filterMap g s'.trace = List.filterMap g s.trace ++
          List.filterMap g (Call.task_system_update p ::
            List.replicate s.g_task_system_tick_cnt Call.task_system_statechart) := by
  simp only [task_system_update, G_TASK_SYS_TICK_CNT_INI]
  by_cases hpos : 0 < (s.log (Call.task_system_update p)).g_task_system_tick_cnt
  · rw [if_pos hpos]
    have hpos' : 0 < s.g_task_system_tick_cnt := hpos
    have hdec : u32_dec s.g_task_system_tick_cnt + 1 = s.g_task_system_tick_cnt := by
      unfold u32_dec; omega
    obtain ⟨s', h1, h2, h3⟩ := task_system_update_while_spec fuel
      { s.log (Call.task_system_update p) with
        g_task_system_tick_cnt :=
          u32_dec (s.log (Call.task_system_update p)).g_task_system_tick_cnt }
      (by show u32_dec s.g_task_system_tick_cnt < _; omega)
      (by show u32_dec s.g_task_system_tick_cnt < _; omega)
    refine ⟨s', h1, ?_, ?_⟩
    · rw [h2]
      simp only [State.counters, State.log, hdec]
    · intro β g hg
      rw [h3 g hg]
      show List.filterMap g (s.trace ++ [_]) ++
        List.filterMap g (List.replicate (u32_dec s.g_task_system_tick_cnt + 1) _) = _
      rw [hdec, List.filterMap_append, List.append_assoc, ← List.filterMap_append]
      rfl
  · rw [if_neg hpos]
    have h0 : s.g_task_system_tick_cnt = 0 := by
      have : ¬ 0 < s.g_task_system_tick_cnt := hpos
      omega
    refine ⟨_, rfl, ?_, ?_⟩
    · simp only [State.counters, State.log, h0, Nat.add_zero, Nat.mod_eq_of_lt hcnt]
    · intro β g hg
      rw [h0]
      simp [State.log]

/-- The loop of `task_actuator_update` entered with `k` ticks left returns after `k + 1` steps. -/
theorem task_actuator_update_while_spec (env : Env) :
    ∀ (fuel : Nat) (s : State),
      s.g_task_actuator_tick_cnt < 2 ^ 32 → s.g_task_actuator_tick_cnt < fuel →
      ∃ s', task_actuator_update_while env fuel s = some s' ∧
        s'.counters =
          { s.counters with
            g_task_actuator_tick_cnt := 0
            g_task_actuator_cnt :=
              (s.g_task_actuator_cnt + (s.g_task_actuator_tick_cnt + 1)) % 2 ^ 32 } ∧
        ∀ {β : Type} (g : Call → Option β), Quiet g →
          List.filterMap g s'.trace = List.filterMap g s.trace ++
            List.filterMap g
              (List.replicate (s.g_task_actuator_tick_cnt + 1) Call.task_actuator_statechart)
  | 0, _, _, hf => by omega
  | fuel + 1, s, h32, hf => by
    have hc := task_actuator_statechart_counters env
      { s with g_task_actuator_cnt := u32_inc s.g_task_actuator_cnt }
    have ht := fun {β : Type} (g : Call → Option β) (hg : Quiet g) =>
      task_actuator_statechart_trace g hg env
        { s with g_task_actuator_cnt := u32_inc s.g_task_actuator_cnt }
    simp only [task_actuator_update_while, G_TASK_ACT_TICK_CNT_INI]
    generalize task_actuator_statechart env
      { s with g_task_actuator_cnt := u32_inc s.g_task_actuator_cnt } = s2 at hc ht ⊢
    simp only [State.counters, Counters.mk.injEq] at hc
    obtain ⟨e1, e2, e3, e4, e5, e6, e7, e8⟩ := hc
    by_cases hpos : 0 < s2.g_task_actuator_tick_cnt
    · rw [if_pos hpos]
      have hdec : u32_dec s2.g_task_actuator_tick_cnt + 1 = s.g_task_actuator_tick_cnt := by
        unfold u32_dec; omega
      obtain ⟨s', h1, h2, h3⟩ := task_actuator_update_while_spec env fuel
        { s2 with g_task_actuator_tick_cnt := u32_dec s2.g_task_actuator_tick_cnt }
        (by show u32_dec s2.g_task_actuator_tick_cnt < _; omega)
        (by show u32_dec s2.g_task_actuator_tick_cnt < _; omega)
      refine ⟨s', h1, ?_, ?_⟩
      · rw [h2]
        simp only [State.counters, Counters.mk.injEq, e1, e2, e3, e4, e6, e7, e8, hdec, true_and,
          and_true]
        rw [← hdec]
        exact u32_inc_add _ _
      · intro β g hg
        rw [h3 g hg]
        show List.filterMap g s2.trace ++
          List.filterMap g (List.replicate (u32_dec s2.g_task_actuator_tick_cnt + 1) _) = _
        rw [hdec, ht g hg, List.append_assoc, ← List.filterMap_append, ← hdec]
        rfl
    · rw [if_neg hpos]
      have h0 : s.g_task_actuator_tick_cnt = 0 := by omega
      refine ⟨s2, rfl, ?_, ?_⟩
      · simp only [State.counters, Counters.mk.injEq, e1, e2, e3, e4, e5, e6, e7, e8, h0, true_and,
          and_true]
        rfl
      · intro β g hg
        rw [ht g hg, h0]
        rfl

/-- One call of `task_actuator_update` with `k` owed ticks returns after `k` steps. -/
theorem task_actuator_update_spec (env : Env) (fuel : Nat) (p : Option Nat) (s : State)
    (h32 : s.g_task_actuator_tick_cnt < 2 ^ 32) (hcnt : s.g_task_actuator_cnt < 2 ^ 32)
    (hf : s.g_task_actuator_tick_cnt ≤ fuel) :
    ∃ s', task_actuator_update env fuel p s = some s' ∧
      s'.counters =
        { s.counters with
          g_task_actuator_tick_cnt := 0
          g_task_actuator_cnt := (s.g_task_actuator_cnt + s.g_task_actuator_tick_cnt) % 2 ^ 32 } ∧
      ∀ {β : Type} (g : Call → Option β), Quiet g →
        List.filterMap g s'.trace = List.filterMap g s.trace ++
          List.filterMap g (Call.task_actuator_update p ::
            List.replicate s.g_task_actuator_tick_cnt Call.task_actuator_statechart) := by
  simp only [task_actuator_update, G_TASK_ACT_TICK_CNT_INI]
  by_cases hpos : 0 < (s.log (Call.task_actuator_update p)).g_task_actuator_tick_cnt
  · rw [if_pos hpos]
    have hpos' : 0 < s.g_task_actuator_tick_cnt := hpos
    have hdec : u32_dec s.g_task_actuator_tick_cnt + 1 = s.g_task_actuator_tick_cnt := by
      unfold u32_dec; omega
    obtain ⟨s', h1, h2, h3⟩ := task_actuator_update_while_spec env fuel
      { s.log (Call.task_actuator_update p) with
        g_task_actuator_tick_cnt :=
          u32_dec (s.log (Call.task_actuator_update p)).g_task_actuator_tick_cnt }
      (by show u32_dec s.g_task_actuator_tick_cnt < _; omega)
      (by show u32_dec s.g_task_actuator_tick_cnt < _; omega)
    refine ⟨s', h1, ?_, ?_⟩
    · rw [h2]
      simp only [State.counters, State.log, hdec]
    · intro β g hg
      rw [h3 g hg]
      show List.filterMap g (s.trace ++ [_]) ++
        List.filterMap g (List.replicate (u32_dec s.g_task_actuator_tick_cnt + 1) _) = _
      rw [hdec, List.filterMap_append, List.append_assoc, ← List.filterMap_append]
      rfl
  · rw [if_neg hpos]
    have h0 : s.g_task_actuator_tick_cnt = 0 := by
      have : ¬ 0 < s.g_task_actuator_tick_cnt := hpos
      omega
    refine ⟨_, rfl, ?_, ?_⟩
    · simp only [State.counters, State.log, h0, Nat.add_zero, Nat.mod_eq_of_lt hcnt]
    · intro β g hg
      rw [h0]
      simp [State.log]

/-! ## One pass of the scheduler -/

theorem filterMap_cons_cons {α β : Type} (g : α → Option β) (a b : α) (l : List α) :
    List.filterMap g (a :: b :: l) = List.filterMap g [a] ++ List.filterMap g (b :: l) := by
  rw [← List.filterMap_append]
  rfl

theorem filterMap_cons_replicate {α β : Type} (g : α → Option β) (a x : α) (n : Nat) :
    List.filterMap g (a :: List.replicate n x) =
      List.filterMap g [a] ++ List.filterMap g (List.replicate n x) := by
  rw [← List.filterMap_append]
  rfl

theorem app_update_variables_counters (index t : Nat) (s : State) (c : Call) :
    (app_update_variables index t (s.log c)).counters =
      { s.counters with task_dta_list := s.task_dta_list.modify (task_dta_t.update t) index } :=
  rfl

theorem app_update_variables_trace (index t : Nat) (s : State) (c : Call) :
    (app_update_variables index t (s.log c)).trace = s.trace ++ [c] := rfl

/-- One pass of the `for` loop of `app_update`: every task drains its own backlog, three
durations are read, the three WCET entries are updated in table order. -/
theorem app_update_for_spec (env : Env) (fuel : Nat) (s : State)
    (hu : s.counters.u32) (hf : s.counters.tasks_le fuel) :
    ∃ s' t0 t1 t2, app_update_for env fuel task_cfg_list 0 s = some s' ∧
      s'.counters =
        { g_app_cnt := s.g_app_cnt
          g_app_tick_cnt := s.g_app_tick_cnt
          g_task_sensor_tick_cnt := 0
          g_task_system_tick_cnt := 0
          g_task_actuator_tick_cnt := 0
          g_task_system_cnt := (s.g_task_system_cnt + s.g_task_system_tick_cnt) % 2 ^ 32
          g_task_actuator_cnt := (s.g_task_actuator_cnt + s.g_task_actuator_tick_cnt) % 2 ^ 32
          task_dta_list :=
            ((s.task_dta_list.modify (task_dta_t.update t0) 0).modify
              (task_dta_t.update t1) 1).modify (task_dta_t.update t2) 2 } ∧
      ∀ {β : Type} (g : Call → Option β), Quiet g →
        List.filterMap g s'.trace = List.filterMap g s.trace ++
          List.filterMap g
            (pass_calls s.g_task_sensor_tick_cnt s.g_task_system_tick_cnt
              s.g_task_actuator_tick_cnt t0 t1 t2) := by
  obtain ⟨-, -, hu3, hu4, hu5, hu6, hu7⟩ := hu
  obtain ⟨hf1, hf2, hf3⟩ := hf
  simp only [State.counters] at hu3 hu4 hu5 hu6 hu7 hf1 hf2 hf3
  -- sensor
  obtain ⟨s1, h1, c1, tr1⟩ :=
    task_sensor_update_spec env fuel none (s.log Call.cycle_counter_reset) hu3 hf1
  simp only [State.counters, State.log, Counters.mk.injEq] at c1
  obtain ⟨a1, a2, a3, a4, a5, a6, a7, a8⟩ := c1
  generalize ht0 : env.cycle_counter_get_time_us s1.trace % 2 ^ 32 = t0
  have c1v := app_update_variables_counters 0 t0 s1 (Call.cycle_counter_get_time_us 0 t0)
  have tr1v := app_update_variables_trace 0 t0 s1 (Call.cycle_counter_get_time_us 0 t0)
  generalize hs1v : app_update_variables 0 t0 (s1.log (Call.cycle_counter_get_time_us 0 t0)) = s1v
    at c1v tr1v
  simp only [State.counters, Counters.mk.injEq] at c1v
  obtain ⟨b1, b2, b3, b4, b5, b6, b7, b8⟩ := c1v
  -- system
  obtain ⟨s2, h2, c2, tr2⟩ :=
    task_system_update_spec fuel none (s1v.log Call.cycle_counter_reset)
      (by show s1v.g_task_system_tick_cnt < _; omega)
      (by show s1v.g_task_system_cnt < _; omega)
      (by show s1v.g_task_system_tick_cnt ≤ _; omega)
  simp only [State.counters, State.log, Counters.mk.injEq] at c2
  obtain ⟨d1, d2, d3, d4, d5, d6, d7, d8⟩ := c2
  generalize ht1 : env.cycle_counter_get_time_us s2.trace % 2 ^ 32 = t1
  have c2v := app_update_variables_counters 1 t1 s2 (Call.cycle_counter_get_time_us 1 t1)
  have tr2v := app_update_variables_trace 1 t1 s2 (Call.cycle_counter_get_time_us 1 t1)
  generalize hs2v : app_update_variables 1 t1 (s2.log (Call.cycle_counter_get_time_us 1 t1)) = s2v
    at c2v tr2v
  simp only [State.counters, Counters.mk.injEq] at c2v
  obtain ⟨e1, e2, e3, e4, e5, e6, e7, e8⟩ := c2v
  -- actuator
  obtain ⟨s3, h3, c3, tr3⟩ :=
    task_actuator_update_spec env fuel none (s2v.log Call.cycle_counter_reset)
      (by show s2v.g_task_actuator_tick_cnt < _; omega)
      (by show s2v.g_task_actuator_cnt < _; omega)
      (by show s2v.g_task_actuator_tick_cnt ≤ _; omega)
  simp only [State.counters, State.log, Counters.mk.injEq] at c3
  obtain ⟨f1, f2, f3, f4, f5, f6, f7, f8⟩ := c3
  generalize ht2 : env.cycle_counter_get_time_us s3.trace % 2 ^ 32 = t2
  have c3v := app_update_variables_counters 2 t2 s3 (Call.cycle_counter_get_time_us 2 t2)
  have tr3v := app_update_variables_trace 2 t2 s3 (Call.cycle_counter_get_time_us 2 t2)
  generalize hs3v : app_update_variables 2 t2 (s3.log (Call.cycle_counter_get_time_us 2 t2)) = s3v
    at c3v tr3v
  simp only [State.counters, Counters.mk.injEq] at c3v
  obtain ⟨g1, g2, g3, g4, g5, g6, g7, g8⟩ := c3v
  refine ⟨s3v, t0, t1, t2, ?_, ?_, ?_⟩
  · simp only [task_cfg_list, app_update_for, h1, ht0, hs1v, h2, ht1, hs2v, h3, ht2, hs3v]
  · simp only [State.counters, Counters.mk.injEq]
    refine ⟨?_, ?_, ?_, ?_, ?_, ?_, ?_, ?_⟩ <;> simp only [*]
  · intro β g hg
    have k1 : s2v.g_task_actuator_tick_cnt = s.g_task_actuator_tick_cnt := by
      rw [e5, d5, b5, a5]
    have k2 : s1v.g_task_system_tick_cnt = s.g_task_system_tick_cnt := by
      rw [b4, a4]
    rw [tr3v, List.filterMap_append, tr3 g hg]
    simp only [State.log]
    rw [List.filterMap_append, tr2v, List.filterMap_append, tr2 g hg]
    simp only [State.log]
    rw [List.filterMap_append, tr1v, List.filterMap_append, tr1]
    simp only [State.log, k1, k2, pass_calls, List.filterMap_append, List.append_assoc,
      filterMap_cons_cons, filterMap_cons_replicate]

/-! ## The WCET entries along an execution -/

theorem task_dta_update_eq_max (t : Nat) (d : task_dta_t) :
    task_dta_t.update t d = { WCET := max d.WCET t } := by
  unfold task_dta_t.update
  by_cases h : d.WCET < t
  · simp [h, Nat.max_eq_right (Nat.le_of_lt h)]
  · simp [h, Nat.max_eq_left (Nat.le_of_not_lt h)]

theorem Measured.refl (l : List task_dta_t) (tr : List Call) (hl : l.length = 3) :
    Measured l tr l tr := by
  match l, hl with
  | [a, b, c], _ => exact ⟨a.WCET, b.WCET, c.WCET, [], [], [], rfl, rfl, by simp, by simp, by simp⟩

theorem Measured.length_right {l l' : List task_dta_t} {tr tr' : List Call}
    (h : Measured l tr l' tr') : l'.length = 3 := by
  obtain ⟨w0, w1, w2, m0, m1, m2, -, h2, -⟩ := h
  rw [h2]
  rfl

theorem Measured.trans {l l' l'' : List task_dta_t} {tr tr' tr'' : List Call}
    (h : Measured l tr l' tr') (h' : Measured l' tr' l'' tr'') : Measured l tr l'' tr'' := by
  obtain ⟨w0, w1, w2, m0, m1, m2, h1, h2, h3, h4, h5⟩ := h
  obtain ⟨v0, v1, v2, n0, n1, n2, k1, k2, k3, k4, k5⟩ := h'
  rw [h2] at k1
  simp only [List.cons.injEq, task_dta_t.mk.injEq, and_true] at k1
  obtain ⟨e0, e1, e2⟩ := k1
  refine ⟨w0, w1, w2, m0 ++ n0, m1 ++ n1, m2 ++ n2, h1, ?_, ?_, ?_, ?_⟩
  · rw [k2, List.foldl_append, List.foldl_append, List.foldl_append, e0, e1, e2]
  · rw [k3, h3, List.append_assoc]
  · rw [k4, h4, List.append_assoc]
  · rw [k5, h5, List.append_assoc]

/-- One pass reads one duration per task and raises each WCET entry to it when it is larger. -/
theorem pass_measured (l : List task_dta_t) (tr tr' : List Call) (a b c t0 t1 t2 : Nat)
    (hl : l.length = 3)
    (h : ∀ {β : Type} (g : Call → Option β), Quiet g →
      List.filterMap g tr' = List.filterMap g tr ++
        List.filterMap g (pass_calls a b c t0 t1 t2)) :
    Measured l tr
      (((l.modify (task_dta_t.update t0) 0).modify (task_dta_t.update t1) 1).modify
        (task_dta_t.update t2) 2) tr' := by
  have hq : ∀ i, Quiet (sample i) := fun i => ⟨fun _ _ => rfl, fun _ _ _ => rfl⟩
  have hs : ∀ i (n : Nat) (x : Call), sample i x = none →
      List.filterMap (sample i) (List.replicate n x) = [] :=
    fun i n x hx => List.filterMap_replicate_of_none hx
  match l, hl with
  | [x, y, z], _ =>
    refine ⟨x.WCET, y.WCET, z.WCET, [t0], [t1], [t2], rfl, ?_, ?_, ?_, ?_⟩
    · simp [List.modify, task_dta_update_eq_max]
    · rw [h _ (hq 0)]
      simp [pass_calls, List.filterMap_append, hs, sample, List.filterMap_cons]
    · rw [h _ (hq 1)]
      simp [pass_calls, List.filterMap_append, hs, sample, List.filterMap_cons]
    · rw [h _ (hq 2)]
      simp [pass_calls, List.filterMap_append, hs, sample, List.filterMap_cons]

/-! ## The catch-up loop of the scheduler -/

theorem pass_calls_silent {β : Type} (g : Call → Option β) (hg : Silent g)
    (a b c t0 t1 t2 : Nat) :
    List.filterMap g (pass_calls a b c t0 t1 t2) = List.filterMap g (pass_calls a b c 0 0 0) := by
  simp only [pass_calls, List.filterMap_append, filterMap_cons_cons, List.filterMap_cons,
    List.filterMap_nil, hg.2]

/-- The `while` loop of `app_update` entered with `k` ticks left returns after `k + 1` passes:
the first pass drains the backlogs of the tasks, the later ones find them empty. -/
theorem app_update_while_spec (env : Env) (fuel : Nat) :
    ∀ (n : Nat) (s : State),
      s.counters.u32 → s.counters.tasks_le fuel → s.g_app_tick_cnt < n →
      ∃ s', app_update_while env fuel n s = some s' ∧
        s'.g_app_cnt = (s.g_app_cnt + (s.g_app_tick_cnt + 1)) % 2 ^ 32 ∧
        s'.g_app_tick_cnt = 0 ∧
        s'.g_task_sensor_tick_cnt = 0 ∧
        s'.g_task_system_tick_cnt = 0 ∧
        s'.g_task_actuator_tick_cnt = 0 ∧
        s'.g_task_system_cnt = (s.g_task_system_cnt + s.g_task_system_tick_cnt) % 2 ^ 32 ∧
        s'.g_task_actuator_cnt =
          (s.g_task_actuator_cnt + s.g_task_actuator_tick_cnt) % 2 ^ 32 ∧
        (s.task_dta_list.length = 3 →
          Measured s.task_dta_list s.trace s'.task_dta_list s'.trace) ∧
        ∀ {β : Type} (g : Call → Option β), Silent g →
          List.filterMap g s'.trace = List.filterMap g s.trace ++
            (List.filterMap g
                (pass_calls s.g_task_sensor_tick_cnt s.g_task_system_tick_cnt
                  s.g_task_actuator_tick_cnt 0 0 0) ++
              List.filterMap g
                (List.replicate s.g_app_tick_cnt (pass_calls 0 0 0 0 0 0)).flatten)
  | 0, _, _, _, hn => by omega
  | n + 1, s, hu, hf, hn => by
    obtain ⟨s2, t0, t1, t2, h1, c1, tr1⟩ := app_update_for_spec env fuel
      { s with g_app_cnt := u32_inc s.g_app_cnt, g_app_runtime_us := 0 }
      (by
        obtain ⟨-, u2, u3, u4, u5, u6, u7⟩ := hu
        refine ⟨?_, u2, u3, u4, u5, u6, u7⟩
        show u32_inc s.g_app_cnt < _
        unfold u32_inc; omega)
      hf
    simp only [app_update_while, h1, G_APP_TICK_CNT_INI]
    simp only [State.counters, Counters.mk.injEq] at c1
    obtain ⟨e1, e2, e3, e4, e5, e6, e7, e8⟩ := c1
    simp only [Counters.u32, Counters.tasks_le, State.counters] at hu hf
    have hi : u32_inc s.g_app_cnt < 2 ^ 32 := by unfold u32_inc; omega
    have hm : s.task_dta_list.length = 3 →
        Measured s.task_dta_list s.trace s2.task_dta_list s2.trace := by
      intro hl
      rw [e8]
      exact pass_measured s.task_dta_list s.trace s2.trace _ _ _ t0 t1 t2 hl
        (fun g hg => tr1 g hg)
    by_cases hpos : 0 < s2.g_app_tick_cnt
    · rw [if_pos hpos]
      have hdec : u32_dec s2.g_app_tick_cnt + 1 = s.g_app_tick_cnt := by
        unfold u32_dec; omega
      obtain ⟨s', h2, r1, r2, r3, r4, r5, r6, r7, rm, r8⟩ := app_update_while_spec env fuel n
        { s2 with g_app_tick_cnt := u32_dec s2.g_app_tick_cnt }
        (by
          simp only [Counters.u32, State.counters]
          omega)
        (by
          simp only [Counters.tasks_le, State.counters]
          omega)
        (by show u32_dec s2.g_app_tick_cnt < _; omega)
      refine ⟨s', h2, ?_, r2, r3, r4, r5, ?_, ?_,
        fun hl => (hm hl).trans (rm (hm hl).length_right), ?_⟩
      · rw [r1]
        show (s2.g_app_cnt + (u32_dec s2.g_app_tick_cnt + 1)) % 2 ^ 32 = _
        rw [hdec, e1]
        exact u32_inc_add _ _
      · rw [r6]
        show (s2.g_task_system_cnt + s2.g_task_system_tick_cnt) % 2 ^ 32 = _
        omega
      · rw [r7]
        show (s2.g_task_actuator_cnt + s2.g_task_actuator_tick_cnt) % 2 ^ 32 = _
        omega
      · intro β g hg
        rw [r8 g hg]
        show List.filterMap g s2.trace ++
          (List.filterMap g (pass_calls s2.g_task_sensor_tick_cnt s2.g_task_system_tick_cnt
              s2.g_task_actuator_tick_cnt 0 0 0) ++
            List.filterMap g
              (List.replicate (u32_dec s2.g_app_tick_cnt) (pass_calls 0 0 0 0 0 0)).flatten) = _
        rw [tr1 g hg.1, pass_calls_silent g hg, e3, e4, e5, ← hdec, List.replicate_succ,
          List.flatten_cons, List.filterMap_append, List.append_assoc]
    · rw [if_neg hpos]
      have h0 : s.g_app_tick_cnt = 0 := by omega
      refine ⟨s2, rfl, ?_, by omega, e3, e4, e5, e6, e7, hm, ?_⟩
      · rw [e1, h0]; rfl
      · intro β g hg
        rw [tr1 g hg.1, pass_calls_silent g hg, h0]
        simp

/-- One call of `app_update` with `n` owed ticks returns after `n` passes. -/
theorem app_update_spec (env : Env) (fuel : Nat) (s : State)
    (hu : s.counters.u32) (hf : s.counters.tasks_le fuel) (hfa : s.g_app_tick_cnt ≤ fuel) :
    ∃ s', app_update env fuel s = some s' ∧
      s'.g_app_cnt = (s.g_app_cnt + s.g_app_tick_cnt) % 2 ^ 32 ∧
      s'.g_app_tick_cnt = 0 ∧
      (0 < s.g_app_tick_cnt →
        s'.g_task_sensor_tick_cnt = 0 ∧ s'.g_task_system_tick_cnt = 0 ∧
        s'.g_task_actuator_tick_cnt = 0 ∧
        s'.g_task_system_cnt = (s.g_task_system_cnt + s.g_task_system_tick_cnt) % 2 ^ 32 ∧
        s'.g_task_actuator_cnt =
          (s.g_task_actuator_cnt + s.g_task_actuator_tick_cnt) % 2 ^ 32) ∧
      (s.g_app_tick_cnt = 0 → s' = s) ∧
      (s.task_dta_list.length = 3 →
        Measured s.task_dta_list s.trace s'.task_dta_list s'.trace) ∧
      ∀ {β : Type} (g : Call → Option β), Silent g →
        List.filterMap g s'.trace = List.filterMap g s.trace ++
          List.filterMap g
            (app_update_calls s.g_app_tick_cnt s.g_task_sensor_tick_cnt
              s.g_task_system_tick_cnt s.g_task_actuator_tick_cnt) := by
  have hu' := hu
  have hf' := hf
  simp only [Counters.u32, State.counters] at hu'
  simp only [Counters.tasks_le, State.counters] at hf'
  simp only [app_update, G_APP_TICK_CNT_INI]
  by_cases hpos : 0 < s.g_app_tick_cnt
  · rw [if_pos hpos]
    have hdec : u32_dec s.g_app_tick_cnt + 1 = s.g_app_tick_cnt := by
      unfold u32_dec; omega
    obtain ⟨s', h, r1, r2, r3, r4, r5, r6, r7, rm, r8⟩ := app_update_while_spec env fuel fuel
      { s with g_app_tick_cnt := u32_dec s.g_app_tick_cnt }
      (by
        simp only [Counters.u32, State.counters]
        omega)
      (by
        simp only [Counters.tasks_le, State.counters]
        omega)
      (by show u32_dec s.g_app_tick_cnt < _; omega)
    refine ⟨s', h, ?_, r2, fun _ => ⟨r3, r4, r5, r6, r7⟩, fun h0 => by omega, rm, ?_⟩
    · rw [r1]
      show (s.g_app_cnt + (u32_dec s.g_app_tick_cnt + 1)) % 2 ^ 32 = _
      rw [hdec]
    · intro β g hg
      have hk : app_update_calls s.g_app_tick_cnt s.g_task_sensor_tick_cnt
          s.g_task_system_tick_cnt s.g_task_actuator_tick_cnt =
          pass_calls s.g_task_sensor_tick_cnt s.g_task_system_tick_cnt
              s.g_task_actuator_tick_cnt 0 0 0 ++
            (List.replicate (u32_dec s.g_app_tick_cnt) (pass_calls 0 0 0 0 0 0)).flatten := by
        generalize u32_dec s.g_app_tick_cnt = k at hdec
        rw [← hdec]
        rfl
      rw [r8 g hg, hk, List.filterMap_append]
  · rw [if_neg hpos]
    have h0 : s.g_app_tick_cnt = 0 := by omega
    refine ⟨s, rfl, ?_, h0, fun h => absurd h hpos, fun _ => rfl,
      fun hl => Measured.refl _ _ hl, ?_⟩
    · rw [h0]; omega
    · intro β g hg
      rw [h0]
      simp [app_update_calls]

/-! ## Initialisation and the tick interrupt -/

theorem task_actuator_init_for_quiet {β : Type} (g : Call → Option β) (hg : Quiet g) :
    ∀ (cfgs : List task_actuator_cfg_t) (dtas : List task_actuator_dta_t),
      List.filterMap g (task_actuator_init_for cfgs dtas).2 = []
  | [], _ => by simp [task_actuator_init_for]
  | _ :: _, [] => by simp [task_actuator_init_for]
  | c :: cs, d :: ds => by
    have ih := task_actuator_init_for_quiet g hg cs ds
    simp [task_actuator_init_for, task_actuator_init_index, ih, List.filterMap_cons, hg.2]

/-- What `app_init` leaves behind: every counter zero, the statechart instances initialised, the
WCET entries of the three tasks reset, and the calls made. -/
theorem app_init_spec (env : Env) (s : State) :
    (app_init env s).counters =
        { g_app_cnt := 0
          g_app_tick_cnt := 0
          g_task_sensor_tick_cnt := 0
          g_task_system_tick_cnt := 0
          g_task_actuator_tick_cnt := 0
          g_task_system_cnt := 0
          g_task_actuator_cnt := 0
          task_dta_list :=
            ((s.task_dta_list.modify (fun d => { d with WCET := 0 }) 0).modify
              (fun d => { d with WCET := 0 }) 1).modify (fun d => { d with WCET := 0 }) 2 } ∧
      (app_init env s).trace =
        s.trace ++
          [Call.cycle_counter_init, Call.task_sensor_init none, Call.task_system_init none,
            Call.init_queue_event_task_system, Call.task_actuator_init none] ++
          (task_actuator_init_for env.task_actuator_cfg_list s.task_actuator_dta_list).2 := by
  constructor
  · simp [app_init, app_init_for, task_cfg_list, task_sensor_init, task_system_init,
      task_actuator_init, init_queue_event_task_system, State.log, State.counters,
      G_APP_CNT_INI, G_APP_TICK_CNT_INI, G_TASK_SYS_CNT_INI, G_TASK_ACT_CNT_INIT,
      TASK_X_WCET_INI]
  · simp [app_init, app_init_for, task_cfg_list, task_sensor_init, task_system_init,
      task_actuator_init, init_queue_event_task_system, State.log]

theorem HAL_SYSTICK_Callback_iterate (s : State) (h : s.counters.u32) :
    ∀ N : Nat,
      HAL_SYSTICK_Callback^[N] s =
        { s with
          g_app_tick_cnt := (s.g_app_tick_cnt + N) % 2 ^ 32
          g_task_sensor_tick_cnt := (s.g_task_sensor_tick_cnt + N) % 2 ^ 32
          g_task_system_tick_cnt := (s.g_task_system_tick_cnt + N) % 2 ^ 32
          g_task_actuator_tick_cnt := (s.g_task_actuator_tick_cnt + N) % 2 ^ 32 }
  | 0 => by
    simp only [Counters.u32, State.counters] at h
    obtain ⟨-, h2, h3, h4, h5, -, -⟩ := h
    simp only [Function.iterate_zero, id_eq, Nat.add_zero, Nat.mod_eq_of_lt h2,
      Nat.mod_eq_of_lt h3, Nat.mod_eq_of_lt h4, Nat.mod_eq_of_lt h5]
  | N + 1 => by
    rw [Function.iterate_succ_apply', HAL_SYSTICK_Callback_iterate s h N]
    simp only [HAL_SYSTICK_Callback, u32_inc, State.mk.injEq, true_and, and_true]
    omega

/-! ## The scheduling properties -/

/-- Counting a call that is neither an output write, a mailbox put nor a reading of the cycle
counter, from what the selections of the trace say. -/
theorem count_of_silent (c : Call)
    (h1 : ∀ e i, Call.put_event_task_actuator e i ≠ c)
    (h2 : ∀ a b l, Call.HAL_GPIO_WritePin a b l ≠ c)
    (h3 : ∀ i t, Call.cycle_counter_get_time_us i t ≠ c)
    (l₁ l₂ l₃ : List Call)
    (h : ∀ {β : Type} (g : Call → Option β), Silent g →
      List.filterMap g l₁ = List.filterMap g l₂ ++ List.filterMap g l₃) :
    l₁.count c = l₂.count c + l₃.count c := by
  have hs : Silent (Option.guard fun x => x == c) := by
    refine ⟨⟨fun e i => ?_, fun a b l => ?_⟩, fun i t => ?_⟩
    · simpa [Option.guard] using h1 e i
    · simpa [Option.guard] using h2 a b l
    · simpa [Option.guard] using h3 i t
  have := congrArg List.length (h _ hs)
  simp only [List.filterMap_eq_filter, List.length_append] at this
  simp only [List.count_eq_countP, List.countP_eq_length_filter]
  exact this

theorem count_system_app_update_calls (n a b c : Nat) :
    (app_update_calls n a b c).count Call.task_system_statechart = if n = 0 then 0 else b := by
  cases n with
  | zero => simp [app_update_calls]
  | succ k =>
    simp [app_update_calls, pass_calls, List.count_cons, List.count_replicate, List.count_flatten]

theorem count_actuator_app_update_calls (n a b c : Nat) :
    (app_update_calls n a b c).count Call.task_actuator_statechart = if n = 0 then 0 else c := by
  cases n with
  | zero => simp [app_update_calls]
  | succ k =>
    simp [app_update_calls, pass_calls, List.count_cons, List.count_replicate, List.count_flatten]

/-- C10. Scheduler init: `app_init` enters the `task_init` entry points of the table exactly
once each, in table order (sensor, system, actuator), each with the parameters handle of its
entry (`NULL` for all three); on return every `task_dta_list[i].WCET` is 0, `g_app_cnt` is 0
and the four tick counters are 0, whatever the state before the call held. -/
theorem scheduler_init (env : Env) (s : State) (hlen : s.task_dta_list.length = TASK_QTY) :
    List.filterMap init_call (app_init env s).trace =
        List.filterMap init_call s.trace ++
          [Call.task_sensor_init none, Call.task_system_init none,
            Call.task_actuator_init none] ∧
      task_cfg_list.map (fun cfg => cfg.parameters) = [none, none, none] ∧
      (app_init env s).task_dta_list = List.replicate TASK_QTY { WCET := 0 } ∧
      (app_init env s).g_app_cnt = 0 ∧
      (app_init env s).g_app_tick_cnt = 0 ∧
      (app_init env s).g_task_sensor_tick_cnt = 0 ∧
      (app_init env s).g_task_system_tick_cnt = 0 ∧
      (app_init env s).g_task_actuator_tick_cnt = 0 := by
  obtain ⟨hc, ht⟩ := app_init_spec env s
  simp only [State.counters, Counters.mk.injEq] at hc
  obtain ⟨c1, c2, c3, c4, c5, -, -, c8⟩ := hc
  have hq : Quiet init_call := ⟨fun _ _ => rfl, fun _ _ _ => rfl⟩
  refine ⟨?_, rfl, ?_, c1, c2, c3, c4, c5⟩
  · rw [ht, List.filterMap_append, List.filterMap_append,
      task_actuator_init_for_quiet init_call hq]
    simp [init_call]
  · rw [c8]
    match hl : s.task_dta_list, hlen with
    | [a, b, c], _ => rfl

/-- C10, checked on a state full of leftovers: the three WCET entries 5, 6, 7 and the tick
counters 9, 1, 2, 3 are all zero after `app_init`, and the three `task_init` entry points were
entered in table order. -/
theorem scheduler_init_witness :
    sample_dirty_state.task_dta_list.length = TASK_QTY ∧
      List.filterMap init_call (app_init sample_env sample_dirty_state).trace =
        List.filterMap init_call sample_dirty_state.trace ++
          [Call.task_sensor_init none, Call.task_system_init none,
            Call.task_actuator_init none] ∧
      (app_init sample_env sample_dirty_state).task_dta_list =
        List.replicate TASK_QTY { WCET := 0 } ∧
      (app_init sample_env sample_dirty_state).g_app_tick_cnt = 0 :=
  ⟨rfl, (scheduler_init sample_env sample_dirty_state rfl).1,
    (scheduler_init sample_env sample_dirty_state rfl).2.2.1,
    (scheduler_init sample_env sample_dirty_state rfl).2.2.2.2.1⟩

/-- C1. Tick conservation: for every `N < 2 ^ 32`, from the state left by `app_init`, after `N`
calls of `HAL_SYSTICK_Callback` one call of `app_update` (given fuel `N` or more) returns;
`g_task_system_cnt` and `g_task_actuator_cnt` have each grown by exactly `N`, the trace has gained
exactly `N` entries of `task_system_statechart` and exactly `N` of `task_actuator_statechart`,
and the global and the three per-task tick counters are all zero again. -/
theorem tick_conservation (env : Env) (s0 : State) (N fuel : Nat) (hN : N < 2 ^ 32)
    (hfuel : N ≤ fuel) (pre : State)
    (hpre : pre = HAL_SYSTICK_Callback^[N] (app_init env s0)) :
    ∃ s', app_update env fuel pre = some s' ∧
      s'.g_task_system_cnt = pre.g_task_system_cnt + N ∧
      s'.g_task_actuator_cnt = pre.g_task_actuator_cnt + N ∧
      s'.trace.count Call.task_system_statechart =
        pre.trace.count Call.task_system_statechart + N ∧
      s'.trace.count Call.task_actuator_statechart =
        pre.trace.count Call.task_actuator_statechart + N ∧
      s'.g_app_tick_cnt = 0 ∧ s'.g_task_sensor_tick_cnt = 0 ∧
      s'.g_task_system_tick_cnt = 0 ∧ s'.g_task_actuator_tick_cnt = 0 := by
  obtain ⟨hc, -⟩ := app_init_spec env s0
  simp only [State.counters, Counters.mk.injEq] at hc
  obtain ⟨c1, c2, c3, c4, c5, c6, c7, -⟩ := hc
  have hu0 : (app_init env s0).counters.u32 := by
    simp only [Counters.u32, State.counters, c1, c2, c3, c4, c5, c6, c7]
    omega
  rw [HAL_SYSTICK_Callback_iterate _ hu0 N, c2, c3, c4, c5, Nat.zero_add,
    Nat.mod_eq_of_lt hN] at hpre
  have p1 : pre.g_app_tick_cnt = N := by rw [hpre]
  have p2 : pre.g_task_sensor_tick_cnt = N := by rw [hpre]
  have p3 : pre.g_task_system_tick_cnt = N := by rw [hpre]
  have p4 : pre.g_task_actuator_tick_cnt = N := by rw [hpre]
  have p5 : pre.g_task_system_cnt = 0 := by rw [hpre]; exact c6
  have p6 : pre.g_task_actuator_cnt = 0 := by rw [hpre]; exact c7
  have p7 : pre.g_app_cnt = 0 := by rw [hpre]; exact c1
  obtain ⟨s', h, -, r2, r3, r4, -, r5⟩ := app_update_spec env fuel pre
    (by simp only [Counters.u32, State.counters, p1, p2, p3, p4, p5, p6, p7]; omega)
    (by simp only [Counters.tasks_le, State.counters, p2, p3, p4]; omega)
    (by omega)
  have k1 := count_of_silent Call.task_system_statechart
    (fun _ _ h => by cases h) (fun _ _ _ h => by cases h) (fun _ _ h => by cases h) _ _ _ r5
  have k2 := count_of_silent Call.task_actuator_statechart
    (fun _ _ h => by cases h) (fun _ _ _ h => by cases h) (fun _ _ h => by cases h) _ _ _ r5
  rw [count_system_app_update_calls, p1, p3] at k1
  rw [count_actuator_app_update_calls, p1, p4] at k2
  refine ⟨s', h, ?_, ?_, ?_, ?_, r2, ?_⟩
  all_goals
    rcases Nat.eq_zero_or_pos N with h0 | hpos
    · have hs : s' = pre := r4 (by omega)
      subst h0
      simp_all
    · obtain ⟨q1, q2, q3, q4, q5⟩ := r3 (by omega)
      rw [p5, p3] at q4
      rw [p6, p4] at q5
      simp only [p5, p6, q1, q2, q3, q4, q5, k1, k2, Nat.zero_add, Nat.mod_eq_of_lt hN,
        if_neg (Nat.pos_iff_ne_zero.mp hpos), and_self]

/-- C1, checked for three ticks after a reset of the state full of leftovers, with fuel 3. -/
theorem tick_conservation_witness :
    (3 : Nat) < 2 ^ 32 ∧ (3 : Nat) ≤ 3 ∧
      ∃ s', app_update sample_env 3
          (HAL_SYSTICK_Callback^[3] (app_init sample_env sample_dirty_state)) = some s' ∧
        s'.g_task_system_cnt =
          (HAL_SYSTICK_Callback^[3] (app_init sample_env sample_dirty_state)).g_task_system_cnt
            + 3 ∧
        s'.g_task_actuator_cnt =
          (HAL_SYSTICK_Callback^[3] (app_init sample_env sample_dirty_state)).g_task_actuator_cnt
            + 3 ∧
        s'.trace.count Call.task_system_statechart =
          (HAL_SYSTICK_Callback^[3]
            (app_init sample_env sample_dirty_state)).trace.count Call.task_system_statechart
            + 3 ∧
        s'.trace.count Call.task_actuator_statechart =
          (HAL_SYSTICK_Callback^[3]
            (app_init sample_env sample_dirty_state)).trace.count Call.task_actuator_statechart
            + 3 ∧
        s'.g_app_tick_cnt = 0 ∧ s'.g_task_sensor_tick_cnt = 0 ∧
        s'.g_task_system_tick_cnt = 0 ∧ s'.g_task_actuator_tick_cnt = 0 :=
  ⟨by norm_num, Nat.le_refl 3,
    tick_conservation sample_env sample_dirty_state 3 3 (by norm_num) (Nat.le_refl 3) _ rfl⟩

theorem update_call_silent : Silent update_call :=
  ⟨⟨fun _ _ => rfl, fun _ _ _ => rfl⟩, fun _ _ => rfl⟩

theorem step_call_silent : Silent step_call :=
  ⟨⟨fun _ _ => rfl, fun _ _ _ => rfl⟩, fun _ _ => rfl⟩

theorem update_call_app_update_calls (n a b c : Nat) :
    List.filterMap update_call (app_update_calls n a b c) =
      (List.replicate n
        [Call.task_sensor_update none, Call.task_system_update none,
          Call.task_actuator_update none]).flatten := by
  have hp : ∀ a b c, List.filterMap update_call (pass_calls a b c 0 0 0) =
      [Call.task_sensor_update none, Call.task_system_update none,
        Call.task_actuator_update none] := by
    intro a b c
    simp [pass_calls, update_call, List.filterMap_cons]
  cases n with
  | zero => simp [app_update_calls]
  | succ k =>
    simp only [app_update_calls, List.filterMap_append, hp, List.replicate_succ,
      List.flatten_cons, List.filterMap_flatten, List.map_replicate]

/-- C2, refuted as stated: entered with `g_app_cnt = 2 ^ 32 - 1` and one owed tick, `app_update`
runs its one pass and returns with `g_app_cnt = 0`, which is not the value at entry plus 1. -/
theorem catch_up_passes_counterexample :
    (app_update sample_env 1
        { sample_state with g_app_cnt := 4294967295, g_app_tick_cnt := 1 }).map
      (fun s => (s.g_app_cnt, s.g_app_tick_cnt, List.filterMap update_call s.trace)) =
      some (0, 0,
        [Call.task_sensor_update none, Call.task_system_update none,
          Call.task_actuator_update none]) := by
  decide

/-- C2, amended: for every value `n` of `g_app_tick_cnt` at entry, `app_update` (given fuel
for `n` passes and for the backlog of every task) returns after exactly `n` full passes; each
pass enters the `task_update` entry points of the table exactly once, in table order (sensor,
system, actuator), `TASK_QTY * n` entries in total; `g_app_cnt` has grown by `n` modulo
`2 ^ 32`, which is exactly `n` when `g_app_cnt + n < 2 ^ 32`, and `g_app_tick_cnt` is 0. -/
theorem catch_up_passes (env : Env) (fuel : Nat) (s : State)
    (hu : s.counters.u32) (hf : s.counters.tasks_le fuel) (hfa : s.g_app_tick_cnt ≤ fuel) :
    ∃ s', app_update env fuel s = some s' ∧
      List.filterMap update_call s'.trace =
        List.filterMap update_call s.trace ++
          (List.replicate s.g_app_tick_cnt
            [Call.task_sensor_update none, Call.task_system_update none,
              Call.task_actuator_update none]).flatten ∧
      (List.replicate s.g_app_tick_cnt
        [Call.task_sensor_update none, Call.task_system_update none,
          Call.task_actuator_update none]).flatten.length = TASK_QTY * s.g_app_tick_cnt ∧
      s'.g_app_cnt = (s.g_app_cnt + s.g_app_tick_cnt) % 2 ^ 32 ∧
      (s.g_app_cnt + s.g_app_tick_cnt < 2 ^ 32 →
        s'.g_app_cnt = s.g_app_cnt + s.g_app_tick_cnt) ∧
      s'.g_app_tick_cnt = 0 := by
  obtain ⟨s', h, r1, r2, -, -, -, r5⟩ := app_update_spec env fuel s hu hf hfa
  refine ⟨s', h, ?_, ?_, r1, fun hlt => ?_, r2⟩
  · rw [r5 update_call update_call_silent, update_call_app_update_calls]
  · simp [TASK_QTY, task_cfg_list, Nat.mul_comm]
  · rw [r1, Nat.mod_eq_of_lt hlt]

/-- C2 as amended, checked on Scenario 4 of the spec: five owed ticks, three tasks, fuel 5. -/
theorem catch_up_passes_witness :
    ({ sample_state with g_app_tick_cnt := 5 } : State).counters.u32 ∧
      ({ sample_state with g_app_tick_cnt := 5 } : State).counters.tasks_le 5 ∧
      ({ sample_state with g_app_tick_cnt := 5 } : State).g_app_tick_cnt ≤ 5 ∧
      ∃ s', app_update sample_env 5 { sample_state with g_app_tick_cnt := 5 } = some s' ∧
        List.filterMap update_call s'.trace =
          List.filterMap update_call ({ sample_state with g_app_tick_cnt := 5 } : State).trace ++
            (List.replicate 5
              [Call.task_sensor_update none, Call.task_system_update none,
                Call.task_actuator_update none]).flatten ∧
        (List.replicate 5
          [Call.task_sensor_update none, Call.task_system_update none,
            Call.task_actuator_update none]).flatten.length = TASK_QTY * 5 ∧
        s'.g_app_cnt = (0 + 5) % 2 ^ 32 ∧
        (0 + 5 < 2 ^ 32 → s'.g_app_cnt = 0 + 5) ∧
        s'.g_app_tick_cnt = 0 :=
  ⟨by simp [Counters.u32, State.counters, sample_state],
    by simp [Counters.tasks_le, State.counters, sample_state],
    Nat.le_refl 5,
    catch_up_passes sample_env 5 { sample_state with g_app_tick_cnt := 5 }
      (by simp [Counters.u32, State.counters, sample_state])
      (by simp [Counters.tasks_le, State.counters, sample_state])
      (Nat.le_refl 5)⟩

/-- C3, refuted as stated: entered with the global counter and the three per-task counters all
equal to 2, one call of `app_update` makes two passes; the first pass executes two statechart steps of the system task and then two of the
actuator task, the second pass executes none. -/
theorem pass_atomicity_counterexample :
    (app_update sample_env 2
        { sample_state with
          g_app_tick_cnt := 2, g_task_sensor_tick_cnt := 2
          g_task_system_tick_cnt := 2, g_task_actuator_tick_cnt := 2 }).map
      (fun s => List.filterMap step_call s.trace) =
      some
        [Call.task_sensor_update none,
          Call.task_system_update none,
          Call.task_system_statechart, Call.task_system_statechart,
          Call.task_actuator_update none,
          Call.task_actuator_statechart, Call.task_actuator_statechart,
          Call.task_sensor_update none,
          Call.task_system_update none,
          Call.task_actuator_update none] := by
  decide

/-- C3, amended: in a call of `app_update` that drains a backlog of `k = j + 1` owed ticks
(global counter and every per-task counter equal to `k` at entry, fuel `k` or more), the passes
follow one another, each entering the three `task_update` entry points once in table order;
the first pass executes `k` consecutive statechart steps of the system task, all before the
`k` consecutive statechart steps of the actuator task, and each of the `j` later passes
executes no statechart step; for `k = 1` the single pass executes exactly one step of each. -/
theorem pass_atomicity (env : Env) (fuel j : Nat) (s : State)
    (hu : s.counters.u32) (hfuel : j + 1 ≤ fuel)
    (h0 : s.g_app_tick_cnt = j + 1) (h1 : s.g_task_sensor_tick_cnt = j + 1)
    (h2 : s.g_task_system_tick_cnt = j + 1) (h3 : s.g_task_actuator_tick_cnt = j + 1) :
    ∃ s', app_update env fuel s = some s' ∧
      List.filterMap step_call s'.trace =
        List.filterMap step_call s.trace ++
          ([Call.task_sensor_update none, Call.task_system_update none] ++
            List.replicate (j + 1) Call.task_system_statechart ++
            [Call.task_actuator_update none] ++
            List.replicate (j + 1) Call.task_actuator_statechart ++
            (List.replicate j
              [Call.task_sensor_update none, Call.task_system_update none,
                Call.task_actuator_update none]).flatten) := by
  obtain ⟨s', h, -, -, -, -, -, r5⟩ := app_update_spec env fuel s hu
    (by simp only [Counters.tasks_le, State.counters, h1, h2, h3]; omega) (by omega)
  refine ⟨s', h, ?_⟩
  rw [r5 step_call step_call_silent, h0, h1, h2, h3]
  have hp : List.filterMap step_call (pass_calls 0 0 0 0 0 0) =
      [Call.task_sensor_update none, Call.task_system_update none,
        Call.task_actuator_update none] := by
    simp [pass_calls, step_call, List.filterMap_cons]
  have hsys : ∀ n, List.filterMap step_call (List.replicate n Call.task_system_statechart) =
      List.replicate n Call.task_system_statechart :=
    fun n => List.filterMap_replicate_of_some rfl
  have hact : ∀ n, List.filterMap step_call (List.replicate n Call.task_actuator_statechart) =
      List.replicate n Call.task_actuator_statechart :=
    fun n => List.filterMap_replicate_of_some rfl
  have hsen : ∀ n, List.filterMap step_call (List.replicate n Call.task_sensor_statechart) =
      [] :=
    fun n => List.filterMap_replicate_of_none rfl
  simp only [app_update_calls, List.filterMap_append, List.filterMap_flatten,
    List.map_replicate, hp]
  simp only [pass_calls, List.filterMap_append, hsys, hact, hsen]
  simp [step_call, List.filterMap_cons]

/-- C3 as amended, checked for a backlog of two ticks with fuel 2. -/
theorem pass_atomicity_witness :
    ({ sample_state with
        g_app_tick_cnt := 2, g_task_sensor_tick_cnt := 2
        g_task_system_tick_cnt := 2, g_task_actuator_tick_cnt := 2 } : State).counters.u32 ∧
      ∃ s', app_update sample_env 2
          { sample_state with
            g_app_tick_cnt := 2, g_task_sensor_tick_cnt := 2
            g_task_system_tick_cnt := 2, g_task_actuator_tick_cnt := 2 } = some s' ∧
        List.filterMap step_call s'.trace =
          [] ++
            ([Call.task_sensor_update none, Call.task_system_update none] ++
              List.replicate (1 + 1) Call.task_system_statechart ++
              [Call.task_actuator_update none] ++
              List.replicate (1 + 1) Call.task_actuator_statechart ++
              (List.replicate 1
                [Call.task_sensor_update none, Call.task_system_update none,
                  Call.task_actuator_update none]).flatten) :=
  ⟨by simp [Counters.u32, State.counters, sample_state],
    pass_atomicity sample_env 2 1
      { sample_state with
        g_app_tick_cnt := 2, g_task_sensor_tick_cnt := 2
        g_task_system_tick_cnt := 2, g_task_actuator_tick_cnt := 2 }
      (by simp [Counters.u32, State.counters, sample_state]) (Nat.le_refl 2) rfl rfl rfl rfl⟩

/-! ## Executions of the enclosing program -/

theorem le_foldl_max (m : List Nat) : ∀ w : Nat, w ≤ m.foldl max w := by
  induction m with
  | nil => intro w; exact Nat.le_refl w
  | cons t m ih =>
    intro w
    exact Nat.le_trans (Nat.le_max_left w t) (ih (max w t))

theorem run_append (env : Env) (fuel : Nat) (acts₂ : List Action) :
    ∀ (acts₁ : List Action) (s s₁ : State),
      run env fuel acts₁ s = some s₁ →
      run env fuel (acts₁ ++ acts₂) s = run env fuel acts₂ s₁
  | [], s, s₁, h => by
    simp only [run, Option.some.injEq] at h
    rw [List.nil_append, h]
  | Action.tick :: rest, s, s₁, h => by
    simp only [run] at h
    simpa only [List.cons_append, run] using run_append env fuel acts₂ rest _ s₁ h
  | Action.update :: rest, s, s₁, h => by
    simp only [run] at h
    simp only [List.cons_append, run]
    cases hu : app_update env fuel s with
    | none => rw [hu] at h; cases h
    | some s1 =>
      rw [hu] at h
      exact run_append env fuel acts₂ rest s1 s₁ h

/-- Every execution of the enclosing program returns when the fuel covers the ticks it can
accumulate, and the WCET entries follow the durations read along it. -/
theorem run_spec (env : Env) (fuel : Nat) :
    ∀ (acts : List Action) (s : State) (B : Nat),
      s.counters.u32 → s.task_dta_list.length = 3 →
      s.g_app_tick_cnt ≤ B → s.counters.tasks_le B → B + acts.length ≤ fuel →
      ∃ s', run env fuel acts s = some s' ∧
        Measured s.task_dta_list s.trace s'.task_dta_list s'.trace ∧
        s'.counters.u32 ∧ s'.g_app_tick_cnt ≤ B + acts.length ∧
        s'.counters.tasks_le (B + acts.length)
  | [], s, B, hu, hl, ha, ht, _ =>
    ⟨s, rfl, Measured.refl _ _ hl, hu, by simpa using ha, by simpa using ht⟩
  | Action.tick :: rest, s, B, hu, hl, ha, ht, hB => by
    simp only [Counters.u32, Counters.tasks_le, State.counters] at hu ht
    simp only [List.length_cons] at hB
    obtain ⟨s', h, hm, hu', ha', ht'⟩ := run_spec env fuel rest (HAL_SYSTICK_Callback s) (B + 1)
      (by
        simp only [Counters.u32, State.counters, HAL_SYSTICK_Callback, u32_inc]
        omega)
      hl
      (by
        simp only [HAL_SYSTICK_Callback, u32_inc]
        omega)
      (by
        simp only [Counters.tasks_le, State.counters, HAL_SYSTICK_Callback, u32_inc]
        omega)
      (by omega)
    refine ⟨s', h, hm, hu', ?_, ?_⟩
    · simp only [List.length_cons]; omega
    · simp only [Counters.tasks_le, List.length_cons] at ht' ⊢
      omega
  | Action.update :: rest, s, B, hu, hl, ha, ht, hB => by
    simp only [List.length_cons] at hB
    obtain ⟨s1, h1, r1, r2, r3, r4, rm, -⟩ := app_update_spec env fuel s hu
      (by
        simp only [Counters.tasks_le, State.counters] at ht ⊢
        omega)
      (by omega)
    have hu1 := hu
    simp only [Counters.u32, Counters.tasks_le, State.counters] at hu1 ht
    have hfacts : s1.counters.u32 ∧ s1.g_app_tick_cnt ≤ B ∧ s1.counters.tasks_le B := by
      rcases Nat.eq_zero_or_pos s.g_app_tick_cnt with h0 | hpos
      · rw [r4 h0]
        exact ⟨hu, ha, by simpa only [Counters.tasks_le, State.counters] using ht⟩
      · obtain ⟨q1, q2, q3, q4, q5⟩ := r3 hpos
        simp only [Counters.u32, Counters.tasks_le, State.counters, r1, r2, q1, q2, q3, q4, q5]
        omega
    obtain ⟨hu2, ha2, ht2⟩ := hfacts
    obtain ⟨s', h, hm, hu', ha', ht'⟩ := run_spec env fuel rest s1 B hu2
      (rm hl).length_right ha2 ht2 (by omega)
    refine ⟨s', ?_, (rm hl).trans hm, hu', ?_, ?_⟩
    · simp only [run, h1, h]
    · simp only [List.length_cons]; omega
    · simp only [Counters.tasks_le, List.length_cons] at ht' ⊢
      omega

/-- C4. WCET is the running maximum: after `app_init` and any sequence `acts` of timer
interrupts and `app_update` calls (fuel covering the ticks), whatever durations the cycle counter
returns, the execution returns and each `task_dta_list[i].WCET` equals the maximum of all
durations read for task `i` since `app_init` (0 if none was read); continuing the execution by
`more` never lowers an entry; and one measurement overwrites the entry exactly when the duration
read is strictly greater than the stored value and leaves it unchanged otherwise. -/
theorem wcet_running_maximum (env : Env) (s0 : State)
    (hlen : s0.task_dta_list.length = TASK_QTY) (acts more : List Action) (fuel : Nat)
    (hfuel : (acts ++ more).length ≤ fuel) :
    (∃ s s' m0 m1 m2,
        run env fuel acts (app_init env s0) = some s ∧
        run env fuel (acts ++ more) (app_init env s0) = some s' ∧
        List.filterMap (sample 0) s.trace =
          List.filterMap (sample 0) (app_init env s0).trace ++ m0 ∧
        List.filterMap (sample 1) s.trace =
          List.filterMap (sample 1) (app_init env s0).trace ++ m1 ∧
        List.filterMap (sample 2) s.trace =
          List.filterMap (sample 2) (app_init env s0).trace ++ m2 ∧
        s.task_dta_list =
          [{ WCET := m0.foldl max 0 }, { WCET := m1.foldl max 0 },
            { WCET := m2.foldl max 0 }] ∧
        ∀ (i : Nat) (d d' : task_dta_t),
          s.task_dta_list[i]? = some d → s'.task_dta_list[i]? = some d' → d.WCET ≤ d'.WCET) ∧
      ∀ (index t : Nat) (s : State) (d : task_dta_t),
        s.task_dta_list[index]? = some d →
        (app_update_variables index t s).task_dta_list[index]? =
          some (if d.WCET < t then { WCET := t } else d) := by
  constructor
  · obtain ⟨hc, -⟩ := app_init_spec env s0
    simp only [State.counters, Counters.mk.injEq] at hc
    obtain ⟨c1, c2, c3, c4, c5, c6, c7, c8⟩ := hc
    have hinit : (app_init env s0).task_dta_list =
        [{ WCET := 0 }, { WCET := 0 }, { WCET := 0 }] := by
      rw [c8]
      match hl : s0.task_dta_list, hlen with
      | [a, b, c], _ => rfl
    simp only [List.length_append] at hfuel
    obtain ⟨s, h, hm, hu, ha, ht⟩ := run_spec env fuel acts (app_init env s0) 0
      (by simp only [Counters.u32, State.counters, c1, c2, c3, c4, c5, c6, c7]; omega)
      (by rw [hinit]; rfl)
      (by omega)
      (by simp only [Counters.tasks_le, State.counters, c3, c4, c5]; omega)
      (by omega)
    obtain ⟨s', h', hm', -, -, -⟩ := run_spec env fuel more s (0 + acts.length) hu
      hm.length_right ha ht (by omega)
    obtain ⟨w0, w1, w2, m0, m1, m2, k1, k2, k3, k4, k5⟩ := hm
    obtain ⟨v0, v1, v2, n0, n1, n2, j1, j2, -, -, -⟩ := hm'
    rw [hinit] at k1
    simp only [List.cons.injEq, task_dta_t.mk.injEq, and_true] at k1
    obtain ⟨e0, e1, e2⟩ := k1
    subst e0 e1 e2
    refine ⟨s, s', m0, m1, m2, h, ?_, k3, k4, k5, k2, ?_⟩
    · rw [run_append env fuel more acts _ s h, h']
    · intro i d d' hd hd'
      rw [j1] at hd
      rw [j2] at hd'
      match i with
      | 0 =>
        simp only [List.getElem?_cons_zero, Option.some.injEq] at hd hd'
        subst hd hd'
        exact le_foldl_max n0 v0
      | 1 =>
        simp only [List.getElem?_cons_succ, List.getElem?_cons_zero, Option.some.injEq] at hd hd'
        subst hd hd'
        exact le_foldl_max n1 v1
      | 2 =>
        simp only [List.getElem?_cons_succ, List.getElem?_cons_zero, Option.some.injEq] at hd hd'
        subst hd hd'
        exact le_foldl_max n2 v2
      | i + 3 => simp at hd
  · intro index t s d hd
    simp only [app_update_variables, List.getElem?_modify_eq, hd, Option.map_eq_map,
      Option.map_some', task_dta_t.update]

/-- C4, checked on an execution after a reset of the state full of leftovers: one tick and an
update, two ticks and an update, then one more tick and update, with fuel 7. -/
theorem wcet_running_maximum_witness :
    sample_dirty_state.task_dta_list.length = TASK_QTY ∧
      ([Action.tick, Action.update, Action.tick, Action.tick, Action.update] ++
        [Action.tick, Action.update]).length ≤ 7 ∧
      ∃ s s' m0 m1 m2,
        run sample_env 7 [Action.tick, Action.update, Action.tick, Action.tick, Action.update]
          (app_init sample_env sample_dirty_state) = some s ∧
        run sample_env 7
          ([Action.tick, Action.update, Action.tick, Action.tick, Action.update] ++
            [Action.tick, Action.update])
          (app_init sample_env sample_dirty_state) = some s' ∧
        List.filterMap (sample 0) s.trace =
          List.filterMap (sample 0) (app_init sample_env sample_dirty_state).trace ++ m0 ∧
        List.filterMap (sample 1) s.trace =
          List.filterMap (sample 1) (app_init sample_env sample_dirty_state).trace ++ m1 ∧
        List.filterMap (sample 2) s.trace =
          List.filterMap (sample 2) (app_init sample_env sample_dirty_state).trace ++ m2 ∧
        s.task_dta_list =
          [{ WCET := m0.foldl max 0 }, { WCET := m1.foldl max 0 },
            { WCET := m2.foldl max 0 }] ∧
        ∀ (i : Nat) (d d' : task_dta_t),
          s.task_dta_list[i]? = some d → s'.task_dta_list[i]? = some d' → d.WCET ≤ d'.WCET :=
  ⟨rfl, by decide,
    (wcet_running_maximum sample_env sample_dirty_state rfl
      [Action.tick, Action.update, Action.tick, Action.tick, Action.update]
      [Action.tick, Action.update] 7 (by decide)).1⟩

/-! ## The tick source and the guarded decrements -/

/-- C11. Tick source: for every state, one call of `HAL_SYSTICK_Callback` replaces each of
`g_app_tick_cnt`, `g_task_sensor_tick_cnt`, `g_task_system_tick_cnt` and
`g_task_actuator_tick_cnt` by its value plus one modulo `2 ^ 32`, without saturation
(`2 ^ 32 - 1` becomes 0), and leaves every other field of the state (`g_app_cnt`, the WCET
table, the statechart instances, the queue, the history of calls and outputs) unchanged. -/
theorem tick_source (s : State) :
    HAL_SYSTICK_Callback s =
        { g_app_cnt := s.g_app_cnt
          g_app_runtime_us := s.g_app_runtime_us
          g_app_tick_cnt := (s.g_app_tick_cnt + 1) % 2 ^ 32
          task_dta_list := s.task_dta_list
          g_task_sensor_tick_cnt := (s.g_task_sensor_tick_cnt + 1) % 2 ^ 32
          g_task_system_cnt := s.g_task_system_cnt
          g_task_system_tick_cnt := (s.g_task_system_tick_cnt + 1) % 2 ^ 32
          task_system_dta := s.task_system_dta
          queue := s.queue
          g_task_actuator_cnt := s.g_task_actuator_cnt
          g_task_actuator_tick_cnt := (s.g_task_actuator_tick_cnt + 1) % 2 ^ 32
          task_actuator_dta_list := s.task_actuator_dta_list
          trace := s.trace } ∧
      (HAL_SYSTICK_Callback { s with g_app_tick_cnt := 2 ^ 32 - 1 }).g_app_tick_cnt = 0 ∧
      (HAL_SYSTICK_Callback
        { s with g_task_sensor_tick_cnt := 2 ^ 32 - 1 }).g_task_sensor_tick_cnt = 0 ∧
      (HAL_SYSTICK_Callback
        { s with g_task_system_tick_cnt := 2 ^ 32 - 1 }).g_task_system_tick_cnt = 0 ∧
      (HAL_SYSTICK_Callback
        { s with g_task_actuator_tick_cnt := 2 ^ 32 - 1 }).g_task_actuator_tick_cnt = 0 := by
  simp only [HAL_SYSTICK_Callback, u32_inc]
  norm_num

theorem count_sensor_app_update_calls (n a b c : Nat) :
    (app_update_calls n a b c).count Call.task_sensor_statechart = if n = 0 then 0 else a := by
  cases n with
  | zero => simp [app_update_calls]
  | succ k =>
    simp [app_update_calls, pass_calls, List.count_cons, List.count_replicate, List.count_flatten]

theorem count_pass_app_update_calls (n a b c : Nat) :
    (app_update_calls n a b c).count (Call.task_sensor_update none) = n := by
  cases n with
  | zero => simp [app_update_calls]
  | succ k =>
    simp [app_update_calls, pass_calls, List.count_cons, List.count_replicate, List.count_flatten]

/-- C12. Decrement is guarded: in `app_update`, `task_system_update` and `task_actuator_update`
the owned tick counter is decremented only under the test `0 < counter`, where the decrement of
a `uint32_t` does not wrap (`u32_dec x + 1 = x`, whereas `u32_dec 0 = 2 ^ 32 - 1`). A call made
with the owned counter equal to 0 returns with any fuel, leaves the counter 0, runs no pass and
no statechart step and leaves the execution counter unchanged: the state is the one at entry
(with the entry of the call in the history, for the two tasks). A call made with the owned
counter equal to `k` returns with the counter 0 after exactly `k` passes (statechart steps), one
per decrement, so the counter went from `k` down to 0 and never below; each task leaves the
tick counters of the others as they were, and inside `app_update` what leaves a task's counter
is matched by statechart steps of that task. -/
theorem decrement_is_guarded (env : Env) (fuel : Nat) (s : State) (hu : s.counters.u32)
    (p : Option Nat) :
    (∀ x, 0 < x → x < 2 ^ 32 → u32_dec x + 1 = x) ∧ u32_dec 0 = 2 ^ 32 - 1 ∧
    (s.g_app_tick_cnt = 0 → app_update env fuel s = some s) ∧
    (s.g_task_system_tick_cnt = 0 →
      task_system_update fuel p s = some (s.log (Call.task_system_update p))) ∧
    (s.g_task_actuator_tick_cnt = 0 →
      task_actuator_update env fuel p s = some (s.log (Call.task_actuator_update p))) ∧
    (s.g_task_system_tick_cnt ≤ fuel →
      ∃ s', task_system_update fuel p s = some s' ∧
        s'.g_task_system_tick_cnt = 0 ∧
        s'.trace.count Call.task_system_statechart =
          s.trace.count Call.task_system_statechart + s.g_task_system_tick_cnt ∧
        s'.g_task_system_cnt = (s.g_task_system_cnt + s.g_task_system_tick_cnt) % 2 ^ 32 ∧
        s'.g_app_tick_cnt = s.g_app_tick_cnt ∧
        s'.g_task_sensor_tick_cnt = s.g_task_sensor_tick_cnt ∧
        s'.g_task_actuator_tick_cnt = s.g_task_actuator_tick_cnt) ∧
    (s.g_task_actuator_tick_cnt ≤ fuel →
      ∃ s', task_actuator_update env fuel p s = some s' ∧
        s'.g_task_actuator_tick_cnt = 0 ∧
        s'.trace.count Call.task_actuator_statechart =
          s.trace.count Call.task_actuator_statechart + s.g_task_actuator_tick_cnt ∧
        s'.g_task_actuator_cnt =
          (s.g_task_actuator_cnt + s.g_task_actuator_tick_cnt) % 2 ^ 32 ∧
        s'.g_app_tick_cnt = s.g_app_tick_cnt ∧
        s'.g_task_sensor_tick_cnt = s.g_task_sensor_tick_cnt ∧
        s'.g_task_system_tick_cnt = s.g_task_system_tick_cnt) ∧
    (s.g_app_tick_cnt ≤ fuel → s.counters.tasks_le fuel →
      ∃ s', app_update env fuel s = some s' ∧
        s'.g_app_tick_cnt = 0 ∧
        s'.trace.count (Call.task_sensor_update none) =
          s.trace.count (Call.task_sensor_update none) + s.g_app_tick_cnt ∧
        s'.g_app_cnt = (s.g_app_cnt + s.g_app_tick_cnt) % 2 ^ 32 ∧
        s'.g_task_sensor_tick_cnt + s'.trace.count Call.task_sensor_statechart =
          s.g_task_sensor_tick_cnt + s.trace.count Call.task_sensor_statechart ∧
        s'.g_task_system_tick_cnt + s'.trace.count Call.task_system_statechart =
          s.g_task_system_tick_cnt + s.trace.count Call.task_system_statechart ∧
        s'.g_task_actuator_tick_cnt + s'.trace.count Call.task_actuator_statechart =
          s.g_task_actuator_tick_cnt + s.trace.count Call.task_actuator_statechart) := by
  have hu' := hu
  simp only [Counters.u32, State.counters] at hu'
  refine ⟨fun x h0 h32 => by unfold u32_dec; omega, by unfold u32_dec; norm_num,
    ?_, ?_, ?_, ?_, ?_, ?_⟩
  · intro h0
    simp [app_update, G_APP_TICK_CNT_INI, h0]
  · intro h0
    have : (s.log (Call.task_system_update p)).g_task_system_tick_cnt = 0 := h0
    simp [task_system_update, G_TASK_SYS_TICK_CNT_INI, this]
  · intro h0
    have : (s.log (Call.task_actuator_update p)).g_task_actuator_tick_cnt = 0 := h0
    simp [task_actuator_update, G_TASK_ACT_TICK_CNT_INI, this]
  · intro hf
    obtain ⟨s', h, hc, ht⟩ := task_system_update_spec fuel p s (by omega) (by omega) hf
    simp only [State.counters, Counters.mk.injEq] at hc
    obtain ⟨-, e2, e3, e4, e5, e6, -, -⟩ := hc
    have hcount := congrArg List.length
      (ht (Option.guard fun x => x == Call.task_system_statechart)
        ⟨fun _ _ => by simp [Option.guard], fun _ _ _ => by simp [Option.guard]⟩)
    simp only [List.filterMap_eq_filter, List.length_append] at hcount
    refine ⟨s', h, e4, ?_, e6, e2, e3, e5⟩
    simp only [List.count_eq_countP, List.countP_eq_length_filter]
    rw [hcount]
    simp [List.filter_cons, List.filter_replicate]
  · intro hf
    obtain ⟨s', h, hc, ht⟩ := task_actuator_update_spec env fuel p s (by omega) (by omega) hf
    simp only [State.counters, Counters.mk.injEq] at hc
    obtain ⟨-, e2, e3, e4, e5, -, e7, -⟩ := hc
    have hcount := congrArg List.length
      (ht (Option.guard fun x => x == Call.task_actuator_statechart)
        ⟨fun _ _ => by simp [Option.guard], fun _ _ _ => by simp [Option.guard]⟩)
    simp only [List.filterMap_eq_filter, List.length_append] at hcount
    refine ⟨s', h, e5, ?_, e7, e2, e3, e4⟩
    simp only [List.count_eq_countP, List.countP_eq_length_filter]
    rw [hcount]
    simp [List.filter_cons, List.filter_replicate]
  · intro hfa hf
    obtain ⟨s', h, r1, r2, r3, r4, -, r5⟩ := app_update_spec env fuel s hu hf hfa
    have k0 := count_of_silent (Call.task_sensor_update none)
      (fun _ _ h => by cases h) (fun _ _ _ h => by cases h) (fun _ _ h => by cases h) _ _ _ r5
    have k1 := count_of_silent Call.task_sensor_statechart
      (fun _ _ h => by cases h) (fun _ _ _ h => by cases h) (fun _ _ h => by cases h) _ _ _ r5
    have k2 := count_of_silent Call.task_system_statechart
      (fun _ _ h => by cases h) (fun _ _ _ h => by cases h) (fun _ _ h => by cases h) _ _ _ r5
    have k3 := count_of_silent Call.task_actuator_statechart
      (fun _ _ h => by cases h) (fun _ _ _ h => by cases h) (fun _ _ h => by cases h) _ _ _ r5
    rw [count_pass_app_update_calls] at k0
    rw [count_sensor_app_update_calls] at k1
    rw [count_system_app_update_calls] at k2
    rw [count_actuator_app_update_calls] at k3
    refine ⟨s', h, r2, k0, r1, ?_, ?_, ?_⟩
    all_goals
      rcases Nat.eq_zero_or_pos s.g_app_tick_cnt with h0 | hpos
      · have hs : s' = s := r4 h0
        rw [hs]
      · obtain ⟨q1, q2, q3, -, -⟩ := r3 hpos
        rw [if_neg (Nat.pos_iff_ne_zero.mp hpos)] at k1 k2 k3
        omega

/-- C12, checked on a state whose scheduler counter is 0 and whose system task is owed two
ticks, with fuel 2: `app_update` returns the state unchanged, and `task_system_update` returns
with its counter 0 after two statechart steps, the other tick counters as they were. -/
theorem decrement_is_guarded_witness :
    ({ sample_state with g_task_system_tick_cnt := 2 } : State).counters.u32 ∧
      app_update sample_env 2 { sample_state with g_task_system_tick_cnt := 2 } =
        some { sample_state with g_task_system_tick_cnt := 2 } ∧
      ∃ s', task_system_update 2 none { sample_state with g_task_system_tick_cnt := 2 } =
          some s' ∧
        s'.g_task_system_tick_cnt = 0 ∧
        s'.trace.count Call.task_system_statechart =
          ({ sample_state with g_task_system_tick_cnt := 2 } : State).trace.count
            Call.task_system_statechart + 2 ∧
        s'.g_task_system_cnt = (0 + 2) % 2 ^ 32 ∧
        s'.g_app_tick_cnt = 0 ∧
        s'.g_task_sensor_tick_cnt = 0 ∧
        s'.g_task_actuator_tick_cnt = 0 :=
  ⟨by simp [Counters.u32, State.counters, sample_state],
    (decrement_is_guarded sample_env 2 { sample_state with g_task_system_tick_cnt := 2 }
      (by simp [Counters.u32, State.counters, sample_state]) none).2.2.1 rfl,
    (decrement_is_guarded sample_env 2 { sample_state with g_task_system_tick_cnt := 2 }
      (by simp [Counters.u32, State.counters, sample_state]) none).2.2.2.2.2.1 (Nat.le_refl 2)⟩

/-! ## Polling, placeholder states and task initialisation -/

/-- C14. Queue polling by the system step: `task_system_statechart` is the poll of the queue
followed by the `switch` on the state. For every state value and every previous (flag, event),
if the queue is non-empty the poll removes exactly its oldest event `e` and sets (flag, event)
to (true, `e`) before the switch runs, overwriting what was latched; if the queue is empty the
poll changes nothing. The switch never touches the queue, so one step removes the oldest event
when there is one and nothing otherwise, never more than one. -/
theorem queue_polling (s : State) :
    task_system_statechart s =
        task_system_statechart_switch
          (task_system_statechart_poll (s.log Call.task_system_statechart)) ∧
      (∀ e rest, s.queue = e :: rest →
        task_system_statechart_poll s =
          { s with
            queue := rest
            task_system_dta := { s.task_system_dta with flag := true, event := e } }) ∧
      (s.queue = [] → task_system_statechart_poll s = s) ∧
      (task_system_statechart_switch s).queue = s.queue ∧
      (task_system_statechart s).queue = s.queue.tail := by
  refine ⟨rfl, ?_, ?_, ?_, ?_⟩
  · intro e rest hq
    simp [task_system_statechart_poll, any_event_task_system, get_event_task_system, hq]
  · intro hq
    simp [task_system_statechart_poll, any_event_task_system, hq]
  · obtain ⟨a, b, c, d, e, f, g, ⟨tick, state, event, flag⟩, q, i, j, k, tr⟩ := s
    cases state <;>
      simp [task_system_statechart_switch, put_event_task_actuator] <;> split <;> simp
  · obtain ⟨a, b, c, d, e, f, g, ⟨tick, state, event, flag⟩, q, i, j, k, tr⟩ := s
    cases q <;> cases state <;>
      simp [task_system_statechart, State.log, any_event_task_system, get_event_task_system,
        put_event_task_actuator] <;> split <;> simp

/-- C15. Placeholder states are no-op states: an actuator instance in `ST_LED_XX_BLINK_ON`,
`ST_LED_XX_BLINK_OFF` or `ST_LED_XX_PULSE` leaves one call of `task_actuator_statechart` with
state, flag, event and tick unchanged, whatever flag and event hold, and no output is written
for it; the system task in `ST_SYS_ACTIVE_02` .. `ST_SYS_ACTIVE_06` leaves one call of
`task_system_statechart` in the same state, whatever the queue, flag and event hold, with no
`put_event_task_actuator` (the history gains the statechart entry only), and when the queue is
empty nothing but the history changes, flag and event included. -/
theorem placeholder_states_noop (env : Env) (s : State) :
    (∀ (cfgs₁ cfgs₂ : List task_actuator_cfg_t) (cfg : task_actuator_cfg_t)
        (dtas₁ dtas₂ : List task_actuator_dta_t) (dta : task_actuator_dta_t),
      env.task_actuator_cfg_list = cfgs₁ ++ cfg :: cfgs₂ →
      s.task_actuator_dta_list = dtas₁ ++ dta :: dtas₂ →
      cfgs₁.length = dtas₁.length →
      dta.state = task_actuator_st_t.ST_LED_XX_BLINK_ON ∨
        dta.state = task_actuator_st_t.ST_LED_XX_BLINK_OFF ∨
        dta.state = task_actuator_st_t.ST_LED_XX_PULSE →
      (task_actuator_statechart env s).task_actuator_dta_list =
          (task_actuator_statechart_for cfgs₁ dtas₁).1 ++
            dta :: (task_actuator_statechart_for cfgs₂ dtas₂).1 ∧
        (task_actuator_statechart env s).trace =
          s.trace ++ Call.task_actuator_statechart ::
            ((task_actuator_statechart_for cfgs₁ dtas₁).2 ++
              (task_actuator_statechart_for cfgs₂ dtas₂).2)) ∧
    (s.task_system_dta.state = task_system_st_t.ST_SYS_ACTIVE_02 ∨
        s.task_system_dta.state = task_system_st_t.ST_SYS_ACTIVE_03 ∨
        s.task_system_dta.state = task_system_st_t.ST_SYS_ACTIVE_04 ∨
        s.task_system_dta.state = task_system_st_t.ST_SYS_ACTIVE_05 ∨
        s.task_system_dta.state = task_system_st_t.ST_SYS_ACTIVE_06 →
      (task_system_statechart s).task_system_dta.state = s.task_system_dta.state ∧
        (task_system_statechart s).trace = s.trace ++ [Call.task_system_statechart] ∧
        (task_system_statechart s).task_actuator_dta_list = s.task_actuator_dta_list ∧
        (s.queue = [] →
          task_system_statechart s =
            { s with trace := s.trace ++ [Call.task_system_statechart] })) := by
  constructor
  · intro cfgs₁ cfgs₂ cfg dtas₁ dtas₂ dta hc hd hl hs
    have h := task_actuator_statechart_split env s cfgs₁ cfgs₂ cfg dtas₁ dtas₂ dta hc hd hl
    have hstep : task_actuator_statechart_index cfg dta = (dta, []) := by
      rcases hs with hs | hs | hs <;> simp [task_actuator_statechart_index, hs]
    simpa [hstep] using h
  · intro hs
    obtain ⟨a, b, c, d, e, f, g, ⟨tick, state, event, flag⟩, q, i, j, k, tr⟩ := s
    simp only at hs
    rcases hs with hs | hs | hs | hs | hs <;> subst hs <;> cases q <;>
      simp [task_system_statechart, State.log, any_event_task_system, get_event_task_system]

/-- C15, checked on the LED instance in `ST_LED_XX_PULSE` with a pending `EV_LED_XX_ON`, and on
the system task in `ST_SYS_ACTIVE_03` with `EV_SYS_IDLE` queued. -/
theorem placeholder_states_noop_witness :
    ((task_actuator_statechart sample_env
          { sample_state with task_actuator_dta_list :=
              [{ tick := 4, state := task_actuator_st_t.ST_LED_XX_PULSE,
                 event := task_actuator_ev_t.EV_LED_XX_ON, flag := true }] }).task_actuator_dta_list =
          [] ++ [{ tick := 4, state := task_actuator_st_t.ST_LED_XX_PULSE,
                   event := task_actuator_ev_t.EV_LED_XX_ON, flag := true }] ∧
        (task_actuator_statechart sample_env
          { sample_state with task_actuator_dta_list :=
              [{ tick := 4, state := task_actuator_st_t.ST_LED_XX_PULSE,
                 event := task_actuator_ev_t.EV_LED_XX_ON, flag := true }] }).trace =
          [] ++ [Call.task_actuator_statechart]) ∧
      (task_system_statechart
          { sample_state with
            task_system_dta :=
              { tick := 0, state := task_system_st_t.ST_SYS_ACTIVE_03,
                event := task_system_ev_t.EV_SYS_LOOP_DET, flag := false }
            queue := [task_system_ev_t.EV_SYS_IDLE] }).task_system_dta.state =
        task_system_st_t.ST_SYS_ACTIVE_03 ∧
      (task_system_statechart
          { sample_state with
            task_system_dta :=
              { tick := 0, state := task_system_st_t.ST_SYS_ACTIVE_03,
                event := task_system_ev_t.EV_SYS_LOOP_DET, flag := false }
            queue := [task_system_ev_t.EV_SYS_IDLE] }).trace =
        [] ++ [Call.task_system_statechart] :=
  ⟨(placeholder_states_noop sample_env
      { sample_state with task_actuator_dta_list :=
          [{ tick := 4, state := task_actuator_st_t.ST_LED_XX_PULSE,
             event := task_actuator_ev_t.EV_LED_XX_ON, flag := true }] }).1
      [] [] sample_cfg [] []
      { tick := 4, state := task_actuator_st_t.ST_LED_XX_PULSE,
        event := task_actuator_ev_t.EV_LED_XX_ON, flag := true } rfl rfl rfl
      (Or.inr (Or.inr rfl)),
    ((placeholder_states_noop sample_env
      { sample_state with
        task_system_dta :=
          { tick := 0, state := task_system_st_t.ST_SYS_ACTIVE_03,
            event := task_system_ev_t.EV_SYS_LOOP_DET, flag := false }
        queue := [task_system_ev_t.EV_SYS_IDLE] }).2 (Or.inr (Or.inl rfl))).1,
    ((placeholder_states_noop sample_env
      { sample_state with
        task_system_dta :=
          { tick := 0, state := task_system_st_t.ST_SYS_ACTIVE_03,
            event := task_system_ev_t.EV_SYS_LOOP_DET, flag := false }
        queue := [task_system_ev_t.EV_SYS_IDLE] }).2 (Or.inr (Or.inl rfl))).2.1⟩

theorem task_actuator_init_for_eq :
    ∀ (cfgs : List task_actuator_cfg_t) (dtas : List task_actuator_dta_t),
      cfgs.length = dtas.length →
      task_actuator_init_for cfgs dtas =
        (dtas.map fun d =>
            { d with state := task_actuator_st_t.ST_LED_XX_OFF,
                     event := task_actuator_ev_t.EV_LED_XX_OFF, flag := false },
          cfgs.map fun cfg => Call.HAL_GPIO_WritePin cfg.gpio_port cfg.pin cfg.led_off)
  | [], [], _ => rfl
  | [], _ :: _, h => by simp at h
  | _ :: _, [], h => by simp at h
  | c :: cs, d :: ds, h => by
    have ih := task_actuator_init_for_eq cs ds (by simpa using h)
    simp [task_actuator_init_for, task_actuator_init_index, ih]

/-- C16. Task init establishes the initial statechart instance: after `task_actuator_init`
every entry of `task_actuator_dta_list` has state `ST_LED_XX_OFF`, event `EV_LED_XX_OFF` and
flag false whatever it held before (its tick is kept), exactly one `HAL_GPIO_WritePin` has been
issued per instance, in table order, on its configured port and pin with its `led_off` level,
and `g_task_actuator_cnt` is 0; after `task_system_init`, `task_system_dta` has state
`ST_SYS_IDLE`, event `EV_SYS_IDLE` and flag false, `init_queue_event_task_system` has been
called once, and `g_task_system_cnt` is 0. -/
theorem task_init_establishes (env : Env) (s : State) (p : Option Nat)
    (hlen : env.task_actuator_cfg_list.length = s.task_actuator_dta_list.length) :
    (task_actuator_init env p s).task_actuator_dta_list =
        s.task_actuator_dta_list.map (fun d =>
          { d with state := task_actuator_st_t.ST_LED_XX_OFF,
                   event := task_actuator_ev_t.EV_LED_XX_OFF, flag := false }) ∧
      (∀ d ∈ (task_actuator_init env p s).task_actuator_dta_list,
        d.state = task_actuator_st_t.ST_LED_XX_OFF ∧
          d.event = task_actuator_ev_t.EV_LED_XX_OFF ∧ d.flag = false) ∧
      (task_actuator_init env p s).trace =
        s.trace ++ Call.task_actuator_init p ::
          env.task_actuator_cfg_list.map (fun cfg =>
            Call.HAL_GPIO_WritePin cfg.gpio_port cfg.pin cfg.led_off) ∧
      (task_actuator_init env p s).g_task_actuator_cnt = 0 ∧
      (task_system_init p s).task_system_dta =
        { tick := s.task_system_dta.tick, state := task_system_st_t.ST_SYS_IDLE,
          event := task_system_ev_t.EV_SYS_IDLE, flag := false } ∧
      (task_system_init p s).trace =
        s.trace ++ [Call.task_system_init p, Call.init_queue_event_task_system] ∧
      (task_system_init p s).g_task_system_cnt = 0 := by
  have h := task_actuator_init_for_eq _ _ hlen
  have hl : (task_actuator_init env p s).task_actuator_dta_list =
      s.task_actuator_dta_list.map (fun d =>
        { d with state := task_actuator_st_t.ST_LED_XX_OFF,
                 event := task_actuator_ev_t.EV_LED_XX_OFF, flag := false }) := by
    simp [task_actuator_init, h]
  refine ⟨hl, ?_, ?_, rfl, ?_, ?_, rfl⟩
  · intro d hd
    rw [hl, List.mem_map] at hd
    obtain ⟨d0, -, rfl⟩ := hd
    exact ⟨rfl, rfl, rfl⟩
  · simp [task_actuator_init, h]
  · simp [task_system_init, init_queue_event_task_system, State.log]
  · simp [task_system_init, init_queue_event_task_system, State.log]

/-- C16, checked on the state full of leftovers (LED instance On with a pending event, system
task in `ST_SYS_ACTIVE_01`): both tasks are put back in their initial instance. -/
theorem task_init_establishes_witness :
    sample_env.task_actuator_cfg_list.length = sample_dirty_state.task_actuator_dta_list.length ∧
      (task_actuator_init sample_env none sample_dirty_state).task_actuator_dta_list =
        [{ tick := 0, state := task_actuator_st_t.ST_LED_XX_OFF,
           event := task_actuator_ev_t.EV_LED_XX_OFF, flag := false }] ∧
      (task_actuator_init sample_env none sample_dirty_state).trace =
        [Call.task_actuator_init none, Call.HAL_GPIO_WritePin 16 5 0] ∧
      (task_system_init none sample_dirty_state).task_system_dta =
        { tick := 0, state := task_system_st_t.ST_SYS_IDLE,
          event := task_system_ev_t.EV_SYS_IDLE, flag := false } :=
  ⟨rfl, (task_init_establishes sample_env sample_dirty_state none rfl).1,
    (task_init_establishes sample_env sample_dirty_state none rfl).2.2.1,
    (task_init_establishes sample_env sample_dirty_state none rfl).2.2.2.2.1⟩

/-! ## Reachable statechart instances -/

theorem task_actuator_statechart_index_state (cfg : task_actuator_cfg_t)
    (dta : task_actuator_dta_t)
    (h : dta.state = task_actuator_st_t.ST_LED_XX_OFF ∨
      dta.state = task_actuator_st_t.ST_LED_XX_ON) :
    (task_actuator_statechart_index cfg dta).1.state = task_actuator_st_t.ST_LED_XX_OFF ∨
      (task_actuator_statechart_index cfg dta).1.state = task_actuator_st_t.ST_LED_XX_ON := by
  obtain ⟨tick, state, event, flag⟩ := dta
  simp only at h
  rcases h with h | h <;> subst h <;>
    simp only [task_actuator_statechart_index] <;> split <;> simp

theorem task_actuator_statechart_for_state :
    ∀ (cfgs : List task_actuator_cfg_t) (dtas : List task_actuator_dta_t),
      (∀ d ∈ dtas, d.state = task_actuator_st_t.ST_LED_XX_OFF ∨
        d.state = task_actuator_st_t.ST_LED_XX_ON) →
      ∀ d ∈ (task_actuator_statechart_for cfgs dtas).1,
        d.state = task_actuator_st_t.ST_LED_XX_OFF ∨ d.state = task_actuator_st_t.ST_LED_XX_ON
  | [], _, h => by simpa [task_actuator_statechart_for] using h
  | _ :: _, [], _ => by simp [task_actuator_statechart_for]
  | c :: cs, d :: ds, h => by
    have ih := task_actuator_statechart_for_state cs ds
      (fun x hx => h x (List.mem_cons_of_mem d hx))
    intro x hx
    simp only [task_actuator_statechart_for, List.mem_cons] at hx
    rcases hx with hx | hx
    · rw [hx]
      exact task_actuator_statechart_index_state c d (h d (List.mem_cons_self d ds))
    · exact ih x hx

theorem modify_mailbox_state (l : List task_actuator_dta_t) (flag : Bool)
    (event : task_actuator_ev_t) (index : Nat)
    (h : ∀ d ∈ l, d.state = task_actuator_st_t.ST_LED_XX_OFF ∨
      d.state = task_actuator_st_t.ST_LED_XX_ON) :
    ∀ d ∈ l.modify (fun d => { d with flag := flag, event := event }) index,
      d.state = task_actuator_st_t.ST_LED_XX_OFF ∨ d.state = task_actuator_st_t.ST_LED_XX_ON := by
  induction l generalizing index with
  | nil => cases index <;> simp [List.modify, List.modifyTailIdx]
  | cons a l ih =>
    cases index with
    | zero =>
      intro d hd
      simp only [List.modify_zero_cons, List.mem_cons] at hd
      rcases hd with hd | hd
      · rw [hd]; exact h a (List.mem_cons_self a l)
      · exact h d (List.mem_cons_of_mem a hd)
    | succ n =>
      intro d hd
      simp only [List.modify_succ_cons, List.mem_cons] at hd
      rcases hd with hd | hd
      · rw [hd]; exact h a (List.mem_cons_self a l)
      · exact ih n (fun x hx => h x (List.mem_cons_of_mem a hx)) d hd

/-- The statechart instances stay in the states with implemented transitions under every
stimulus. -/
theorem stimulate_states (env : Env) (x : Stimulus) (s : State)
    (ha : ∀ d ∈ s.task_actuator_dta_list, d.state = task_actuator_st_t.ST_LED_XX_OFF ∨
      d.state = task_actuator_st_t.ST_LED_XX_ON)
    (hs : s.task_system_dta.state = task_system_st_t.ST_SYS_IDLE ∨
      s.task_system_dta.state = task_system_st_t.ST_SYS_ACTIVE_01) :
    (∀ d ∈ (stimulate env x s).task_actuator_dta_list,
        d.state = task_actuator_st_t.ST_LED_XX_OFF ∨
          d.state = task_actuator_st_t.ST_LED_XX_ON) ∧
      ((stimulate env x s).task_system_dta.state = task_system_st_t.ST_SYS_IDLE ∨
        (stimulate env x s).task_system_dta.state = task_system_st_t.ST_SYS_ACTIVE_01) := by
  cases x with
  | actuator_step =>
    exact ⟨task_actuator_statechart_for_state _ _ ha, hs⟩
  | system_step =>
    obtain ⟨a, b, c, d, e, f, g, ⟨tick, state, event, flag⟩, q, i, j, k, tr⟩ := s
    simp only at ha hs
    rcases hs with hs | hs <;> subst hs <;> cases q <;>
      simp only [stimulate, task_system_statechart, State.log, any_event_task_system,
        get_event_task_system, put_event_task_actuator, List.isEmpty_nil, List.isEmpty_cons,
        Bool.not_true, Bool.not_false, Bool.false_eq_true, if_false, if_true] <;>
      split <;>
      first
        | exact ⟨ha, by simp⟩
        | exact ⟨modify_mailbox_state _ _ _ _ ha, by simp⟩
  | write_actuator index flag event =>
    exact ⟨modify_mailbox_state _ _ _ _ ha, hs⟩
  | write_system flag event => exact ⟨ha, hs⟩
  | write_queue queue => exact ⟨ha, hs⟩

theorem stimulate_all_states (env : Env) :
    ∀ (stimuli : List Stimulus) (s : State),
      (∀ d ∈ s.task_actuator_dta_list, d.state = task_actuator_st_t.ST_LED_XX_OFF ∨
        d.state = task_actuator_st_t.ST_LED_XX_ON) →
      (s.task_system_dta.state = task_system_st_t.ST_SYS_IDLE ∨
        s.task_system_dta.state = task_system_st_t.ST_SYS_ACTIVE_01) →
      (∀ d ∈ (stimulate_all env stimuli s).task_actuator_dta_list,
          d.state = task_actuator_st_t.ST_LED_XX_OFF ∨
            d.state = task_actuator_st_t.ST_LED_XX_ON) ∧
        ((stimulate_all env stimuli s).task_system_dta.state = task_system_st_t.ST_SYS_IDLE ∨
          (stimulate_all env stimuli s).task_system_dta.state =
            task_system_st_t.ST_SYS_ACTIVE_01)
  | [], _, ha, hs => ⟨ha, hs⟩
  | x :: rest, s, ha, hs =>
    stimulate_all_states env rest (stimulate env x s) (stimulate_states env x s ha hs).1
      (stimulate_states env x s ha hs).2

/-- C17. Reachable-state invariant: from the state established by `task_system_init` and
`task_actuator_init`, after every finite sequence of statechart steps of the two tasks
interleaved with arbitrary producer writes to the (flag, event) mailboxes and arbitrary queue
contents, every actuator instance is in `ST_LED_XX_OFF` or `ST_LED_XX_ON` and the system task is
in `ST_SYS_IDLE` or `ST_SYS_ACTIVE_01`; hence no instance is ever in a Blink or Pulse state, in
`ST_SYS_ACTIVE_02` .. `ST_SYS_ACTIVE_06` or in a state outside the declared ones, and every step
dispatches on a state with implemented transitions, never on a placeholder or default branch. -/
theorem reachable_state_invariant (env : Env) (s0 : State) (p q : Option Nat)
    (hlen : env.task_actuator_cfg_list.length = s0.task_actuator_dta_list.length)
    (stimuli : List Stimulus) :
    (∀ d ∈ (stimulate_all env stimuli
          (task_actuator_init env p (task_system_init q s0))).task_actuator_dta_list,
        (d.state = task_actuator_st_t.ST_LED_XX_OFF ∨
            d.state = task_actuator_st_t.ST_LED_XX_ON) ∧
          d.state ≠ task_actuator_st_t.ST_LED_XX_BLINK_ON ∧
          d.state ≠ task_actuator_st_t.ST_LED_XX_BLINK_OFF ∧
          d.state ≠ task_actuator_st_t.ST_LED_XX_PULSE ∧
          ∀ raw, d.state ≠ task_actuator_st_t.invalid raw) ∧
      ((stimulate_all env stimuli
            (task_actuator_init env p (task_system_init q s0))).task_system_dta.state =
          task_system_st_t.ST_SYS_IDLE ∨
        (stimulate_all env stimuli
            (task_actuator_init env p (task_system_init q s0))).task_system_dta.state =
          task_system_st_t.ST_SYS_ACTIVE_01) := by
  have hinit : ∀ d ∈ (task_actuator_init env p (task_system_init q s0)).task_actuator_dta_list,
      d.state = task_actuator_st_t.ST_LED_XX_OFF ∨
        d.state = task_actuator_st_t.ST_LED_XX_ON := by
    intro d hd
    have h := task_actuator_init_for_eq env.task_actuator_cfg_list
      (task_system_init q s0).task_actuator_dta_list hlen
    simp only [task_actuator_init, h, List.mem_map] at hd
    obtain ⟨d0, -, rfl⟩ := hd
    exact Or.inl rfl
  have hsys : (task_actuator_init env p (task_system_init q s0)).task_system_dta.state =
      task_system_st_t.ST_SYS_IDLE ∨
      (task_actuator_init env p (task_system_init q s0)).task_system_dta.state =
        task_system_st_t.ST_SYS_ACTIVE_01 := Or.inl rfl
  obtain ⟨ha, hs⟩ := stimulate_all_states env stimuli _ hinit hsys
  refine ⟨fun d hd => ?_, hs⟩
  have h := ha d hd
  refine ⟨h, ?_, ?_, ?_, ?_⟩ <;> rcases h with h | h <;> simp [h]

/-- C17, checked on an execution from the state full of leftovers: an event is queued, the
system task steps, a producer overwrites the mailbox of the LED, both tasks step again. -/
theorem reachable_state_invariant_witness :
    sample_env.task_actuator_cfg_list.length = sample_dirty_state.task_actuator_dta_list.length ∧
      (∀ d ∈ (stimulate_all sample_env
            [Stimulus.write_queue [task_system_ev_t.EV_SYS_LOOP_DET], Stimulus.system_step,
              Stimulus.actuator_step,
              Stimulus.write_actuator 0 true (task_actuator_ev_t.other 9),
              Stimulus.actuator_step, Stimulus.system_step]
            (task_actuator_init sample_env none
              (task_system_init none sample_dirty_state))).task_actuator_dta_list,
          (d.state = task_actuator_st_t.ST_LED_XX_OFF ∨
              d.state = task_actuator_st_t.ST_LED_XX_ON) ∧
            d.state ≠ task_actuator_st_t.ST_LED_XX_BLINK_ON ∧
            d.state ≠ task_actuator_st_t.ST_LED_XX_BLINK_OFF ∧
            d.state ≠ task_actuator_st_t.ST_LED_XX_PULSE ∧
            ∀ raw, d.state ≠ task_actuator_st_t.invalid raw) ∧
        ((stimulate_all sample_env
              [Stimulus.write_queue [task_system_ev_t.EV_SYS_LOOP_DET], Stimulus.system_step,
                Stimulus.actuator_step,
                Stimulus.write_actuator 0 true (task_actuator_ev_t.other 9),
                Stimulus.actuator_step, Stimulus.system_step]
              (task_actuator_init sample_env none
                (task_system_init none sample_dirty_state))).task_system_dta.state =
            task_system_st_t.ST_SYS_IDLE ∨
          (stimulate_all sample_env
              [Stimulus.write_queue [task_system_ev_t.EV_SYS_LOOP_DET], Stimulus.system_step,
                Stimulus.actuator_step,
                Stimulus.write_actuator 0 true (task_actuator_ev_t.other 9),
                Stimulus.actuator_step, Stimulus.system_step]
              (task_actuator_init sample_env none
                (task_system_init none sample_dirty_state))).task_system_dta.state =
            task_system_st_t.ST_SYS_ACTIVE_01) :=
  ⟨rfl, reachable_state_invariant sample_env sample_dirty_state none none rfl
    [Stimulus.write_queue [task_system_ev_t.EV_SYS_LOOP_DET], Stimulus.system_step,
      Stimulus.actuator_step,
      Stimulus.write_actuator 0 true (task_actuator_ev_t.other 9),
      Stimulus.actuator_step, Stimulus.system_step]⟩

/-! ## The output line of an actuator instance -/

/-- The output line of a configuration entry. -/
theorem level_written_other_line (cfg0 c : task_actuator_cfg_t) (level : Nat)
    (h : (c.gpio_port, c.pin) ≠ (cfg0.gpio_port, cfg0.pin)) :
    level_written cfg0 (Call.HAL_GPIO_WritePin c.gpio_port c.pin level) = none := by
  simp only [level_written]
  split
  · rename_i hh
    exact absurd (Prod.ext hh.1 hh.2) h
  · rfl

theorem level_written_own_line (cfg : task_actuator_cfg_t) (level : Nat) :
    level_written cfg (Call.HAL_GPIO_WritePin cfg.gpio_port cfg.pin level) = some level := by
  simp [level_written]

theorem task_actuator_statechart_index_other_line (cfg0 c : task_actuator_cfg_t)
    (d : task_actuator_dta_t)
    (h : (c.gpio_port, c.pin) ≠ (cfg0.gpio_port, cfg0.pin)) :
    List.filterMap (level_written cfg0) (task_actuator_statechart_index c d).2 = [] := by
  obtain ⟨tick, state, event, flag⟩ := d
  cases state <;> simp only [task_actuator_statechart_index] <;>
    first
      | rfl
      | (split <;> simp [List.filterMap_cons, level_written_other_line cfg0 c _ h])

theorem task_actuator_statechart_for_other_lines (cfg0 : task_actuator_cfg_t) :
    ∀ (cs : List task_actuator_cfg_t) (ds : List task_actuator_dta_t),
      (∀ c ∈ cs, (c.gpio_port, c.pin) ≠ (cfg0.gpio_port, cfg0.pin)) →
      List.filterMap (level_written cfg0) (task_actuator_statechart_for cs ds).2 = []
  | [], _, _ => by simp [task_actuator_statechart_for]
  | _ :: _, [], _ => by simp [task_actuator_statechart_for]
  | c :: cs, d :: ds, h => by
    have ih := task_actuator_statechart_for_other_lines cfg0 cs ds
      (fun x hx => h x (List.mem_cons_of_mem c hx))
    simp only [task_actuator_statechart_for, List.filterMap_append, ih,
      task_actuator_statechart_index_other_line cfg0 c d (h c (List.mem_cons_self c cs)),
      List.append_nil]

/-- In one call of `task_actuator_statechart` the instance `i` is stepped with its own
configuration entry, and what is written on its line is what its own step writes. -/
theorem task_actuator_statechart_for_at :
    ∀ (cfgs : List task_actuator_cfg_t) (dtas : List task_actuator_dta_t) (i : Nat)
      (cfg : task_actuator_cfg_t),
      (cfgs.map fun c => (c.gpio_port, c.pin)).Nodup →
      cfgs.length = dtas.length →
      cfgs[i]? = some cfg →
      ∃ dta, dtas[i]? = some dta ∧
        (task_actuator_statechart_for cfgs dtas).1[i]? =
          some (task_actuator_statechart_index cfg dta).1 ∧
        List.filterMap (level_written cfg) (task_actuator_statechart_for cfgs dtas).2 =
          List.filterMap (level_written cfg) (task_actuator_statechart_index cfg dta).2
  | [], _, i, cfg, _, _, hc => by simp at hc
  | _ :: _, [], _, _, _, hl, _ => by simp at hl
  | c :: cs, d :: ds, 0, cfg, hn, _, hc => by
    simp only [List.getElem?_cons_zero, Option.some.injEq] at hc
    subst hc
    simp only [List.map_cons, List.nodup_cons, List.mem_map, not_exists, not_and] at hn
    refine ⟨d, by simp, by simp [task_actuator_statechart_for], ?_⟩
    simp only [task_actuator_statechart_for, List.filterMap_append,
      task_actuator_statechart_for_other_lines c cs ds (fun x hx hxe => hn.1 x hx hxe),
      List.append_nil]
  | c :: cs, d :: ds, i + 1, cfg, hn, hl, hc => by
    simp only [List.getElem?_cons_succ] at hc
    simp only [List.map_cons, List.nodup_cons, List.mem_map, not_exists, not_and] at hn
    obtain ⟨dta, h1, h2, h3⟩ := task_actuator_statechart_for_at cs ds i cfg hn.2
      (by simpa using hl) hc
    refine ⟨dta, by simpa using h1, by simpa [task_actuator_statechart_for] using h2, ?_⟩
    have hne : (c.gpio_port, c.pin) ≠ (cfg.gpio_port, cfg.pin) :=
      fun he => hn.1 cfg (List.getElem?_mem hc) he.symm
    simp only [task_actuator_statechart_for, List.filterMap_append,
      task_actuator_statechart_index_other_line cfg c d hne, List.nil_append, h3]

theorem init_writes_at :
    ∀ (cfgs : List task_actuator_cfg_t) (i : Nat) (cfg : task_actuator_cfg_t),
      (cfgs.map fun c => (c.gpio_port, c.pin)).Nodup →
      cfgs[i]? = some cfg →
      List.filterMap (level_written cfg)
        (cfgs.map fun c => Call.HAL_GPIO_WritePin c.gpio_port c.pin c.led_off) =
        [cfg.led_off]
  | [], i, cfg, _, hc => by simp at hc
  | c :: cs, 0, cfg, hn, hc => by
    simp only [List.getElem?_cons_zero, Option.some.injEq] at hc
    subst hc
    simp only [List.map_cons, List.nodup_cons, List.mem_map, not_exists, not_and] at hn
    have hrest : List.filterMap (level_written c)
        (cs.map fun x => Call.HAL_GPIO_WritePin x.gpio_port x.pin x.led_off) = [] := by
      rw [List.filterMap_eq_nil_iff]
      intro x hx
      rw [List.mem_map] at hx
      obtain ⟨y, hy, rfl⟩ := hx
      exact level_written_other_line c y _ (fun he => hn.1 y hy he)
    simp only [List.map_cons, List.filterMap_cons, level_written_own_line, hrest]
  | c :: cs, i + 1, cfg, hn, hc => by
    simp only [List.getElem?_cons_succ] at hc
    simp only [List.map_cons, List.nodup_cons, List.mem_map, not_exists, not_and] at hn
    have hne : (c.gpio_port, c.pin) ≠ (cfg.gpio_port, cfg.pin) :=
      fun he => hn.1 cfg (List.getElem?_mem hc) he.symm
    simp only [List.map_cons, List.filterMap_cons, level_written_other_line cfg c _ hne,
      init_writes_at cs i cfg hn.2 hc]

theorem alternating_succ (cfg : task_actuator_cfg_t) (n : Nat) :
    alternating cfg (n + 1) =
      alternating cfg n ++ [if n % 2 = 0 then cfg.led_off else cfg.led_on] := by
  simp [alternating, List.range_succ]

theorem task_actuator_statechart_for_length :
    ∀ (cfgs : List task_actuator_cfg_t) (dtas : List task_actuator_dta_t),
      (task_actuator_statechart_for cfgs dtas).1.length = dtas.length
  | [], _ => by simp [task_actuator_statechart_for]
  | _ :: _, [] => by simp [task_actuator_statechart_for]
  | c :: cs, d :: ds => by
    simp [task_actuator_statechart_for, task_actuator_statechart_for_length cs ds]

/-- One step of an instance that is Off after an odd number of writes and On after an even
number keeps it so. -/
theorem task_actuator_statechart_index_follows (cfg : task_actuator_cfg_t)
    (dta : task_actuator_dta_t) (n : Nat)
    (h : dta.state =
      if n % 2 = 0 then task_actuator_st_t.ST_LED_XX_OFF else task_actuator_st_t.ST_LED_XX_ON) :
    ∃ m : Nat,
      alternating cfg (n + 1) ++
          List.filterMap (level_written cfg) (task_actuator_statechart_index cfg dta).2 =
        alternating cfg (m + 1) ∧
      (task_actuator_statechart_index cfg dta).1.state =
        if m % 2 = 0 then task_actuator_st_t.ST_LED_XX_OFF
        else task_actuator_st_t.ST_LED_XX_ON := by
  obtain ⟨tick, state, event, flag⟩ := dta
  simp only at h
  by_cases hn : n % 2 = 0
  · rw [if_pos hn] at h
    subst h
    by_cases hg : flag = true ∧ event = task_actuator_ev_t.EV_LED_XX_ON
    · refine ⟨n + 1, ?_, ?_⟩
      · rw [alternating_succ cfg (n + 1)]
        have : ¬ (n + 1) % 2 = 0 := by omega
        simp [task_actuator_statechart_index, hg, level_written_own_line, this]
      · have : ¬ (n + 1) % 2 = 0 := by omega
        simp [task_actuator_statechart_index, hg, this]
    · refine ⟨n, ?_, ?_⟩
      · simp [task_actuator_statechart_index, hg]
      · simp [task_actuator_statechart_index, hg, hn]
  · rw [if_neg hn] at h
    subst h
    by_cases hg : flag = true ∧ event = task_actuator_ev_t.EV_LED_XX_OFF
    · refine ⟨n + 1, ?_, ?_⟩
      · rw [alternating_succ cfg (n + 1)]
        have : (n + 1) % 2 = 0 := by omega
        simp [task_actuator_statechart_index, hg, level_written_own_line, this]
      · have : (n + 1) % 2 = 0 := by omega
        simp [task_actuator_statechart_index, hg, this]
    · refine ⟨n, ?_, ?_⟩
      · simp [task_actuator_statechart_index, hg]
      · simp [task_actuator_statechart_index, hg, hn]

/-- A change that writes on no output line and keeps the state of every instance keeps the
outputs following the states. -/
theorem OutputFollows.of_same (env : Env) (tr0 : List Call) (s s' : State)
    (hl : s'.task_actuator_dta_list.length = s.task_actuator_dta_list.length)
    (ht : ∀ cfg, List.filterMap (level_written cfg) s'.trace =
      List.filterMap (level_written cfg) s.trace)
    (hd : ∀ (i : Nat) (d' : task_actuator_dta_t), s'.task_actuator_dta_list[i]? = some d' →
      ∃ d, s.task_actuator_dta_list[i]? = some d ∧ d'.state = d.state)
    (h : OutputFollows env tr0 s) : OutputFollows env tr0 s' := by
  refine ⟨by rw [hl]; exact h.1, ?_⟩
  intro i cfg dta' hc hd'
  obtain ⟨d, h1, h2⟩ := hd i dta' hd'
  obtain ⟨n, h3, h4⟩ := h.2 i cfg d hc h1
  exact ⟨n, by rw [ht, h3], by rw [h2, h4]⟩

theorem modify_mailbox_at (l : List task_actuator_dta_t) (flag : Bool)
    (event : task_actuator_ev_t) (index i : Nat) (d' : task_actuator_dta_t)
    (h : (l.modify (fun d => { d with flag := flag, event := event }) index)[i]? = some d') :
    ∃ d, l[i]? = some d ∧ d'.state = d.state := by
  rw [List.getElem?_modify] at h
  cases hl : l[i]? with
  | none => rw [hl] at h; simp at h
  | some d =>
    rw [hl] at h
    simp only [Option.map_eq_map, Option.map_some', Option.some.injEq] at h
    refine ⟨d, rfl, ?_⟩
    rw [← h]
    split <;> rfl

theorem task_system_statechart_actuators (s : State) :
    (∀ cfg, List.filterMap (level_written cfg) (task_system_statechart s).trace =
        List.filterMap (level_written cfg) s.trace) ∧
      ((task_system_statechart s).task_actuator_dta_list = s.task_actuator_dta_list ∨
        ∃ event, (task_system_statechart s).task_actuator_dta_list =
          s.task_actuator_dta_list.modify (fun d => { d with flag := true, event := event })
            ID_LED_A) := by
  obtain ⟨a, b, c, d, e, f, g, ⟨tick, state, event, flag⟩, q, i, j, k, tr⟩ := s
  cases q <;> cases state <;>
    simp only [task_system_statechart, State.log, any_event_task_system,
      get_event_task_system, put_event_task_actuator, List.isEmpty_nil, List.isEmpty_cons,
      Bool.not_true, Bool.not_false, Bool.false_eq_true, if_false, if_true] <;>
    (try split) <;>
    (refine ⟨fun cfg => by simp [level_written, List.filterMap_cons], ?_⟩
     first
       | exact Or.inl rfl
       | exact Or.inl trivial
       | exact Or.inr ⟨_, rfl⟩)

/-- Every stimulus keeps the outputs following the states. -/
theorem stimulate_follows (env : Env) (tr0 : List Call)
    (hn : (env.task_actuator_cfg_list.map fun c => (c.gpio_port, c.pin)).Nodup)
    (x : Stimulus) (s : State) (h : OutputFollows env tr0 s) :
    OutputFollows env tr0 (stimulate env x s) := by
  cases x with
  | actuator_step =>
    refine ⟨by
      simp only [stimulate, task_actuator_statechart, task_actuator_statechart_for_length]
      exact h.1, ?_⟩
    intro i cfg dta' hc hd'
    obtain ⟨dta, h1, h2, h3⟩ := task_actuator_statechart_for_at env.task_actuator_cfg_list
      s.task_actuator_dta_list i cfg hn h.1 hc
    obtain ⟨n, h4, h5⟩ := h.2 i cfg dta hc h1
    obtain ⟨m, h6, h7⟩ := task_actuator_statechart_index_follows cfg dta n h5
    have hd'' : (task_actuator_statechart_for env.task_actuator_cfg_list
        s.task_actuator_dta_list).1[i]? = some dta' := hd'
    rw [h2, Option.some.injEq] at hd''
    subst hd''
    refine ⟨m, ?_, h7⟩
    show List.filterMap (level_written cfg)
      (s.trace ++ Call.task_actuator_statechart ::
        (task_actuator_statechart_for env.task_actuator_cfg_list
          s.task_actuator_dta_list).2) = _
    rw [List.filterMap_append, List.filterMap_cons]
    simp only [level_written]
    rw [h3, h4, List.append_assoc, h6]
  | system_step =>
    obtain ⟨ht, hd⟩ := task_system_statechart_actuators s
    refine OutputFollows.of_same env tr0 s _ ?_ ht ?_ h
    · rcases hd with hd | ⟨ev, hd⟩
      · exact congrArg List.length hd
      · exact (congrArg List.length hd).trans (List.length_modify _ _ _)
    · intro i d' hi
      rcases hd with hd | ⟨ev, hd⟩
      · exact ⟨d', by simpa [stimulate, hd] using hi, rfl⟩
      · exact modify_mailbox_at _ true ev ID_LED_A i d' (by simpa [stimulate, hd] using hi)
  | write_actuator index flag event =>
    refine OutputFollows.of_same env tr0 s _ (List.length_modify _ _ _) (fun _ => rfl) ?_ h
    intro i d' hi
    exact modify_mailbox_at _ flag event index i d' hi
  | write_system flag event =>
    exact OutputFollows.of_same env tr0 s _ rfl (fun _ => rfl) (fun i d' hi => ⟨d', hi, rfl⟩) h
  | write_queue queue =>
    exact OutputFollows.of_same env tr0 s _ rfl (fun _ => rfl) (fun i d' hi => ⟨d', hi, rfl⟩) h

theorem stimulate_all_follows (env : Env) (tr0 : List Call)
    (hn : (env.task_actuator_cfg_list.map fun c => (c.gpio_port, c.pin)).Nodup) :
    ∀ (stimuli : List Stimulus) (s : State),
      OutputFollows env tr0 s → OutputFollows env tr0 (stimulate_all env stimuli s)
  | [], _, h => h
  | x :: rest, s, h =>
    stimulate_all_follows env tr0 hn rest (stimulate env x s) (stimulate_follows env tr0 hn x s h)

theorem task_actuator_init_follows (env : Env) (p : Option Nat) (s0 : State)
    (hn : (env.task_actuator_cfg_list.map fun c => (c.gpio_port, c.pin)).Nodup)
    (hlen : env.task_actuator_cfg_list.length = s0.task_actuator_dta_list.length) :
    OutputFollows env s0.trace (task_actuator_init env p s0) := by
  have h := task_actuator_init_for_eq _ _ hlen
  refine ⟨by simp [task_actuator_init, h, hlen], ?_⟩
  intro i cfg dta hc hd
  refine ⟨0, ?_, ?_⟩
  · simp only [task_actuator_init, h, List.filterMap_append, List.filterMap_cons, level_written,
      init_writes_at _ i cfg hn hc]
    rfl
  · simp only [task_actuator_init, h, List.getElem?_map] at hd
    cases hx : s0.task_actuator_dta_list[i]? with
    | none => rw [hx] at hd; simp at hd
    | some d0 =>
      rw [hx] at hd
      simp only [Option.map_some', Option.some.injEq] at hd
      rw [← hd]
      rfl

/-- C18. Output follows state: from `task_actuator_init` on, after every finite sequence of
`task_actuator_statechart` steps interleaved with arbitrary producer writes to the
(flag, event) mailboxes (steps of the system task and queue changes included), for every
instance of a table whose entries drive distinct lines with `led_on` different from `led_off`:
the levels written on its line since the init are `led_off`, `led_on`, `led_off`, ... in
strict alternation, its state is Off or On, and the level most recently written is its `led_on`
level if and only if its state is `ST_LED_XX_ON` and its `led_off` level if and only if its
state is `ST_LED_XX_OFF`. -/
theorem output_follows_state (env : Env) (s0 : State) (p : Option Nat)
    (hlen : env.task_actuator_cfg_list.length = s0.task_actuator_dta_list.length)
    (hn : (env.task_actuator_cfg_list.map fun c => (c.gpio_port, c.pin)).Nodup)
    (stimuli : List Stimulus) (i : Nat) (cfg : task_actuator_cfg_t) (dta : task_actuator_dta_t)
    (hc : env.task_actuator_cfg_list[i]? = some cfg)
    (hd : (stimulate_all env stimuli
      (task_actuator_init env p s0)).task_actuator_dta_list[i]? = some dta)
    (hlv : cfg.led_on ≠ cfg.led_off) :
    (∃ n : Nat,
        List.filterMap (level_written cfg)
            (stimulate_all env stimuli (task_actuator_init env p s0)).trace =
          List.filterMap (level_written cfg) s0.trace ++ alternating cfg (n + 1)) ∧
      (dta.state = task_actuator_st_t.ST_LED_XX_OFF ∨
        dta.state = task_actuator_st_t.ST_LED_XX_ON) ∧
      ((List.filterMap (level_written cfg)
            (stimulate_all env stimuli (task_actuator_init env p s0)).trace).getLast? =
          some cfg.led_on ↔ dta.state = task_actuator_st_t.ST_LED_XX_ON) ∧
      ((List.filterMap (level_written cfg)
            (stimulate_all env stimuli (task_actuator_init env p s0)).trace).getLast? =
          some cfg.led_off ↔ dta.state = task_actuator_st_t.ST_LED_XX_OFF) := by
  have hinv := stimulate_all_follows env s0.trace hn stimuli _
    (task_actuator_init_follows env p s0 hn hlen)
  obtain ⟨n, h1, h2⟩ := hinv.2 i cfg dta hc hd
  have hlast : (List.filterMap (level_written cfg)
      (stimulate_all env stimuli (task_actuator_init env p s0)).trace).getLast? =
      some (if n % 2 = 0 then cfg.led_off else cfg.led_on) := by
    rw [h1, alternating_succ, ← List.append_assoc, List.getLast?_concat]
  refine ⟨⟨n, h1⟩, ?_, ?_, ?_⟩
  · rw [h2]; split <;> simp
  · rw [hlast, h2]
    by_cases hp : n % 2 = 0
    · simp [hp, Ne.symm hlv]
    · simp [hp]
  · rw [hlast, h2]
    by_cases hp : n % 2 = 0
    · simp [hp]
    · simp [hp, hlv]

/-- C18, checked on the single LED of the sources (line 16/5, on level 1, off level 0): the
system task raises `EV_LED_XX_ON`, the actuator steps twice, a producer posts `EV_LED_XX_OFF`,
the actuator steps again. -/
theorem output_follows_state_witness :
    sample_env.task_actuator_cfg_list.length = sample_dirty_state.task_actuator_dta_list.length ∧
      (sample_env.task_actuator_cfg_list.map fun c => (c.gpio_port, c.pin)).Nodup ∧
      sample_env.task_actuator_cfg_list[0]? = some sample_cfg ∧
      (stimulate_all sample_env
          [Stimulus.write_actuator 0 true task_actuator_ev_t.EV_LED_XX_ON,
            Stimulus.actuator_step, Stimulus.actuator_step,
            Stimulus.write_actuator 0 true task_actuator_ev_t.EV_LED_XX_OFF,
            Stimulus.actuator_step]
          (task_actuator_init sample_env none sample_dirty_state)).task_actuator_dta_list[0]? =
        some { tick := 0, state := task_actuator_st_t.ST_LED_XX_OFF,
               event := task_actuator_ev_t.EV_LED_XX_OFF, flag := false } ∧
      sample_cfg.led_on ≠ sample_cfg.led_off ∧
      ((List.filterMap (level_written sample_cfg)
            (stimulate_all sample_env
              [Stimulus.write_actuator 0 true task_actuator_ev_t.EV_LED_XX_ON,
                Stimulus.actuator_step, Stimulus.actuator_step,
                Stimulus.write_actuator 0 true task_actuator_ev_t.EV_LED_XX_OFF,
                Stimulus.actuator_step]
              (task_actuator_init sample_env none sample_dirty_state)).trace).getLast? =
          some sample_cfg.led_off ↔
        ({ tick := 0, state := task_actuator_st_t.ST_LED_XX_OFF,
           event := task_actuator_ev_t.EV_LED_XX_OFF, flag := false } :
          task_actuator_dta_t).state = task_actuator_st_t.ST_LED_XX_OFF) :=
  ⟨rfl, by decide, rfl, by decide, by decide,
    (output_follows_state sample_env sample_dirty_state none rfl (by decide)
      [Stimulus.write_actuator 0 true task_actuator_ev_t.EV_LED_XX_ON,
        Stimulus.actuator_step, Stimulus.actuator_step,
        Stimulus.write_actuator 0 true task_actuator_ev_t.EV_LED_XX_OFF,
        Stimulus.actuator_step]
      0 sample_cfg
      { tick := 0, state := task_actuator_st_t.ST_LED_XX_OFF,
        event := task_actuator_ev_t.EV_LED_XX_OFF, flag := false }
      rfl (by decide) (by decide)).2.2.2⟩

/-! ## The busy-wait delay -/

theorem systick_delay_us_while_none (LOAD start target : Nat) (VAL : Nat → Nat) :
    ∀ (fuel k : Nat), (∀ j, k ≤ j → systick_elapsed LOAD start (VAL j) < target) →
      systick_delay_us_while LOAD start target VAL fuel k = none
  | 0, _, _ => rfl
  | fuel + 1, k, h => by
    have hk := h k (Nat.le_refl k)
    simp only [systick_delay_us_while, ge_iff_le, if_neg (Nat.not_le_of_lt hk)]
    exact systick_delay_us_while_none LOAD start target VAL fuel (k + 1)
      (fun j hj => h j (by omega))

theorem systick_delay_us_while_first (LOAD start target : Nat) (VAL : Nat → Nat) (j : Nat) :
    ∀ (fuel k : Nat), k ≤ j → j - k < fuel →
      (∀ i, k ≤ i → i < j → systick_elapsed LOAD start (VAL i) < target) →
      target ≤ systick_elapsed LOAD start (VAL j) →
      systick_delay_us_while LOAD start target VAL fuel k = some (j + 1)
  | 0, _, _, hf, _, _ => by omega
  | fuel + 1, k, hk, hf, h, hj => by
    rcases Nat.eq_or_lt_of_le hk with he | hlt
    · subst he
      simp only [systick_delay_us_while, ge_iff_le, if_pos hj]
    · have hk' := h k (Nat.le_refl k) hlt
      simp only [systick_delay_us_while, ge_iff_le, if_neg (Nat.not_le_of_lt hk')]
      exact systick_delay_us_while_first LOAD start target VAL j fuel (k + 1) (by omega)
        (by omega) (fun i hi hij => h i (by omega) hij) hj

theorem systick_elapsed_eq (LOAD start current : Nat) (hL : LOAD < 2 ^ 24)
    (hs : start ≤ LOAD) (hc : current ≤ LOAD) :
    systick_elapsed LOAD start current =
      if current ≤ start then start - current else LOAD + start - current := by
  unfold systick_elapsed u32_sub u32_add
  split <;> omega

/-- C19. Busy-wait delay bound: `systick_delay_us 0` returns without reading the timer;
otherwise the target is `delay_us * (SystemCoreClock / 1000000)` modulo `2 ^ 32`, and for every
start and current value not above `LOAD` (`LOAD < 2 ^ 24`) the elapsed value computed is
`start - current` when `current <= start` and `LOAD + start - current` otherwise, at most `LOAD`
in both cases; hence the loop is left at the first reading whose elapsed value reaches the
target (with fuel for that many readings the call returns right after it), and when the target
is above `LOAD` no reading satisfies the exit condition and the call returns for no amount of
fuel. -/
theorem busy_wait_delay_bound (SystemCoreClock LOAD : Nat) (VAL : Nat → Nat)
    (hL : LOAD < 2 ^ 24) :
    (∀ fuel, systick_delay_us SystemCoreClock LOAD VAL fuel 0 = some 0) ∧
      (∀ start current, start ≤ LOAD → current ≤ LOAD →
        systick_elapsed LOAD start current =
            (if current ≤ start then start - current else LOAD + start - current) ∧
          systick_elapsed LOAD start current ≤ LOAD) ∧
      (∀ delay_us j fuel, delay_us ≠ 0 → 1 ≤ j → j ≤ fuel →
        (∀ i, 1 ≤ i → i < j →
          systick_elapsed LOAD (VAL 0) (VAL i) <
            (delay_us * (SystemCoreClock / 1000000)) % 2 ^ 32) →
        (delay_us * (SystemCoreClock / 1000000)) % 2 ^ 32 ≤
          systick_elapsed LOAD (VAL 0) (VAL j) →
        systick_delay_us SystemCoreClock LOAD VAL fuel delay_us = some (j + 1)) ∧
      (∀ delay_us fuel, delay_us ≠ 0 → (∀ k, VAL k ≤ LOAD) →
        LOAD < (delay_us * (SystemCoreClock / 1000000)) % 2 ^ 32 →
        systick_delay_us SystemCoreClock LOAD VAL fuel delay_us = none) := by
  have hle : ∀ start current, start ≤ LOAD → current ≤ LOAD →
      systick_elapsed LOAD start current ≤ LOAD := by
    intro start current hs hc
    rw [systick_elapsed_eq LOAD start current hL hs hc]
    split <;> omega
  refine ⟨fun fuel => by simp [systick_delay_us], ?_, ?_, ?_⟩
  · intro start current hs hc
    exact ⟨systick_elapsed_eq LOAD start current hL hs hc, hle start current hs hc⟩
  · intro delay_us j fuel hd hj hf h hjj
    simp only [systick_delay_us, if_neg (Ne.symm hd), u32_mul]
    exact systick_delay_us_while_first LOAD (VAL 0) _ VAL j fuel 1 hj (by omega) h hjj
  · intro delay_us fuel hd hv ht
    simp only [systick_delay_us, if_neg (Ne.symm hd), u32_mul]
    exact systick_delay_us_while_none LOAD (VAL 0) _ VAL fuel 1
      (fun j _ => Nat.lt_of_le_of_lt (hle (VAL 0) (VAL j) (hv 0) (hv j)) ht)

/-- C19, checked for a 72 MHz core with reload value 71999 and a counter read 100 counts lower
each time: a delay of 5 microseconds (target 360) returns after the fourth current reading, and
a delay of 1001 microseconds (target 72072, above the reload value) returns for no fuel. -/
theorem busy_wait_delay_bound_witness :
    (71999 : Nat) < 2 ^ 24 ∧
      systick_delay_us 72000000 71999 (fun k => 71999 - 100 * k) 10 5 = some (4 + 1) ∧
      systick_delay_us 72000000 71999 (fun k => 71999 - 100 * k) 1000 1001 = none :=
  ⟨by norm_num,
    (busy_wait_delay_bound 72000000 71999 (fun k => 71999 - 100 * k) (by norm_num)).2.2.1
      5 4 10 (by decide) (by decide) (by decide)
      (by intro i h1 h2; interval_cases i <;> decide) (by decide),
    (busy_wait_delay_bound 72000000 71999 (fun k => 71999 - 100 * k) (by norm_num)).2.2.2
      1001 1000 (by decide) (fun k => Nat.sub_le _ _) (by decide)⟩

/-! ## The critical sections -/

theorem Balanced.zero : Balanced 0 0 0 := by
  unfold Balanced
  omega

theorem Balanced.tick {fired dec cur : Nat} (h : Balanced fired dec cur) :
    Balanced (fired + 1) dec (u32_inc cur) := by
  unfold Balanced u32_inc at *
  omega

theorem Balanced.dec {fired dec cur : Nat} (h : Balanced fired dec cur) (hpos : 0 < cur) :
    Balanced fired (dec + 1) (u32_dec cur) := by
  unfold Balanced u32_dec at *
  omega

theorem Task.body_ticks (env : Env) (t : Task) (s : State) : (t.body env s).ticks = s.ticks := by
  cases t with
  | sensor => rfl
  | system =>
    have h := task_system_statechart_counters
      { s with g_task_system_cnt := u32_inc s.g_task_system_cnt }
    simp only [State.counters, Counters.mk.injEq] at h
    simp only [Task.body, State.ticks, h]
  | actuator => rfl

theorem Task.init_ticks (env : Env) (t : Task) (s : State) : (t.init env s).ticks = s.ticks := by
  cases t <;> rfl

theorem Task.enter_ticks (t : Task) (s : State) : (t.enter s).ticks = s.ticks := by
  cases t <;> rfl

/-- Outside the guarded accesses and the reset, a step of the foreground leaves the four tick
counters as they are. -/
theorem Machine.fg_ticks (env : Env) (m : Machine) (h : m.pc.touches_tick = false) :
    (m.fg env).s.ticks = m.s.ticks := by
  obtain ⟨s, pc, masked, fired, d1, d2, d3, d4⟩ := m
  cases pc <;> simp only [PC.touches_tick, Bool.true_eq_false] at h <;>
    simp only [Machine.fg]
  case init_begin => rfl
  case init_for index =>
    cases hi : Task.at_index index with
    | none => rfl
    | some t => exact Task.init_ticks env t s
  case upd_while b => cases b <;> rfl
  case upd_pass => rfl
  case upd_for index => split <;> rfl
  case upd_call index =>
    cases hi : Task.at_index index with
    | none => rfl
    | some t => exact Task.enter_ticks t _
  case task_while t b => cases b <;> rfl
  case task_body t => exact Task.body_ticks env t s
  case upd_measure index => rfl

/-- Outside the calls of task entry points and the statechart steps, a step of the foreground
adds no entry into a task function to the history. -/
theorem Machine.fg_task_calls (env : Env) (m : Machine) (h : m.pc.runs_task = false) :
    List.filterMap task_call (m.fg env).s.trace = List.filterMap task_call m.s.trace := by
  obtain ⟨s, pc, masked, fired, d1, d2, d3, d4⟩ := m
  cases pc <;> simp only [PC.runs_task, Bool.true_eq_false] at h <;>
    simp only [Machine.fg]
  case init_begin => simp [State.log, task_call]
  case upd_test_a =>
    simp only [Machine.app_test, apply_ite Machine.s, apply_ite State.trace, ite_self]
  case upd_test_b =>
    simp only [Machine.app_test, apply_ite Machine.s, apply_ite State.trace, ite_self]
  case upd_while b => cases b <;> rfl
  case upd_for index => split <;> rfl
  case task_test_a t =>
    cases t <;>
      simp only [Machine.task_test, Machine.count_dec, Task.set_tick_cnt, apply_ite Machine.s,
        apply_ite State.trace, ite_self]
  case task_test_b t =>
    cases t <;>
      simp only [Machine.task_test, Machine.count_dec, Task.set_tick_cnt, apply_ite Machine.s,
        apply_ite State.trace, ite_self]
  case task_while t b => cases b <;> rfl
  case upd_measure index => simp [State.log, task_call, app_update_variables]

theorem Machine.balanced_of_same (m m' : Machine) (h0 : m'.fired = m.fired)
    (h1 : m'.dec_app = m.dec_app) (h2 : m'.dec_sensor = m.dec_sensor)
    (h3 : m'.dec_system = m.dec_system) (h4 : m'.dec_actuator = m.dec_actuator)
    (ht : m'.s.ticks = m.s.ticks) (h : m.balanced) : m'.balanced := by
  simp only [State.ticks, Prod.mk.injEq] at ht
  obtain ⟨t1, t2, t3, t4⟩ := ht
  simp only [Machine.balanced, h0, h1, h2, h3, h4, t1, t2, t3, t4]
  exact h

theorem Machine.balanced_set_pc (m : Machine) (p : PC) (h : m.balanced) :
    ({ m with pc := p } : Machine).balanced := h

theorem Machine.balanced_set_masked (m : Machine) (b : Bool) (p : PC) (h : m.balanced) :
    ({ m with masked := b, pc := p } : Machine).balanced := h

theorem Machine.balanced_set_app (m : Machine) (v : Nat) (p : PC) (h : m.balanced)
    (hv : Balanced m.fired (m.dec_app + 1) v) :
    ({ m with s := { m.s with g_app_tick_cnt := v }, dec_app := m.dec_app + 1, pc := p } :
      Machine).balanced :=
  ⟨hv, h.2.1, h.2.2.1, h.2.2.2⟩

theorem Machine.balanced_set_sensor (m : Machine) (v : Nat) (p : PC) (h : m.balanced)
    (hv : Balanced m.fired (m.dec_sensor + 1) v) :
    ({ m with s := { m.s with g_task_sensor_tick_cnt := v }, dec_sensor := m.dec_sensor + 1,
              pc := p } : Machine).balanced :=
  ⟨h.1, hv, h.2.2.1, h.2.2.2⟩

theorem Machine.balanced_set_system (m : Machine) (v : Nat) (p : PC) (h : m.balanced)
    (hv : Balanced m.fired (m.dec_system + 1) v) :
    ({ m with s := { m.s with g_task_system_tick_cnt := v }, dec_system := m.dec_system + 1,
              pc := p } : Machine).balanced :=
  ⟨h.1, h.2.1, hv, h.2.2.2⟩

theorem Machine.balanced_set_actuator (m : Machine) (v : Nat) (p : PC) (h : m.balanced)
    (hv : Balanced m.fired (m.dec_actuator + 1) v) :
    ({ m with s := { m.s with g_task_actuator_tick_cnt := v },
              dec_actuator := m.dec_actuator + 1, pc := p } : Machine).balanced :=
  ⟨h.1, h.2.1, h.2.2.1, hv⟩

/-- The guarded decrement of `app_update` keeps the ledger balanced. -/
theorem Machine.app_test_balanced (m : Machine) (next : Bool → PC) (h : m.balanced) :
    (m.app_test next).balanced := by
  by_cases hpos : 0 < m.s.g_app_tick_cnt
  · rw [Machine.app_test, G_APP_TICK_CNT_INI, if_pos hpos]
    exact Machine.balanced_set_app m _ _ h (h.1.dec hpos)
  · rw [Machine.app_test, G_APP_TICK_CNT_INI, if_neg hpos]
    exact Machine.balanced_set_pc m _ h

theorem Machine.app_test_masked (m : Machine) (next : Bool → PC) :
    (m.app_test next).masked = m.masked := by
  simp only [Machine.app_test, apply_ite Machine.masked, ite_self]

theorem Machine.app_test_pc (m : Machine) (next : Bool → PC) :
    ∃ b, (m.app_test next).pc = next b := by
  simp only [Machine.app_test, apply_ite Machine.pc]
  by_cases hpos : G_APP_TICK_CNT_INI < m.s.g_app_tick_cnt
  · exact ⟨true, by simp only [hpos, if_true]⟩
  · exact ⟨false, by simp only [hpos, if_false]⟩

/-- The guarded decrement of a `task_update` keeps the ledger balanced. -/
theorem Machine.task_test_balanced (m : Machine) (t : Task) (next : Bool → PC)
    (h : m.balanced) : (m.task_test t next).balanced := by
  by_cases hpos : 0 < t.tick_cnt m.s
  · rw [Machine.task_test, if_pos hpos]
    cases t
    · exact Machine.balanced_set_sensor m _ _ h (h.2.1.dec hpos)
    · exact Machine.balanced_set_system m _ _ h (h.2.2.1.dec hpos)
    · exact Machine.balanced_set_actuator m _ _ h (h.2.2.2.dec hpos)
  · rw [Machine.task_test, if_neg hpos]
    exact Machine.balanced_set_pc m _ h

theorem Machine.task_test_masked (m : Machine) (t : Task) (next : Bool → PC) :
    (m.task_test t next).masked = m.masked := by
  cases t <;>
    simp only [Machine.task_test, Machine.count_dec, apply_ite Machine.masked, ite_self]

theorem Machine.task_test_pc (m : Machine) (t : Task) (next : Bool → PC) :
    ∃ b, (m.task_test t next).pc = next b := by
  simp only [Machine.task_test, apply_ite Machine.pc]
  by_cases hpos : 0 < t.tick_cnt m.s
  · exact ⟨true, by simp only [hpos, if_true]⟩
  · exact ⟨false, by simp only [hpos, if_false]⟩

/-- The tick interrupt keeps the ledger balanced. -/
theorem Machine.irq_balanced (m : Machine) (h : m.balanced) : m.irq.balanced := by
  obtain ⟨h1, h2, h3, h4⟩ := h
  exact ⟨h1.tick, h2.tick, h3.tick, h4.tick⟩

/-- Interrupts are masked exactly between a `CPSID i` and the matching `CPSIE i`: a step of the
foreground keeps it so. -/
theorem Machine.fg_masked (env : Env) (m : Machine) (hm : m.masked = m.pc.in_critical) :
    (m.fg env).masked = (m.fg env).pc.in_critical := by
  obtain ⟨s, pc, masked, fired, d1, d2, d3, d4⟩ := m
  cases pc <;> simp only [PC.in_critical] at hm <;> subst hm <;> simp only [Machine.fg] <;>
    try rfl
  case init_for index => cases Task.at_index index <;> rfl
  case upd_test_a =>
    obtain ⟨b, hb⟩ := Machine.app_test_pc
      { s := s, pc := PC.upd_test_a, masked := true, fired := fired, dec_app := d1,
        dec_sensor := d2, dec_system := d3, dec_actuator := d4 } PC.upd_cpsie_a
    rw [hb, Machine.app_test_masked]
    rfl
  case upd_test_b =>
    obtain ⟨b, hb⟩ := Machine.app_test_pc
      { s := s, pc := PC.upd_test_b, masked := true, fired := fired, dec_app := d1,
        dec_sensor := d2, dec_system := d3, dec_actuator := d4 } PC.upd_cpsie_b
    rw [hb, Machine.app_test_masked]
    rfl
  case upd_while b => cases b <;> rfl
  case upd_for index => split <;> rfl
  case upd_call index => cases Task.at_index index <;> rfl
  case task_test_a t =>
    obtain ⟨b, hb⟩ := Machine.task_test_pc
      { s := s, pc := PC.task_test_a t, masked := true, fired := fired, dec_app := d1,
        dec_sensor := d2, dec_system := d3, dec_actuator := d4 } t (PC.task_cpsie_a t)
    rw [hb, Machine.task_test_masked]
    rfl
  case task_test_b t =>
    obtain ⟨b, hb⟩ := Machine.task_test_pc
      { s := s, pc := PC.task_test_b t, masked := true, fired := fired, dec_app := d1,
        dec_sensor := d2, dec_system := d3, dec_actuator := d4 } t (PC.task_cpsie_b t)
    rw [hb, Machine.task_test_masked]
    rfl
  case task_while t b => cases b <;> rfl

/-- Outside the accesses to the tick counters, a step of the foreground leaves the ledger as it
is. -/
theorem Machine.fg_ledger (env : Env) (m : Machine) (h : m.pc.touches_tick = false) :
    (m.fg env).fired = m.fired ∧ (m.fg env).dec_app = m.dec_app ∧
      (m.fg env).dec_sensor = m.dec_sensor ∧ (m.fg env).dec_system = m.dec_system ∧
      (m.fg env).dec_actuator = m.dec_actuator := by
  obtain ⟨s, pc, masked, fired, d1, d2, d3, d4⟩ := m
  cases pc <;> simp only [PC.touches_tick, Bool.true_eq_false] at h <;>
    simp only [Machine.fg] <;>
    first
    | exact ⟨trivial, trivial, trivial, trivial, trivial⟩
    | exact ⟨rfl, rfl, rfl, rfl, rfl⟩
    | skip
  case init_for index => cases Task.at_index index <;> exact ⟨rfl, rfl, rfl, rfl, rfl⟩
  case upd_while b => cases b <;> exact ⟨rfl, rfl, rfl, rfl, rfl⟩
  case upd_for index => split <;> exact ⟨rfl, rfl, rfl, rfl, rfl⟩
  case upd_call index => cases Task.at_index index <;> exact ⟨rfl, rfl, rfl, rfl, rfl⟩
  case task_while t b => cases b <;> exact ⟨rfl, rfl, rfl, rfl, rfl⟩

/-- Before the reset of the tick counters in `app_init` a step of the foreground does not get
past the reset. -/
theorem Machine.fg_before_reset (env : Env) (m : Machine) (h : m.pc.after_reset = false) :
    (m.fg env).pc.after_reset = true → m.pc.touches_tick = true := by
  obtain ⟨s, pc, masked, fired, d1, d2, d3, d4⟩ := m
  cases pc <;> simp only [PC.after_reset, Bool.true_eq_false] at h <;>
    simp only [Machine.fg, PC.after_reset, PC.touches_tick, Bool.false_eq_true, imp_self]
  case init_for index => cases Task.at_index index <;> simp [PC.after_reset]

/-- An access to the tick counters keeps the ledger balanced, and the reset in `app_init`
balances it. -/
theorem Machine.fg_balanced_tick (env : Env) (m : Machine)
    (hb : m.pc.after_reset = true → m.balanced) (ht : m.pc.touches_tick = true) :
    (m.fg env).balanced := by
  obtain ⟨s, pc, masked, fired, d1, d2, d3, d4⟩ := m
  cases pc <;> simp only [PC.touches_tick, Bool.false_eq_true] at ht <;>
    simp only [Machine.fg]
  case init_reset => exact ⟨Balanced.zero, Balanced.zero, Balanced.zero, Balanced.zero⟩
  case upd_test_a => exact Machine.app_test_balanced _ _ (hb rfl)
  case upd_test_b => exact Machine.app_test_balanced _ _ (hb rfl)
  case task_test_a t => exact Machine.task_test_balanced _ _ _ (hb rfl)
  case task_test_b t => exact Machine.task_test_balanced _ _ _ (hb rfl)

/-- From the reset of the tick counters in `app_init` on, a step of the foreground keeps the
ledger balanced. -/
theorem Machine.fg_balanced (env : Env) (m : Machine)
    (hb : m.pc.after_reset = true → m.balanced) :
    (m.fg env).pc.after_reset = true → (m.fg env).balanced := by
  intro hnext
  by_cases ht : m.pc.touches_tick = true
  · exact Machine.fg_balanced_tick env m hb ht
  · have ht2 : m.pc.touches_tick = false := by simpa using ht
    by_cases ha : m.pc.after_reset = true
    · obtain ⟨l0, l1, l2, l3, l4⟩ := Machine.fg_ledger env m ht2
      exact Machine.balanced_of_same m _ l0 l1 l2 l3 l4 (Machine.fg_ticks env m ht2) (hb ha)
    · have ha2 : m.pc.after_reset = false := by simpa using ha
      exact absurd (Machine.fg_before_reset env m ha2 hnext) ht

theorem PC.touches_tick_in_critical (pc : PC) (h : pc.touches_tick = true) :
    pc.in_critical = true := by
  cases pc <;> simp only [PC.touches_tick, Bool.false_eq_true] at h <;> rfl

theorem PC.runs_task_not_in_critical (pc : PC) (h : pc.runs_task = true) :
    pc.in_critical = false := by
  cases pc <;> simp only [PC.runs_task, Bool.false_eq_true] at h <;> rfl

/-- Along every admissible interleaving the mask follows the critical sections and, from the
reset of the tick counters on, the ledger stays balanced. -/
theorem exec_invariant (env : Env) (sched : List Event) :
    ∀ m m' : Machine, exec env sched m = some m' →
      m.masked = m.pc.in_critical → (m.pc.after_reset = true → m.balanced) →
      m'.masked = m'.pc.in_critical ∧ (m'.pc.after_reset = true → m'.balanced) := by
  induction sched with
  | nil =>
    intro m m' h hm hb
    simp only [exec, Option.some.injEq] at h
    subst h
    exact ⟨hm, hb⟩
  | cons e rest ih =>
    intro m m' h hm hb
    cases e with
    | fg =>
      simp only [exec] at h
      exact ih (m.fg env) m' h (Machine.fg_masked env m hm) (Machine.fg_balanced env m hb)
    | irq =>
      simp only [exec] at h
      split at h
      · exact ih m.irq m' h hm (fun ha => Machine.irq_balanced m (hb ha))
      · cases h

/-- C13. Critical-section discipline, in the model where the foreground (`app_init`, then
`app_update` over and over, with the `task_update` entry points it calls) runs statement by
statement and `HAL_SYSTICK_Callback` may fire before any statement at which interrupts are
unmasked. At every point `m` reached by any such interleaving from the call of `app_init`:
if the statement about to run reads, tests, decrements or resets a tick counter, interrupts are
masked (it lies between a `CPSID i` and the matching `CPSIE i`); if it calls a task entry point
or runs a statechart step, interrupts are unmasked; every other statement leaves the four tick
counters as they are, and only the calls and statechart steps add entries into task functions
to the history; and, from the reset in `app_init` on, for each of the four tick counters the
value is a `uint32_t`, the decrements performed plus the current value never exceed the ticks
fired since the reset, and below `2 ^ 32` ticks they are equal to them. -/
theorem critical_section_discipline (env : Env) (s0 : State) (sched : List Event) (m : Machine)
    (h : exec env sched (Machine.start s0) = some m) :
    (m.pc.touches_tick = true → m.masked = true) ∧
    (m.pc.runs_task = true → m.masked = false) ∧
    (m.pc.touches_tick = false → (m.fg env).s.ticks = m.s.ticks) ∧
    (m.pc.runs_task = false →
      List.filterMap task_call (m.fg env).s.trace = List.filterMap task_call m.s.trace) ∧
    (m.pc.after_reset = true →
      Balanced m.fired m.dec_app m.s.g_app_tick_cnt ∧
      Balanced m.fired m.dec_sensor m.s.g_task_sensor_tick_cnt ∧
      Balanced m.fired m.dec_system m.s.g_task_system_tick_cnt ∧
      Balanced m.fired m.dec_actuator m.s.g_task_actuator_tick_cnt) ∧
    (m.pc.after_reset = true → m.fired < 2 ^ 32 →
      m.fired = m.dec_app + m.s.g_app_tick_cnt ∧
      m.fired = m.dec_sensor + m.s.g_task_sensor_tick_cnt ∧
      m.fired = m.dec_system + m.s.g_task_system_tick_cnt ∧
      m.fired = m.dec_actuator + m.s.g_task_actuator_tick_cnt) := by
  obtain ⟨hm, hb⟩ := exec_invariant env sched (Machine.start s0) m h rfl
    (fun ha => by cases ha)
  refine ⟨fun ht => ?_, fun hr => ?_, Machine.fg_ticks env m, Machine.fg_task_calls env m,
    hb, fun ha hf => ?_⟩
  · rw [hm]
    exact PC.touches_tick_in_critical m.pc ht
  · rw [hm]
    exact PC.runs_task_not_in_critical m.pc hr
  · obtain ⟨h1, h2, h3, h4⟩ := hb ha
    exact ⟨h1.2.2 hf, h2.2.2 hf, h3.2.2 hf, h4.2.2 hf⟩

/-- C13, checked on the sample board: `app_init` runs to its end, two ticks fire before
`app_update` begins, a third fires after the first step of the sensor task, and the foreground
is stopped at the test that follows. Interrupts are masked there, three ticks have fired, the
scheduler and the sensor task have taken one each, and the ledger balances. -/
theorem critical_section_discipline_witness :
    ∃ m, exec sample_env sample_schedule (Machine.start sample_dirty_state) = some m ∧
      (m.pc, m.masked, m.fired) = (PC.task_test_b Task.sensor, true, 3) ∧
      (m.dec_app, m.dec_sensor, m.dec_system, m.dec_actuator) = (1, 1, 0, 0) ∧
      m.s.ticks = (2, 2, 3, 3) ∧
      (m.pc.touches_tick = true → m.masked = true) ∧
      (m.pc.after_reset = true → m.fired < 2 ^ 32 →
        m.fired = m.dec_app + m.s.g_app_tick_cnt ∧
        m.fired = m.dec_sensor + m.s.g_task_sensor_tick_cnt ∧
        m.fired = m.dec_system + m.s.g_task_system_tick_cnt ∧
        m.fired = m.dec_actuator + m.s.g_task_actuator_tick_cnt) :=
  have hs : (exec sample_env sample_schedule (Machine.start sample_dirty_state)).isSome = true :=
    rfl
  ⟨(exec sample_env sample_schedule (Machine.start sample_dirty_state)).get hs,
    (Option.some_get hs).symm, rfl, rfl, rfl,
    (critical_section_discipline sample_env sample_dirty_state sample_schedule _
      (Option.some_get hs).symm).1,
    (critical_section_discipline sample_env sample_dirty_state sample_schedule _
      (Option.some_get hs).symm).2.2.2.2.2⟩

end TdseModel
